import Mathlib

/-!
Verification development for the datapeek table-data route
(`src/server/routes/query.ts`, helpers in `src/server/db/mssql.ts`, and the
client-side query reconstruction in
`src/client/components/QueryEditorEnhanced.tsx`).

The route handler `GET /:schema/:table/data` is shallowly embedded as pure
Lean functions over an explicit database model:

* JavaScript objects (result rows) are association lists `List (String × Val)`
  in property order, with JS semantics for `delete` and property assignment;
* the external SQL engine is modelled with standard relational semantics:
  `LEFT JOIN` on a unique referenced key is a first-match lookup, `WHERE`
  is `List.filter`, `ORDER BY` is a total-comparator sort, `OFFSET/FETCH`
  is `drop/take`, and `ROW_NUMBER() OVER (ORDER BY (SELECT NULL))` numbers
  the rows of the relation in their base order starting from 1;
* `INFORMATION_SCHEMA` lookups are reads of the modelled catalog
  (column lists in ordinal order); catalog string comparison is modelled
  as exact equality, and JavaScript `toLowerCase`/`toUpperCase` as the
  ASCII case maps `Char.toLower`/`Char.toUpper`.
-/

namespace Datapeek

/-- A SQL scalar value as it appears in a JS result row: `NULL`, a number,
or a string. -/
inductive Val where
  | null
  | num (n : Int)
  | str (s : String)
deriving Repr, DecidableEq

/-- A result row: a JS object modelled as an association list of
(property name, value) pairs in property order. -/
abbrev Row := List (String × Val)

/-- Property read `row[k]` (JS objects have at most one binding per key;
we read the first). -/
def getField (r : Row) (k : String) : Option Val :=
  (r.find? (fun kv => kv.1 == k)).map (fun kv => kv.2)

/-- JS `delete row[k]`. -/
def deleteField (r : Row) (k : String) : Row :=
  r.filter (fun kv => kv.1 != k)

/-- JS property assignment `row[k] = v`: updates in place when the key is
present, otherwise appends the property at the end of the object. -/
def setField (r : Row) (k : String) (v : Val) : Row :=
  if r.any (fun kv => kv.1 == k) then
    r.map (fun kv => if kv.1 == k then (k, v) else kv)
  else
    r ++ [(k, v)]

/-- ASCII lowercasing, the model of JavaScript `String.prototype.toLowerCase`
on the identifiers this code handles. -/
def lowerStr (s : String) : String :=
  String.mk (s.data.map Char.toLower)

/-- ASCII uppercasing, the model of JavaScript `String.prototype.toUpperCase`. -/
def upperStr (s : String) : String :=
  String.mk (s.data.map Char.toUpper)

/-- `pat` is a prefix of `l` (character lists). -/
def isPrefixL : List Char → List Char → Bool
  | [], _ => true
  | _ :: _, [] => false
  | a :: as, b :: bs => a == b && isPrefixL as bs

/-- `pat` occurs as a contiguous substring of `l`. -/
def hasSubL (pat : List Char) : List Char → Bool
  | [] => isPrefixL pat []
  | c :: rest => isPrefixL pat (c :: rest) || hasSubL pat rest

/-- Model of JavaScript `s.includes(pat)` (substring containment). -/
def strIncludes (s pat : String) : Bool :=
  hasSubL pat.data s.data

/-- Column metadata from `INFORMATION_SCHEMA.COLUMNS`: name and declared
data type.  Column lists are kept in ordinal position order. -/
structure ColumnMeta where
  name : String
  dataType : String
deriving Repr, DecidableEq

/-- `kcu`-derived foreign-key edge of a table
(`fkColumnName`, `referencedSchema`, `referencedTable`, `referencedColumn`). -/
structure ForeignKeyEdge where
  fkColumn : String
  referencedSchema : String
  referencedTable : String
  referencedColumn : String
deriving Repr, DecidableEq

/-- One table of the modelled database: its identity, its catalog column
list (ordinal order), its rows, and its outgoing foreign-key edges. -/
structure DbTable where
  schemaName : String
  tableName : String
  columns : List ColumnMeta
  rows : List Row
  foreignKeys : List ForeignKeyEdge
deriving Repr, DecidableEq

/-- The modelled database: the set of tables the catalog knows about. -/
abbrev Database := List DbTable

/-- Catalog lookup of a table by schema and name. -/
def findTable (db : Database) (s t : String) : Option DbTable :=
  db.find? (fun tb => tb.schemaName == s && tb.tableName == t)

/-! ### Foreign-key display-column heuristic

Embeds the display-column loop of the data handler
(`query.ts` lines 694–739): first a priority scan for a column named
`name`, `title`, `description` or `code` (case-insensitive), then a scan
for the first column whose declared type contains one of the string-family
type names. -/

/-- The priority list `preferredNames` from the source. -/
def preferredNames : List String :=
  ["name", "title", "description", "code"]

/-- The string-family type names `stringTypes` from the source. -/
def stringTypes : List String :=
  ["varchar", "nvarchar", "char", "nchar", "text", "ntext"]

/-- The `for (const preferredName of preferredNames)` loop with its
`break`: returns the first preferred name that some column matches
case-insensitively, as that column's catalog name. -/
def firstPreferred (refColumns : List ColumnMeta) : List String → Option String
  | [] => none
  | p :: ps =>
    match refColumns.find? (fun c => lowerStr c.name == lowerStr p) with
    | some c => some c.name
    | none => firstPreferred refColumns ps

/-- `col.DATA_TYPE.toLowerCase().includes(type)` over `stringTypes`. -/
def isStringFamily (dataType : String) : Bool :=
  stringTypes.any (fun t => strIncludes (lowerStr dataType) t)

/-- The resolved display column for a referenced table's column list:
priority-name match first, then the first string-typed column by ordinal,
else none. -/
def findDisplayColumn (refColumns : List ColumnMeta) : Option String :=
  match firstPreferred refColumns preferredNames with
  | some c => some c
  | none =>
    (refColumns.find? (fun c => isStringFamily c.dataType)).map (fun c => c.name)

/-- Modelled from the spec (§4.3): the display column is (a) a column whose
name case-insensitively equals one of `name`, `title`, `description`,
`code`, in that priority order; else (b) the first column, by ordinal,
whose declared type is a known string family; else none.  Stated with
`List.findSome?` over the priority list for comparison with the source
loop. -/
def displayColumnSpec (refColumns : List ColumnMeta) : Option String :=
  match preferredNames.findSome?
      (fun p => (refColumns.find? (fun c => lowerStr c.name == lowerStr p)).map
        (fun c => c.name)) with
  | some c => some c
  | none =>
    (refColumns.find? (fun c => isStringFamily c.dataType)).map (fun c => c.name)

/-! ### Resolved foreign-key joins -/

/-- The `fkJoins` entries built by the handler: one per foreign key with a
resolved display column. -/
structure FkJoin where
  fkAlias : String
  refSchema : String
  refTable : String
  fkColumn : String
  refColumn : String
  displayColumn : String
deriving Repr, DecidableEq

/-- The `for (const fk of foreignKeys)` loop (`query.ts` 694–740): each edge
whose referenced table's columns yield a display column becomes an
`FkJoin` with alias `fk_<fkColumn>`; edges without one are skipped.  The
batched catalog lookup is the read of each referenced table's column list
(`columnsByTable[tableKey] || []`). -/
def resolveFkJoins (db : Database) (fks : List ForeignKeyEdge) : List FkJoin :=
  fks.filterMap (fun fk =>
    let refCols := match findTable db fk.referencedSchema fk.referencedTable with
      | some rt => rt.columns
      | none => []
    (findDisplayColumn refCols).map (fun d =>
      { fkAlias := "fk_" ++ fk.fkColumn
        refSchema := fk.referencedSchema
        refTable := fk.referencedTable
        fkColumn := fk.fkColumn
        refColumn := fk.referencedColumn
        displayColumn := d }))

/-- SQL equality used by the join condition: `NULL` matches nothing. -/
def valEqSql : Val → Val → Bool
  | Val.num a, Val.num b => a == b
  | Val.str a, Val.str b => a == b
  | _, _ => false

/-- The display value a `LEFT JOIN` contributes for one row: the referenced
row's display column where the base row's FK value equals the referenced
column, else `NULL`.  First-match lookup models the assumption (spec §4.2)
that referenced columns are effectively unique. -/
def displayVal (db : Database) (j : FkJoin) (r : Row) : Val :=
  match getField r j.fkColumn with
  | none => Val.null
  | some v =>
    match findTable db j.refSchema j.refTable with
    | none => Val.null
    | some rt =>
      match rt.rows.find? (fun rr =>
          match getField rr j.refColumn with
          | some w => valEqSql w v
          | none => false) with
      | some rr => (getField rr j.displayColumn).getD Val.null
      | none => Val.null

/-- The joined row seen by the data query: `[t].*` followed by one
`<alias>.[<displayColumn>] as [<fkColumn>_display]` field per join. -/
def joinRow (db : Database) (joins : List FkJoin) (r : Row) : Row :=
  r ++ joins.map (fun j => (j.fkColumn ++ "_display", displayVal db j r))

/-! ### Filter validation and WHERE construction (`query.ts` 507–555) -/

/-- One generated predicate `[column] LIKE @paramName`. -/
structure LikePred where
  column : String
  paramName : String
deriving Repr, DecidableEq

/-- One bound query parameter. -/
structure SqlParam where
  name : String
  value : String
deriving Repr, DecidableEq

/-- JS `filters[col]` on the parsed filter dictionary. -/
def assocLookup (filters : List (String × String)) (col : String) : Option String :=
  (filters.find? (fun f => f.1 == col)).map (fun f => f.2)

/-- ASCII trim, the model of JavaScript `String.prototype.trim`. -/
def trimStr (s : String) : String :=
  String.mk (((s.data.dropWhile Char.isWhitespace).reverse.dropWhile
    Char.isWhitespace).reverse)

/-- The batched filter-column validation: one `IN`-list catalog query
returning, of the candidate filter columns, those that exist on the table.
A thrown lookup (`lookupFails`) is caught and all filters are ignored. -/
def validateFilterColumns (catalogCols : List ColumnMeta)
    (filters : List (String × String)) (lookupFails : Bool) : List String :=
  if filters.isEmpty then []
  else if lookupFails then []
  else (catalogCols.filter (fun c => filters.any (fun f => f.1 == c.name))).map
    (fun c => c.name)

/-- The WHERE construction: for each validated column with a non-blank
pattern, one `[col] LIKE @filter<i>` predicate and one bound parameter
whose value is the trimmed pattern wrapped in `%` wildcards. -/
def buildWhere (filterColumns : List String) (filters : List (String × String)) :
    List LikePred × List SqlParam :=
  let validFilters := filterColumns.filter (fun col =>
    match assocLookup filters col with
    | some v => trimStr v != ""
    | none => false)
  (validFilters.enum.map (fun p =>
      { column := p.2, paramName := "filter" ++ toString p.1 }),
   validFilters.enum.map (fun p =>
      { name := "filter" ++ toString p.1
        value := "%" ++ trimStr ((assocLookup filters p.2).getD "") ++ "%" }))

/-- Textual content of a SQL value, for `LIKE` evaluation. -/
def valText : Val → Option String
  | Val.null => none
  | Val.num n => some (toString n)
  | Val.str s => some s

/-- SQL `LIKE` with `%` wildcards over character lists. -/
def likeL : List Char → List Char → Bool
  | [], [] => true
  | [], _ :: _ => false
  | p :: ps, s =>
    if p == '%' then
      likeL ps s ||
        (match s with
         | [] => false
         | _ :: s1 => likeL (p :: ps) s1)
    else
      match s with
      | [] => false
      | c :: cs => p == c && likeL ps cs
termination_by pat s => (pat.length, s.length)

/-- One predicate evaluated on a row: `column LIKE pattern` with the
pattern read from the bound parameter (NULL never matches). -/
def predHolds (params : List SqlParam) (p : LikePred) (r : Row) : Bool :=
  match (params.find? (fun q => q.name == p.paramName)).map (fun q => q.value) with
  | none => false
  | some pat =>
    match valText ((getField r p.column).getD Val.null) with
    | none => false
    | some s => likeL pat.data s.data

/-- The conjunction of the generated WHERE predicates. -/
def whereSat (preds : List LikePred) (params : List SqlParam) (r : Row) : Bool :=
  preds.all (fun p => predHolds params p r)

/-! ### Sort-column resolution and direction normalization
(`query.ts` 562–608) -/

/-- `sortDirection?.toUpperCase() === 'DESC' ? 'DESC' : 'ASC'`. -/
def normalizeDirection (sortDirection : String) : String :=
  if upperStr sortDirection == "DESC" then "DESC" else "ASC"

/-- Effective ORDER BY column: a provided sort column survives only when
its validation lookup does not throw and finds it in the catalog;
otherwise (or when none is provided) the table's first column by ordinal,
or none for a zero-column table. -/
def resolveOrderColumn (cols : List ColumnMeta) (sortColumn : String)
    (sortLookupFails : Bool) : Option String :=
  let c1 :=
    if sortColumn != "" then
      if sortLookupFails then ""
      else if cols.any (fun c => c.name == sortColumn) then sortColumn
      else ""
    else ""
  if c1 != "" then some c1
  else (cols.head?).map (fun c => c.name)

/-! ### ORDER BY, pagination and the ROW_NUMBER fallback -/

/-- Character-list lexicographic comparison (model of SQL string order). -/
def charListLe : List Char → List Char → Bool
  | [], _ => true
  | _ :: _, [] => false
  | a :: as, b :: bs =>
    if a.val < b.val then true
    else if b.val < a.val then false
    else charListLe as bs

/-- A total comparison on values realizing the engine's ORDER BY:
`NULL` first, then numbers, then strings. -/
def valLe : Val → Val → Bool
  | Val.null, _ => true
  | _, Val.null => false
  | Val.num a, Val.num b => a ≤ b
  | Val.num _, Val.str _ => true
  | Val.str _, Val.num _ => false
  | Val.str a, Val.str b => charListLe a.data b.data

/-- Row comparison by the effective order column and direction. -/
def rowLe (col : String) (desc : Bool) (a b : Row) : Bool :=
  let va := (getField a col).getD Val.null
  let vb := (getField b col).getD Val.null
  if desc then valLe vb va else valLe va vb

/-- Insert into a sorted list (kernel-computable stable sort helper). -/
def insertSorted {α : Type} (le : α → α → Bool) (a : α) : List α → List α
  | [] => [a]
  | b :: bs => if le a b then a :: b :: bs else b :: insertSorted le a bs

/-- Stable insertion sort: the model of the engine's ORDER BY. -/
def sortRows {α : Type} (le : α → α → Bool) : List α → List α
  | [] => []
  | a :: as => insertSorted le a (sortRows le as)

/-- `OFFSET @offset ROWS FETCH NEXT @pageSize ROWS ONLY` on an ordered
relation. -/
def offsetPaginate (l : List Row) (offset pageSize : Nat) : List Row :=
  (l.drop offset).take pageSize

/-- `ROW_NUMBER() OVER (ORDER BY (SELECT NULL))`: number the rows of the
relation in base order, `rn` starting at `k + 1`. -/
def addRnFrom : List Row → Nat → List Row
  | [], _ => []
  | r :: rs, k => (r ++ [("rn", Val.num (Int.ofNat (k + 1)))]) :: addRnFrom rs (k + 1)

/-- The `rn` value of a row (0 when absent or non-numeric). -/
def rnOf (r : Row) : Int :=
  match getField r "rn" with
  | some (Val.num n) => n
  | _ => 0

/-- The fallback branch (`query.ts` 794–831): number the filtered base
rows, join, keep `offset < rn ≤ offset + pageSize` in `rn` order, then
strip the `rn` helper column from each result row. -/
def rnFallback (db : Database) (joins : List FkJoin) (filteredRows : List Row)
    (offset pageSize : Nat) : List Row :=
  (((addRnFrom filteredRows 0).map (joinRow db joins)).filter
      (fun r => decide ((offset : Int) < rnOf r) &&
        decide (rnOf r ≤ (offset : Int) + (pageSize : Int)))).map
    (fun r => deleteField r "rn")

/-! ### Display-only result shaping (`query.ts` 833–850) -/

/-- For each FK column with a join: delete the key column, then (when the
aliased display field is present) assign its value under the key column's
name and delete the display field. -/
def shapeDisplayOnly (fkColumnNames : List String) (r : Row) : Row :=
  fkColumnNames.foldl (fun acc fkCol =>
    let r1 := deleteField acc fkCol
    let d := fkCol ++ "_display"
    match getField r1 d with
    | some v => deleteField (setField r1 fkCol v) d
    | none => r1) r

/-! ### Request parsing (`query.ts` 483–489)

`parseInt` is external; its outcome is an `Option Int` (`none` for an
absent or unparsable parameter, which `parseInt` turns into `NaN`). -/

/-- `parseInt(req.query.page) || 1` (`0` and `NaN` are falsy). -/
def parsePage (raw : Option Int) : Int :=
  match raw with
  | none => 1
  | some v => if v = 0 then 1 else v

/-- `Math.min(parseInt(req.query.pageSize) || 100, 1000)`. -/
def parsePageSize (raw : Option Int) : Int :=
  match raw with
  | none => 100
  | some v => if v = 0 then 100 else min v 1000

/-- `offset = (page - 1) * pageSize`. -/
def offsetOf (page pageSize : Int) : Int :=
  (page - 1) * pageSize

/-! ### Generated query text (`query.ts` 780 and 811) -/

/-- `buildJoinClauses('t')`. -/
def joinClausesText (joins : List FkJoin) : String :=
  String.intercalate "\n        " (joins.map (fun j =>
    "LEFT JOIN [" ++ j.refSchema ++ "].[" ++ j.refTable ++ "] " ++ j.fkAlias ++
      " ON [t].[" ++ j.fkColumn ++ "] = " ++ j.fkAlias ++ ".[" ++ j.refColumn ++ "]"))

/-- `allSelects`: `[t].*` plus the aliased display selections. -/
def allSelectsText (joins : List FkJoin) : String :=
  "[t].*" ++
    (if joins.isEmpty then ""
     else ", " ++ String.intercalate ", " (joins.map (fun j =>
       j.fkAlias ++ ".[" ++ j.displayColumn ++ "] as [" ++ j.fkColumn ++ "_display]")))

/-- The rendered WHERE clause (empty string when no predicate survived). -/
def whereClauseText (preds : List LikePred) : String :=
  if preds.isEmpty then ""
  else "WHERE " ++ String.intercalate " AND "
    (preds.map (fun p => "[" ++ p.column ++ "] LIKE @" ++ p.paramName))

/-- The literal `generatedQuery` text returned to the caller, for the
ordered branch and the ROW_NUMBER fallback branch. -/
def genQueryText (schema table : String) (joins : List FkJoin)
    (preds : List LikePred) (orderByColumn : Option String) (dir : String)
    (offset pageSize : Nat) : String :=
  let sel := allSelectsText joins
  let w := whereClauseText preds
  match orderByColumn with
  | some oc =>
    "SELECT " ++ sel ++ "\nFROM [" ++ schema ++ "].[" ++ table ++ "] t" ++
      (if joins.isEmpty then "" else "\n" ++ joinClausesText joins) ++
      (if w == "" then "" else "\n" ++ w) ++
      "\nORDER BY t.[" ++ oc ++ "] " ++ dir ++
      "\nOFFSET " ++ toString offset ++ " ROWS\nFETCH NEXT " ++
      toString pageSize ++ " ROWS ONLY"
  | none =>
    "SELECT " ++ sel ++
      "\nFROM (\n  SELECT *, ROW_NUMBER() OVER (ORDER BY (SELECT NULL)) as rn\n  FROM [" ++
      schema ++ "].[" ++ table ++ "]" ++
      (if w == "" then "" else "\n  " ++ w) ++
      "\n) t" ++
      (if joins.isEmpty then "" else "\n" ++ joinClausesText joins) ++
      "\nWHERE t.rn > " ++ toString offset ++ " AND t.rn <= " ++
      toString (offset + pageSize) ++ "\nORDER BY t.rn"

/-! ### The table-data operation -/

/-- The response assembled by the handler. -/
structure FetchResult where
  data : List Row
  generatedQuery : String
  total : Nat
  page : Nat
  pageSize : Nat
  totalPages : Nat
deriving Repr, DecidableEq

/-- The table-data route handler (`query.ts` 481–863) for an in-range
`page`/`pageSize`: validate filters, count, resolve the order column,
resolve FK display joins per mode, run the ordered or fallback data
query, and shape the result.  `none` models the request erroring out when
the table is absent from the catalog. -/
def fetchPage (db : Database) (schema table : String) (page pageSize : Nat)
    (sortColumn : Option String) (sortDirection : String) (fkDisplayMode : String)
    (filters : List (String × String)) : Option FetchResult :=
  match findTable db schema table with
  | none => none
  | some tb =>
    let offset := (page - 1) * pageSize
    let filterColumns := validateFilterColumns tb.columns filters false
    let wp := buildWhere filterColumns filters
    let preds := wp.1
    let params := wp.2
    let total := (tb.rows.filter (fun r => whereSat preds params r)).length
    let orderByDirection := normalizeDirection sortDirection
    let orderByColumn := resolveOrderColumn tb.columns (sortColumn.getD "") false
    let fkJoins :=
      if fkDisplayMode == "key-display" || fkDisplayMode == "display-only" then
        resolveFkJoins db tb.foreignKeys
      else []
    let raw :=
      match orderByColumn with
      | some oc =>
        offsetPaginate
          (sortRows (rowLe oc (orderByDirection == "DESC"))
            ((tb.rows.map (joinRow db fkJoins)).filter
              (fun r => whereSat preds params r)))
          offset pageSize
      | none =>
        rnFallback db fkJoins
          (tb.rows.filter (fun r => whereSat preds params r)) offset pageSize
    let shaped :=
      if fkDisplayMode == "display-only" then
        raw.map (shapeDisplayOnly (fkJoins.map (fun j => j.fkColumn)))
      else raw
    some
      { data := shaped
        generatedQuery :=
          genQueryText schema table fkJoins preds orderByColumn orderByDirection
            offset pageSize
        total := total
        page := page
        pageSize := pageSize
        totalPages := (total + pageSize - 1) / pageSize }

/-! ### Execution-failure classification
(`mssql.ts` 170–183 and `query.ts` 864–896)

A JavaScript error object as both layers inspect it: its `code`, its
`message`, its `info.message`, and the same three read through its
`originalError` property (absent properties are `none`). -/

/-- The error shapes inspected by `executeQuery` and the route handler. -/
structure JsError where
  code : Option String
  message : String
  infoMessage : Option String
  origCode : Option String
  origMessage : Option String
  origInfoMessage : Option String
deriving Repr, DecidableEq

/-- The timeout test in `executeQuery`. -/
def execTimeoutCond (e : JsError) : Bool :=
  e.code == some "ETIMEOUT" || e.code == some "ESOCKET" ||
    strIncludes e.message "timeout" || strIncludes e.message "ETIMEDOUT"

/-- The enhanced message `executeQuery` substitutes on a timeout. -/
def enhancedTimeoutMessage : String :=
  "Query execution timeout. The query took too long to execute. Try disabling foreign key displays or reducing the page size."

/-- `executeQuery`'s error enhancement: a timeout-classified error is
replaced by a new `ETIMEOUT` error carrying the remediation message, with
the original error attached as `originalError`; other errors pass through. -/
def wrapTimeout (e : JsError) : JsError :=
  if execTimeoutCond e then
    { code := some "ETIMEOUT"
      message := enhancedTimeoutMessage
      infoMessage := none
      origCode := e.code
      origMessage := some e.message
      origInfoMessage := e.infoMessage }
  else e

/-- The route's `isTimeout` classification. -/
def routeIsTimeout (e : JsError) : Bool :=
  e.code == some "ETIMEOUT" || e.code == some "ESOCKET" ||
    strIncludes e.message "timeout" || strIncludes e.message "ETIMEDOUT" ||
    e.origCode == some "ETIMEOUT" || e.origCode == some "ESOCKET"

/-- JavaScript `a || b` on strings (empty string is falsy). -/
def jsOr (a b : String) : String :=
  if a == "" then b else a

/-- `error.originalError?.message || error.originalError?.info?.message || ''`. -/
def errorDetailsOf (e : JsError) : String :=
  jsOr (e.origMessage.getD "") (e.origInfoMessage.getD "")

/-- The failure payload the caller sees. -/
structure FailureResponse where
  status : Nat
  error : String
  details : String
  timeout : Bool
deriving Repr, DecidableEq

/-- The remediation hint text. -/
def remediationHint : String :=
  "Try disabling foreign key displays or reducing the page size."

/-- The route's catch block: a 408 response with `timeout: true` and a
defaulted detail hint for timeout-classified errors, a plain 500
response otherwise. -/
def respondFailure (e : JsError) : FailureResponse :=
  let errorMessage := e.message
  let details := errorDetailsOf e
  if routeIsTimeout e then
    { status := 408
      error := jsOr errorMessage "Query execution timeout"
      details := jsOr details
        "The query took too long to execute. Try disabling foreign key displays or reducing the page size."
      timeout := true }
  else
    { status := 500, error := errorMessage, details := details, timeout := false }

/-- The caller-visible response carries the remediation hint somewhere. -/
def hintCarried (r : FailureResponse) : Bool :=
  strIncludes r.error remediationHint || strIncludes r.details remediationHint

/-! ### Concrete scenarios from the specification -/

/-- An `Employee(id, name)` row. -/
def mkEmpRow (p : Val × Val) : Row :=
  [("id", p.1), ("name", p.2)]

/-- A `T(id, managerId)` row. -/
def mkTRow (p : Val × Val) : Row :=
  [("id", p.1), ("managerId", p.2)]

/-- The referenced `Employee(id, name)` table with the given `(id, name)`
contents. -/
def mkEmpTable (emps : List (Val × Val)) : DbTable :=
  { schemaName := "dbo", tableName := "Employee"
    columns := [⟨"id", "int"⟩, ⟨"name", "nvarchar"⟩]
    rows := emps.map mkEmpRow
    foreignKeys := [] }

/-- The base `T(id, managerId)` table, `managerId` a foreign key to
`Employee(id)`. -/
def mkTTable (ts : List (Val × Val)) : DbTable :=
  { schemaName := "dbo", tableName := "T"
    columns := [⟨"id", "int"⟩, ⟨"managerId", "int"⟩]
    rows := ts.map mkTRow
    foreignKeys := [⟨"managerId", "dbo", "Employee", "id"⟩] }

/-- The two-table database of the display-mode scenario. -/
def scenarioDb (emps ts : List (Val × Val)) : Database :=
  [mkEmpTable emps, mkTTable ts]

/-- The display value the scenario's left join produces for a `managerId`
value: the matching employee's `name`, else `NULL`. -/
def empDisplay (emps : List (Val × Val)) (v : Val) : Val :=
  match emps.find? (fun e => valEqSql e.1 v) with
  | some e => e.2
  | none => Val.null

/-- The 120-row `Orders` table of the pagination scenario. -/
def ordersTable : DbTable :=
  { schemaName := "dbo", tableName := "Orders"
    columns := [⟨"id", "int"⟩]
    rows := (List.range 120).map (fun i => [("id", Val.num (Int.ofNat i))])
    foreignKeys := [] }

/-- The pagination-scenario database. -/
def db120 : Database := [ordersTable]

/-- The pagination-scenario response: page 2 at page size 50. -/
def res120 : FetchResult :=
  match fetchPage db120 "dbo" "Orders" 2 50 none "asc" "key-only" [] with
  | some r => r
  | none => { data := [], generatedQuery := "", total := 0, page := 0, pageSize := 0, totalPages := 0 }

/-! ### Client-side query reconstruction
(`QueryEditorEnhanced.tsx` 1206–1377, `generateQueryFromGrid`)

The reconstruction patches the server's generated query text with
JavaScript regular expressions.  Each regex used there is a linear
sequence of case-insensitive literals and greedy character-class
quantifiers; they are embedded as token lists interpreted by a
backtracking matcher with JavaScript semantics (leftmost match, greedy
quantifiers with backtracking, `g`-flag replacement continuing after each
match). -/

/-- One token of the embedded regexes: a case-insensitive literal, `\s*`,
`\s+`, `\d+`, `\n?`, `[^.]*`, `[^\n]+`, `[^\]]+`, `[^\s\n]+`, `\n{3,}`. -/
inductive RTok where
  | lit (s : String)
  | ws0
  | ws1
  | digits1
  | optNl
  | notDot0
  | notNl1
  | notRbr1
  | notWsNl1
  | nl3
deriving Repr, DecidableEq

/-- ASCII case-insensitive character equality (the `i` flag). -/
def ciEq (a b : Char) : Bool := a.toLower == b.toLower

/-- `\s` on the whitespace actually occurring in generated SQL text. -/
def isWsChar (c : Char) : Bool :=
  c == ' ' || c == '\n' || c == '\t' || c == '\r'

/-- `\d`. -/
def isDigitChar (c : Char) : Bool := '0' ≤ c && c ≤ '9'

/-- Consume a case-insensitive literal, returning (consumed, rest). -/
def litConsume : List Char → List Char → Option (List Char × List Char)
  | [], s => some ([], s)
  | _ :: _, [] => none
  | p :: ps, c :: cs =>
    if ciEq p c then
      match litConsume ps cs with
      | some (m, r) => some (c :: m, r)
      | none => none
    else none

mutual

/-- Match a token sequence at the head of the input; returns
(consumed, rest) for the leftmost-greedy (backtracking) match, exactly as
a JavaScript regex engine matches these linear patterns.  The structural
fuel argument only bounds recursion depth (the callers pass a bound that
provably exceeds any possible depth), keeping the function
kernel-computable. -/
def matchToksF : Nat → List RTok → List Char → Option (List Char × List Char)
  | 0, _, _ => none
  | Nat.succ f, toks, s =>
    match toks with
    | [] => some ([], s)
    | RTok.lit p :: ts =>
      match litConsume p.data s with
      | some (m1, s1) =>
        match matchToksF f ts s1 with
        | some (m2, s2) => some (m1 ++ m2, s2)
        | none => none
      | none => none
    | RTok.ws0 :: ts => matchGreedyF f isWsChar ts s
    | RTok.ws1 :: ts =>
      match s with
      | [] => none
      | c :: cs => if isWsChar c then
          match matchGreedyF f isWsChar ts cs with
          | some (m, r) => some (c :: m, r)
          | none => none
        else none
    | RTok.digits1 :: ts =>
      match s with
      | [] => none
      | c :: cs => if isDigitChar c then
          match matchGreedyF f isDigitChar ts cs with
          | some (m, r) => some (c :: m, r)
          | none => none
        else none
    | RTok.optNl :: ts =>
      match s with
      | [] => matchToksF f ts []
      | c :: cs =>
        if c == '\n' then
          match matchToksF f ts cs with
          | some (m, r) => some (c :: m, r)
          | none => matchToksF f ts (c :: cs)
        else matchToksF f ts (c :: cs)
    | RTok.notDot0 :: ts => matchGreedyF f (fun c => c != '.') ts s
    | RTok.notNl1 :: ts =>
      match s with
      | [] => none
      | c :: cs => if c != '\n' then
          match matchGreedyF f (fun c => c != '\n') ts cs with
          | some (m, r) => some (c :: m, r)
          | none => none
        else none
    | RTok.notRbr1 :: ts =>
      match s with
      | [] => none
      | c :: cs => if c != ']' then
          match matchGreedyF f (fun c => c != ']') ts cs with
          | some (m, r) => some (c :: m, r)
          | none => none
        else none
    | RTok.notWsNl1 :: ts =>
      match s with
      | [] => none
      | c :: cs => if !isWsChar c then
          match matchGreedyF f (fun c => !isWsChar c) ts cs with
          | some (m, r) => some (c :: m, r)
          | none => none
        else none
    | RTok.nl3 :: ts =>
      match s with
      | a :: b :: c :: cs =>
        if a == '\n' && b == '\n' && c == '\n' then
          match matchGreedyF f (fun c => c == '\n') ts cs with
          | some (m, r) => some (a :: b :: c :: m, r)
          | none => none
        else none
      | _ => none

/-- Greedy quantifier: consume as many `p`-characters as possible, then
backtrack one at a time until the remaining tokens match. -/
def matchGreedyF : Nat → (Char → Bool) → List RTok → List Char →
    Option (List Char × List Char)
  | 0, _, _, _ => none
  | Nat.succ f, p, ts, s =>
    match s with
    | [] => matchToksF f ts []
    | c :: cs =>
      if p c then
        match matchGreedyF f p ts cs with
        | some (m, r) => some (c :: m, r)
        | none => matchToksF f ts (c :: cs)
      else matchToksF f ts (c :: cs)
end

/-- A recursion-depth bound sufficient for any match attempt of `toks`
against `s` (each level either drops a token or a character). -/
def fuelFor (toks : List RTok) (s : List Char) : Nat :=
  (toks.length + 2) * (s.length + 2)

/-- Match a token sequence at the head of the input. -/
def matchToks (toks : List RTok) (s : List Char) :
    Option (List Char × List Char) :=
  matchToksF (fuelFor toks s) toks s

/-- Leftmost match: returns (prefix, matched, rest). -/
def scanFrom (toks : List RTok) : List Char →
    Option (List Char × List Char × List Char)
  | [] =>
    match matchToks toks [] with
    | some _ => some ([], [], [])
    | none => none
  | c :: cs =>
    match matchToks toks (c :: cs) with
    | some (m, rest) => some ([], m, rest)
    | none =>
      match scanFrom toks cs with
      | some (pre, m, rest) => some (c :: pre, m, rest)
      | none => none

/-- `String.prototype.replace` with the `g` flag (fuel-bounded; the fuel
`s.length + 1` exceeds any possible number of non-empty matches). -/
def replaceAllAux (toks : List RTok) (repl : List Char) :
    Nat → List Char → List Char
  | 0, s => s
  | Nat.succ f, s =>
    match scanFrom toks s with
    | none => s
    | some (pre, _, rest) => pre ++ repl ++ replaceAllAux toks repl f rest

/-- Global regex replacement on strings. -/
def replaceAll (toks : List RTok) (repl : String) (s : String) : String :=
  String.mk (replaceAllAux toks repl.data (s.length + 1) s.data)

/-- `String.prototype.replace` without `g`: first match only. -/
def replaceFirst (toks : List RTok) (repl : String) (s : String) : String :=
  match scanFrom toks s.data with
  | none => s
  | some (pre, _, rest) => String.mk (pre ++ repl.data ++ rest)

/-- First-match replacement where the replacement is `$1` (here: the
whole match) followed by a suffix — the ORDER-BY pagination insertion. -/
def replaceFirstKeep (toks : List RTok) (suffix : String) (s : String) : String :=
  match scanFrom toks s.data with
  | none => s
  | some (pre, m, rest) => String.mk (pre ++ m ++ suffix.data ++ rest)

/-- `regex.test` / `String.prototype.match` used as a Boolean. -/
def testToks (toks : List RTok) (s : String) : Bool :=
  (scanFrom toks s.data).isSome

/-- `String.prototype.indexOf` (character index; `-1` encoded as `none`). -/
def idxOfAux (pat : List Char) : List Char → Nat → Option Nat
  | [], i => if isPrefixL pat [] then some i else none
  | c :: cs, i =>
    if isPrefixL pat (c :: cs) then some i else idxOfAux pat cs (i + 1)

/-- `s.indexOf(pat)` as an optional index. -/
def idxOf (s pat : String) : Option Nat :=
  idxOfAux pat.data s.data 0

/-- `s.endsWith(pat)`. -/
def strEndsWith (s pat : String) : Bool :=
  isPrefixL pat.data.reverse s.data.reverse

/-- The embedded regexes of `generateQueryFromGrid`, in source order. -/
def toksOffsetMulti : List RTok :=
  [.lit "\n", .ws0, .lit "OFFSET", .ws1, .digits1, .ws1, .lit "ROWS", .ws0,
   .optNl, .ws0, .lit "FETCH", .ws1, .lit "NEXT", .ws1, .digits1, .ws1,
   .lit "ROWS", .ws1, .lit "ONLY"]

/-- `/\s+OFFSET\s+\d+\s+ROWS\s+FETCH\s+NEXT\s+\d+\s+ROWS\s+ONLY/gi`. -/
def toksOffsetSingle : List RTok :=
  [.ws1, .lit "OFFSET", .ws1, .digits1, .ws1, .lit "ROWS", .ws1, .lit "FETCH",
   .ws1, .lit "NEXT", .ws1, .digits1, .ws1, .lit "ROWS", .ws1, .lit "ONLY"]

/-- `/WHERE\s+[^.]*\.rn\s*>\s*(\d+)\s+AND\s+[^.]*\.rn\s*<=\s*(\d+)/gi`. -/
def toksRnRange : List RTok :=
  [.lit "WHERE", .ws1, .notDot0, .lit ".rn", .ws0, .lit ">", .ws0, .digits1,
   .ws1, .lit "AND", .ws1, .notDot0, .lit ".rn", .ws0, .lit "<=", .ws0, .digits1]

/-- `/SELECT\s+TOP\s+\d+/gi`. -/
def toksSelectTop : List RTok :=
  [.lit "SELECT", .ws1, .lit "TOP", .ws1, .digits1]

/-- `/SELECT\s+[^\n]+\s+FROM/i`. -/
def toksSelectFrom : List RTok :=
  [.lit "SELECT", .ws1, .notNl1, .ws1, .lit "FROM"]

/-- `/LEFT\s+JOIN/i`. -/
def toksLeftJoin : List RTok := [.lit "LEFT", .ws1, .lit "JOIN"]

/-- `/JOIN/i`. -/
def toksJoin : List RTok := [.lit "JOIN"]

/-- `/OFFSET\s+\d+\s+ROWS/i`. -/
def toksOffsetRows : List RTok :=
  [.lit "OFFSET", .ws1, .digits1, .ws1, .lit "ROWS"]

/-- `/\.rn\s*>/i`. -/
def toksRnGt : List RTok := [.lit ".rn", .ws0, .lit ">"]

/-- `/(ORDER\s+BY\s+[^\n]+)/i`. -/
def toksOrderByLine : List RTok :=
  [.lit "ORDER", .ws1, .lit "BY", .ws1, .notNl1]

/-- `/FROM\s+\[([^\]]+)\]\.\[([^\]]+)\]\s+([^\s\n]+)/i`. -/
def toksFromBracket : List RTok :=
  [.lit "FROM", .ws1, .lit "[", .notRbr1, .lit "]", .lit ".", .lit "[",
   .notRbr1, .lit "]", .ws1, .notWsNl1]

/-- `/\n{3,}/g`. -/
def toksTripleNl : List RTok := [.nl3]

/-- One entry of the client's `tableStructure` (a column and, when it is a
foreign key, the referenced table coordinates). -/
structure TsColumn where
  columnName : String
  referencedSchema : Option String
  referencedTable : Option String
  referencedColumn : Option String
deriving Repr, DecidableEq

/-- The grid state `generateQueryFromGrid` closes over. -/
structure GridState where
  baseQuery : Option String
  page : Nat
  pageSize : Nat
  visibleColumnIds : List String
  allColumnIds : List String
  fkDisplayMode : String
  foreignKeyCols : List String
  foreignKeyDisplays : List (String × String)
  tableStructure : Option (List TsColumn)
  schemaName : String
  tableName : String
deriving Repr, DecidableEq

/-- The rebuilt select list (lines 1252–1291): visible base columns
(minus FK key columns in display-only mode) plus the aliased display
columns the mode requires; `[t].*` when the list would be empty. -/
def gridColumnList (gs : GridState) (visibleCols : List String) : String :=
  let baseColumns := (visibleCols.filter (fun col =>
      !(gs.fkDisplayMode == "display-only" && gs.foreignKeyCols.contains col))).map
    (fun col => "[t].[" ++ col ++ "]")
  let displayColumns :=
    if gs.fkDisplayMode == "key-display" then
      visibleCols.filterMap (fun col =>
        if gs.foreignKeyCols.contains col then
          (assocLookup gs.foreignKeyDisplays col).map (fun d =>
            "fk_" ++ col ++ ".[" ++ d ++ "] as [" ++ col ++ "_display]")
        else none)
    else if gs.fkDisplayMode == "display-only" then
      visibleCols.filterMap (fun col =>
        if gs.foreignKeyCols.contains col then
          (assocLookup gs.foreignKeyDisplays col).map (fun d =>
            "fk_" ++ col ++ ".[" ++ d ++ "] as [" ++ col ++ "]")
        else none)
    else []
  let allSelectedColumns := baseColumns ++ displayColumns
  if allSelectedColumns.isEmpty then "[t].*"
  else String.intercalate ", " allSelectedColumns

/-- The select-list replacement (lines 1293–1311): split at the first
`\nFROM` of the uppercased text, else at the first `FROM`, else fall
back to the `SELECT ... FROM` regex; everything from `FROM` on is
preserved. -/
def gridSelectReplace (gs : GridState) (visibleCols : List String)
    (q : String) : String :=
  let columnList := gridColumnList gs visibleCols
  match idxOf (upperStr q) "\nFROM" with
  | some fromIndex =>
    if 0 < fromIndex then
      "SELECT " ++ columnList ++ "\n" ++ String.mk (q.data.drop (fromIndex + 1))
    else replaceFirst toksSelectFrom ("SELECT " ++ columnList ++ "\nFROM") q
  | none =>
    match idxOf (upperStr q) "FROM" with
    | some fromIndex2 =>
      if 0 < fromIndex2 then
        "SELECT " ++ columnList ++ "\n" ++ String.mk (q.data.drop fromIndex2)
      else replaceFirst toksSelectFrom ("SELECT " ++ columnList ++ "\nFROM") q
    | none => replaceFirst toksSelectFrom ("SELECT " ++ columnList ++ "\nFROM") q

/-- The LEFT-JOIN appending step (lines 1317–1362): when the display mode
needs joins, the structure is known and the text has no `JOIN`, insert
one `LEFT JOIN` per foreign-key edge right after the
`FROM [schema].[table] alias` clause (all three source branches insert at
the same position). -/
def gridAppendJoins (gs : GridState) (q : String) : String :=
  if (gs.fkDisplayMode == "key-display" || gs.fkDisplayMode == "display-only") &&
      gs.tableStructure.isSome &&
      !testToks toksLeftJoin q && !testToks toksJoin q then
    let joins := (gs.tableStructure.getD []).filterMap (fun col =>
      match col.referencedSchema, col.referencedTable, col.referencedColumn with
      | some rs, some rt, some rc =>
        some ("LEFT JOIN [" ++ rs ++ "].[" ++ rt ++ "] fk_" ++ col.columnName ++
          " ON [t].[" ++ col.columnName ++ "] = fk_" ++ col.columnName ++
          ".[" ++ rc ++ "]")
      | _, _, _ => none)
    if joins.isEmpty then q
    else
      match scanFrom toksFromBracket q.data with
      | none => q
      | some (_, m, _) =>
        match idxOf q (String.mk m) with
        | none => q
        | some idx =>
          String.mk (q.data.take (idx + m.length)) ++ "\n" ++
            String.intercalate "\n" joins ++
            String.mk (q.data.drop (idx + m.length))
  else q

/-- The trailing pagination guarantee (lines 1365–1375): when neither an
`OFFSET ... ROWS` clause nor an `.rn >` predicate is present, append the
current pagination after the first `ORDER BY` line, or at the end. -/
def gridEnsurePagination (currentOffset pageSize : Nat) (q : String) : String :=
  if !testToks toksOffsetRows q && !testToks toksRnGt q then
    match scanFrom toksOrderByLine q.data with
    | some _ =>
      replaceFirstKeep toksOrderByLine
        ("\nOFFSET " ++ toString currentOffset ++ " ROWS\nFETCH NEXT " ++
          toString pageSize ++ " ROWS ONLY") q
    | none =>
      q ++ "\nOFFSET " ++ toString currentOffset ++ " ROWS\nFETCH NEXT " ++
        toString pageSize ++ " ROWS ONLY"
  else q

/-- `generateQueryFromGrid` (lines 1206–1377): patch the previously
generated text with the current pagination, select list, joins and
whitespace cleanup; without a previous text, build a basic
`SELECT ... FROM` query. -/
def generateQueryFromGrid (gs : GridState) : String :=
  match gs.baseQuery with
  | none =>
    let visibleCols := gs.visibleColumnIds.filter
      (fun id => !strEndsWith id "_display")
    let columnList :=
      if visibleCols.length
          = (gs.allColumnIds.filter (fun id => !strEndsWith id "_display")).length
      then "*"
      else String.intercalate ", " (visibleCols.map (fun col => "[" ++ col ++ "]"))
    "SELECT " ++ columnList ++ "\nFROM [" ++ gs.schemaName ++ "].[" ++
      gs.tableName ++ "]"
  | some baseQuery =>
    let currentOffset := (gs.page - 1) * gs.pageSize
    let q1 := replaceAll toksOffsetMulti
      ("\nOFFSET " ++ toString currentOffset ++ " ROWS\nFETCH NEXT " ++
        toString gs.pageSize ++ " ROWS ONLY") baseQuery
    let q2 := replaceAll toksOffsetSingle
      (" OFFSET " ++ toString currentOffset ++ " ROWS FETCH NEXT " ++
        toString gs.pageSize ++ " ROWS ONLY") q1
    let q3 := replaceAll toksRnRange
      ("WHERE t.rn > " ++ toString currentOffset ++ " AND t.rn <= " ++
        toString (currentOffset + gs.pageSize)) q2
    let q4 := replaceAll toksSelectTop ("SELECT TOP " ++ toString gs.pageSize) q3
    let visibleCols := gs.visibleColumnIds.filter
      (fun id => !strEndsWith id "_display")
    let allColIds := gs.allColumnIds.filter (fun id => !strEndsWith id "_display")
    let q5 :=
      if visibleCols.length < allColIds.length ||
          gs.fkDisplayMode == "key-display" || gs.fkDisplayMode == "display-only"
      then gridSelectReplace gs visibleCols q4
      else q4
    let q6 := trimStr (replaceAll toksTripleNl "\n\n" q5)
    let q7 := gridAppendJoins gs q6
    gridEnsurePagination currentOffset gs.pageSize q7

/-! ### Reconstruction scenarios

Server-generated texts (as produced by the data route for the
`dbo.T(id, managerId)` table of the display scenario) and grid states to
patch them with. -/

/-- The server text for `dbo.T` in key-display mode, page 1, page size
100. -/
def kdServerText : String :=
  "SELECT [t].*, fk_managerId.[name] as [managerId_display]\nFROM [dbo].[T] t\nLEFT JOIN [dbo].[Employee] fk_managerId ON [t].[managerId] = fk_managerId.[id]\nORDER BY t.[id] ASC\nOFFSET 0 ROWS\nFETCH NEXT 100 ROWS ONLY"

/-- The server text for `dbo.T` in key-only mode, page 1, page size 100. -/
def koServerText : String :=
  "SELECT [t].*\nFROM [dbo].[T] t\nORDER BY t.[id] ASC\nOFFSET 0 ROWS\nFETCH NEXT 100 ROWS ONLY"

/-- The server text for the zero-column ROW_NUMBER fallback on `dbo.T`,
page 1, page size 100. -/
def rnServerText : String :=
  "SELECT [t].*\nFROM (\n  SELECT *, ROW_NUMBER() OVER (ORDER BY (SELECT NULL)) as rn\n  FROM [dbo].[T]\n) t\nWHERE t.rn > 0 AND t.rn <= 100\nORDER BY t.rn"

/-- The client's table structure for `dbo.T`. -/
def structT : List TsColumn :=
  [⟨"id", none, none, none⟩, ⟨"managerId", some "dbo", some "Employee", some "id"⟩]

/-- Grid state identical to the one that produced `kdServerText`:
key-display mode, all columns visible, page 1, page size 100. -/
def gridStateSame : GridState :=
  { baseQuery := some kdServerText, page := 1, pageSize := 100
    visibleColumnIds := ["id", "managerId", "managerId_display"]
    allColumnIds := ["id", "managerId", "managerId_display"]
    fkDisplayMode := "key-display"
    foreignKeyCols := ["managerId"]
    foreignKeyDisplays := [("managerId", "name")]
    tableStructure := some structT
    schemaName := "dbo", tableName := "T" }

/-- The same grid state moved to page 3. -/
def gridStatePage3 : GridState :=
  { gridStateSame with page := 3 }

/-- Key-display state over the key-only server text (joins required but
absent from the previous text). -/
def gridStateJoins : GridState :=
  { gridStateSame with baseQuery := some koServerText }

/-- Key-only state over the fallback text, moved to page 2. -/
def gridStateRn : GridState :=
  { baseQuery := some rnServerText, page := 2, pageSize := 100
    visibleColumnIds := ["id", "managerId"]
    allColumnIds := ["id", "managerId"]
    fkDisplayMode := "key-only"
    foreignKeyCols := ["managerId"]
    foreignKeyDisplays := [("managerId", "name")]
    tableStructure := some structT
    schemaName := "dbo", tableName := "T" }

/-- Key-only state over the key-only text with `managerId` hidden. -/
def gridStateHidden : GridState :=
  { gridStateRn with
    baseQuery := some koServerText
    page := 1
    visibleColumnIds := ["id"] }

/-! ### Definite-failure checkers for the regex matcher -/

/-- Greedy-quantifier entry point with canonical sufficient fuel. -/
def matchGr (p : Char → Bool) (ts : List RTok) (s : List Char) :
    Option (List Char × List Char) :=
  matchGreedyF ((ts.length + 2) * (s.length + 2) + 1) p ts s

/-- Result of matching a literal against a finite window: consumed with a
remainder, definitely mismatched, or undecided because the window ended. -/
inductive LCRes where
  | ok (rest : List Char)
  | dead
  | unknown
deriving Repr, DecidableEq

/-- Literal matching against a window, distinguishing definite mismatch
from running out of window. -/
def litConsumeD : List Char → List Char → LCRes
  | [], s => LCRes.ok s
  | _ :: _, [] => LCRes.unknown
  | p :: ps, c :: cs => if ciEq p c then litConsumeD ps cs else LCRes.dead

mutual

/-- Conservative checker: `true` only when a match attempt of `toks` at
the start of `s` fails by character mismatch, hence fails for every
extension of `s`. -/
def defFailsF : Nat → List RTok → List Char → Bool
  | 0, _, _ => false
  | Nat.succ f, toks, s =>
    match toks with
    | [] => false
    | RTok.lit p :: ts =>
      match litConsumeD p.data s with
      | LCRes.ok s1 => defFailsF f ts s1
      | LCRes.dead => true
      | LCRes.unknown => false
    | RTok.ws0 :: ts => defGreedyF f isWsChar ts s
    | RTok.ws1 :: ts =>
      match s with
      | [] => false
      | c :: cs => if isWsChar c then defGreedyF f isWsChar ts cs else true
    | RTok.digits1 :: ts =>
      match s with
      | [] => false
      | c :: cs => if isDigitChar c then defGreedyF f isDigitChar ts cs else true
    | RTok.optNl :: ts =>
      match s with
      | [] => false
      | c :: cs =>
        if c == '\n' then defFailsF f ts cs && defFailsF f ts (c :: cs)
        else defFailsF f ts (c :: cs)
    | RTok.notDot0 :: ts => defGreedyF f (fun c => c != '.') ts s
    | RTok.notNl1 :: ts =>
      match s with
      | [] => false
      | c :: cs => if c != '\n' then defGreedyF f (fun c => c != '\n') ts cs else true
    | RTok.notRbr1 :: ts =>
      match s with
      | [] => false
      | c :: cs => if c != ']' then defGreedyF f (fun c => c != ']') ts cs else true
    | RTok.notWsNl1 :: ts =>
      match s with
      | [] => false
      | c :: cs => if !isWsChar c then defGreedyF f (fun c => !isWsChar c) ts cs else true
    | RTok.nl3 :: ts =>
      match s with
      | a :: b :: c :: cs =>
        if a == '\n' && b == '\n' && c == '\n' then
          defGreedyF f (fun c => c == '\n') ts cs
        else true
      | a :: _ => if a == '\n' then false else true
      | [] => false

/-- Conservative checker for the greedy quantifier state. -/
def defGreedyF : Nat → (Char → Bool) → List RTok → List Char → Bool
  | 0, _, _, _ => false
  | Nat.succ f, p, ts, s =>
    match s with
    | [] => false
    | c :: cs =>
      if p c then defGreedyF f p ts cs && defFailsF f ts (c :: cs)
      else defFailsF f ts (c :: cs)

end

/-- Definite-failure check with canonical fuel. -/
def defFails (toks : List RTok) (s : List Char) : Bool :=
  defFailsF ((toks.length + 2) * (s.length + 2)) toks s

/-- Every position of `s` definitely fails to start a match of `toks`,
for every extension of `s`. -/
def allPosFail (toks : List RTok) : List Char → Bool
  | [] => true
  | c :: cs => defFails toks (c :: cs) && allPosFail toks cs

/-- The first token of `toks` rejects any digit character, so no match
attempt can start inside a run of digits. -/
def rejectsDigits : List RTok → Bool
  | RTok.lit p :: ts =>
    (match p.data with
     | [] => false
     | c :: _ => !isDigitChar c.toLower) || (p.data.isEmpty && rejectsDigits ts)
  | RTok.ws0 :: ts => rejectsDigits ts
  | RTok.ws1 :: _ => true
  | RTok.nl3 :: _ => true
  | RTok.optNl :: ts => rejectsDigits ts
  | _ => false

/-! ### The reconstruction scenario families -/

/-- The single resolved FK join of the `dbo.T` scenario table. -/
def fkJoinT : FkJoin :=
  { fkAlias := "fk_managerId"
    refSchema := "dbo"
    refTable := "Employee"
    fkColumn := "managerId"
    refColumn := "id"
    displayColumn := "name" }

/-- The server text family for `dbo.T` in key-display mode (previous
pagination numbers `o0`, `p0`). -/
def kdBase (o0 p0 : Nat) : String :=
  genQueryText "dbo" "T" [fkJoinT] [] (some "id") "ASC" o0 p0

/-- The server text family for `dbo.T` without joins. -/
def koBase (o0 p0 : Nat) : String :=
  genQueryText "dbo" "T" [] [] (some "id") "ASC" o0 p0

/-- The ROW_NUMBER-fallback server text family for `dbo.T`. -/
def rnBase (o0 p0 : Nat) : String :=
  genQueryText "dbo" "T" [] [] none "ASC" o0 p0

/-- `gridStateSame` over the key-display text family, at an arbitrary
current page and page size. -/
def gsFamSame (o0 p0 page ps : Nat) : GridState :=
  { gridStateSame with
    baseQuery := some (kdBase o0 p0)
    page := page
    pageSize := ps }

/-- Key-display state over the join-free text family. -/
def gsFamJoins (o0 p0 page ps : Nat) : GridState :=
  { gridStateSame with
    baseQuery := some (koBase o0 p0)
    page := page
    pageSize := ps }

/-- Key-only state over the fallback text family. -/
def gsFamRn (o0 p0 page ps : Nat) : GridState :=
  { gridStateRn with
    baseQuery := some (rnBase o0 p0)
    page := page
    pageSize := ps }

/-- Key-only state with `managerId` hidden, over the join-free family. -/
def gsFamHidden (o0 p0 page ps : Nat) : GridState :=
  { gridStateHidden with
    baseQuery := some (koBase o0 p0)
    page := page
    pageSize := ps }

/-! ## Supporting lemmas -/

lemma length_insertSorted {α : Type} (le : α → α → Bool) (a : α) (l : List α) :
    (insertSorted le a l).length = l.length + 1 := by
  induction l with
  | nil => rfl
  | cons b bs ih =>
    simp only [insertSorted]
    split <;> simp [ih]

lemma length_sortRows {α : Type} (le : α → α → Bool) (l : List α) :
    (sortRows le l).length = l.length := by
  induction l with
  | nil => rfl
  | cons a as ih => simp [sortRows, length_insertSorted, ih]

lemma mem_insertSorted {α : Type} (le : α → α → Bool) (a x : α) (l : List α) :
    x ∈ insertSorted le a l ↔ x = a ∨ x ∈ l := by
  induction l with
  | nil => simp [insertSorted]
  | cons b bs ih =>
    simp only [insertSorted]
    split
    · simp
    · simp only [List.mem_cons, ih]
      tauto

lemma mem_sortRows {α : Type} (le : α → α → Bool) (x : α) (l : List α) :
    x ∈ sortRows le l ↔ x ∈ l := by
  induction l with
  | nil => simp [sortRows]
  | cons a as ih => simp [sortRows, mem_insertSorted, ih]

/-! ## C1: foreign-key display-column heuristic -/

/-- C1: for every referenced-table column list, the resolved display column
is the first column case-insensitively named `name`, `title`,
`description` or `code`, tried in that priority order; only when none of
those names occurs is the first string-family-typed column by ordinal
chosen; for `{id, code, other}` with `other` string-typed and earlier
ordinally, the display column is `code`; when neither rule matches, no
display binding results. -/
theorem display_column_heuristic :
    (∀ refColumns : List ColumnMeta,
      findDisplayColumn refColumns = displayColumnSpec refColumns) ∧
    findDisplayColumn
      [⟨"id", "int"⟩, ⟨"other", "nvarchar"⟩, ⟨"code", "nvarchar"⟩] = some "code" ∧
    findDisplayColumn [⟨"id", "int"⟩, ⟨"stamp", "datetime"⟩] = none := by
  refine ⟨?_, by decide, by decide⟩
  intro cols
  simp only [findDisplayColumn, displayColumnSpec, preferredNames, firstPreferred,
    List.findSome?]
  cases h1 : cols.find? (fun c => lowerStr c.name == lowerStr "name") with
  | some c => rfl
  | none =>
    cases h2 : cols.find? (fun c => lowerStr c.name == lowerStr "title") with
    | some c => rfl
    | none =>
      cases h3 : cols.find? (fun c => lowerStr c.name == lowerStr "description") with
      | some c => rfl
      | none =>
        cases h4 : cols.find? (fun c => lowerStr c.name == lowerStr "code") with
        | some c => rfl
        | none => rfl

/-! ## C5: unknown sort column falls back to the first column -/

/-- C5: whenever the requested sort column does not occur in the table's
column metadata (or the validation lookup fails), the effective ORDER BY
column is the table's first column by ordinal, and the request proceeds
identically to one with no sort column instead of erroring. -/
theorem sort_fallback :
    (∀ (cols : List ColumnMeta) (sortColumn : String) (fails : Bool),
      (fails = true ∨ ∀ c ∈ cols, c.name ≠ sortColumn) →
      resolveOrderColumn cols sortColumn fails = cols.head?.map (fun c => c.name)) ∧
    (∀ db s t sc page pageSize dir mode filters tb,
      findTable db s t = some tb →
      (∀ c ∈ tb.columns, c.name ≠ sc) →
      fetchPage db s t page pageSize (some sc) dir mode filters
          = fetchPage db s t page pageSize none dir mode filters ∧
      (fetchPage db s t page pageSize (some sc) dir mode filters).isSome = true) := by
  have base : ∀ (cols : List ColumnMeta) (sortColumn : String) (fails : Bool),
      (fails = true ∨ ∀ c ∈ cols, c.name ≠ sortColumn) →
      resolveOrderColumn cols sortColumn fails = cols.head?.map (fun c => c.name) := by
    intro cols sc fails h
    unfold resolveOrderColumn
    by_cases hsc : sc = ""
    · subst hsc; simp
    · rcases h with hf | hall
      · subst hf; simp [hsc]
      · have hany : cols.any (fun c => c.name == sc) = false := by
          simp only [List.any_eq_false]
          intro c hc
          simp [hall c hc]
        simp [hsc, hany]
  have base0 : ∀ (cols : List ColumnMeta) (b : Bool),
      resolveOrderColumn cols "" b = cols.head?.map (fun c => c.name) := by
    intro cols b
    unfold resolveOrderColumn
    simp
  refine ⟨base, ?_⟩
  intro db s t sc page pageSize dir mode filters tb hf hall
  have hres : resolveOrderColumn tb.columns sc false
      = resolveOrderColumn tb.columns "" false := by
    rw [base tb.columns sc false (Or.inr hall), base0 tb.columns false]
  constructor
  · simp only [fetchPage, hf, Option.getD_some, Option.getD_none, hres]
  · simp only [fetchPage, hf, Option.getD_some]
    simp

/-! ## C7: page-size clamping (corrected) -/

/-- C7 counterexample: a parsed `pageSize` of `-5` is not clamped into
`[1, 1000]`; `Math.min(-5, 1000)` keeps `-5`. -/
theorem page_size_clamp_cex :
    parsePageSize (some (-5)) = -5 ∧ ¬ (1 ≤ parsePageSize (some (-5))) := by
  constructor
  · rfl
  · decide

/-- C7 amended: when the parsed `page` and `pageSize` are nonnegative (or
absent/`NaN`/zero, which fall to the defaults), the effective page size
lies in `[1, 1000]` with values above `1000` capped at `1000`, the
effective page is at least `1`, and the offset is `(page − 1) × pageSize`;
negative parsed values, however, pass through unclamped. -/
theorem page_size_clamp :
    ∀ rawPS rawP : Option Int,
      (∀ v, rawPS = some v → 0 ≤ v) →
      (∀ v, rawP = some v → 0 ≤ v) →
      1 ≤ parsePageSize rawPS ∧ parsePageSize rawPS ≤ 1000 ∧
      (∀ v, rawPS = some v → 1000 < v → parsePageSize rawPS = 1000) ∧
      1 ≤ parsePage rawP ∧
      offsetOf (parsePage rawP) (parsePageSize rawPS)
        = (parsePage rawP - 1) * parsePageSize rawPS := by
  intro rawPS rawP h1 h2
  refine ⟨?_, ?_, ?_, ?_, rfl⟩
  · cases rawPS with
    | none => decide
    | some v =>
      have hv := h1 v rfl
      simp only [parsePageSize]
      split
      · decide
      · next hne => rw [min_def]; split <;> omega
  · cases rawPS with
    | none => decide
    | some v =>
      simp only [parsePageSize]
      split
      · decide
      · rw [min_def]; split <;> omega
  · intro v hv hgt
    subst hv
    simp only [parsePageSize]
    rw [if_neg (by omega), min_def, if_neg (by omega)]
  · cases rawP with
    | none => decide
    | some v =>
      have hv := h2 v rfl
      simp only [parsePage]
      split <;> omega

/-- C7 witness: `pageSize=5000, page=3` is clamped to `1000` with offset
`(3−1)×1000`. -/
theorem page_size_clamp_witness :
    1 ≤ parsePageSize (some 5000) ∧ parsePageSize (some 5000) ≤ 1000 ∧
    parsePageSize (some 5000) = 1000 ∧ 1 ≤ parsePage (some 3) ∧
    offsetOf (parsePage (some 3)) (parsePageSize (some 5000))
      = (parsePage (some 3) - 1) * parsePageSize (some 5000) := by
  have h := page_size_clamp (some 5000) (some 3)
    (by intro v hv; cases hv; decide) (by intro v hv; cases hv; decide)
  exact ⟨h.1, h.2.1, h.2.2.1 5000 rfl (by decide), h.2.2.2.1, h.2.2.2.2⟩

/-- C5 witness: an unknown sort column `bogus` resolves to the first column
and leaves the request identical to an unsorted one. -/
theorem sort_fallback_witness :
    resolveOrderColumn [⟨"id", "int"⟩, ⟨"name", "nvarchar"⟩] "bogus" false
        = some "id" ∧
    fetchPage [⟨"dbo", "W", [⟨"a", "int"⟩], [[("a", Val.num 1)]], []⟩]
        "dbo" "W" 1 10 (some "bogus") "asc" "key-only" []
      = fetchPage [⟨"dbo", "W", [⟨"a", "int"⟩], [[("a", Val.num 1)]], []⟩]
        "dbo" "W" 1 10 none "asc" "key-only" [] :=
  ⟨sort_fallback.1 _ "bogus" false (Or.inr (by decide)),
   (sort_fallback.2 _ "dbo" "W" "bogus" 1 10 "asc" "key-only" []
     ⟨"dbo", "W", [⟨"a", "int"⟩], [[("a", Val.num 1)]], []⟩ (by decide)
     (by decide)).1⟩

/-! ## C10: sort-direction normalization -/

lemma toNat_ofNat_valid (n : Nat) (h : n.isValidChar) : (Char.ofNat n).toNat = n := by
  simp only [Char.ofNat, dif_pos h]
  simp [Char.ofNatAux, Char.toNat, UInt32.toNat]

lemma char_eq_iff_toNat (a b : Char) : a = b ↔ a.toNat = b.toNat :=
  ⟨fun h => by rw [h], fun h => by rw [← Char.ofNat_toNat a, ← Char.ofNat_toNat b, h]⟩

lemma case_char (c u l : Char) (hu65 : 65 ≤ u.toNat) (hu90 : u.toNat ≤ 90)
    (hl : l.toNat = u.toNat + 32) : (Char.toUpper c = u ↔ Char.toLower c = l) := by
  have hofn : ∀ n : Nat, n ≤ 1000 → (Char.ofNat n).toNat = n := fun n hn =>
    toNat_ofNat_valid n (Or.inl (by omega))
  simp only [Char.toUpper, Char.toLower]
  by_cases h97 : c.toNat ≥ 97 ∧ c.toNat ≤ 122
  · rw [if_pos h97, if_neg (by omega), char_eq_iff_toNat, char_eq_iff_toNat,
      hofn _ (by omega)]
    omega
  · rw [if_neg h97]
    by_cases h65 : c.toNat ≥ 65 ∧ c.toNat ≤ 90
    · rw [if_pos h65, char_eq_iff_toNat, char_eq_iff_toNat, hofn _ (by omega)]
      omega
    · rw [if_neg h65, char_eq_iff_toNat, char_eq_iff_toNat]
      omega

lemma map_case_four (l : List Char) :
    (l.map Char.toUpper = ['D', 'E', 'S', 'C']
      ↔ l.map Char.toLower = ['d', 'e', 's', 'c']) := by
  match l with
  | [] => simp
  | [a] => simp
  | [a, b] => simp
  | [a, b, c] => simp
  | a :: b :: c :: d :: e :: rest => simp
  | [a, b, c, d] =>
    simp only [List.map_cons, List.map_nil, List.cons.injEq, and_true]
    have h1 := case_char a 'D' 'd' (by decide) (by decide) (by decide)
    have h2 := case_char b 'E' 'e' (by decide) (by decide) (by decide)
    have h3 := case_char c 'S' 's' (by decide) (by decide) (by decide)
    have h4 := case_char d 'C' 'c' (by decide) (by decide) (by decide)
    tauto

/-- C10: the direction token interpolated into the executed and generated
ORDER BY clauses is exactly `DESC` when the caller's `sortDirection`
case-insensitively equals `desc`, and exactly `ASC` in every other case,
so the raw direction input never reaches the SQL text. -/
theorem direction_normalization :
    ∀ s : String,
      (normalizeDirection s = "DESC" ↔ lowerStr s = "desc") ∧
      (normalizeDirection s = "ASC" ∨ normalizeDirection s = "DESC") ∧
      (lowerStr s ≠ "desc" → normalizeDirection s = "ASC") := by
  intro s
  have mkeq : ∀ (l t : List Char), (String.mk l = String.mk t) ↔ l = t := by
    intro l t
    exact ⟨fun h => congrArg String.data h, fun h => by rw [h]⟩
  have key : upperStr s = "DESC" ↔ lowerStr s = "desc" := by
    unfold upperStr lowerStr
    rw [show ("DESC" : String) = String.mk ['D', 'E', 'S', 'C'] from rfl,
      show ("desc" : String) = String.mk ['d', 'e', 's', 'c'] from rfl,
      mkeq, mkeq]
    exact map_case_four s.data
  unfold normalizeDirection
  by_cases hb : upperStr s = "DESC"
  · rw [if_pos (beq_iff_eq.mpr hb)]
    exact ⟨⟨fun _ => key.mp hb, fun _ => rfl⟩, Or.inr rfl,
      fun hl => absurd (key.mp hb) hl⟩
  · rw [if_neg (by simpa using hb)]
    exact ⟨⟨fun h => absurd h (by decide), fun hl => absurd (key.mpr hl) hb⟩,
      Or.inl rfl, fun _ => rfl⟩

/-- C10 witness: mixed-case `DeSc` normalizes to `DESC`; arbitrary text
normalizes to `ASC`. -/
theorem direction_normalization_witness :
    normalizeDirection "DeSc" = "DESC" ∧ normalizeDirection "evil input" = "ASC" :=
  ⟨(direction_normalization "DeSc").1.mpr (by decide),
   (direction_normalization "evil input").2.2 (by decide)⟩

/-! ## C8: timeout classification (corrected) -/

/-- C8 counterexample: a driver error that bypasses `executeQuery`'s
enhancement (its own code and message are not timeout-like) but carries
`originalError.code = 'ESOCKET'` with a non-empty `originalError.message`
is classified as a timeout by the route, yet the caller-visible response
contains no remediation hint. -/
theorem timeout_hint_cex :
    (respondFailure (wrapTimeout
      ⟨none, "connection reset", none, some "ESOCKET", some "socket hang up", none⟩)).timeout
        = true ∧
    (respondFailure (wrapTimeout
      ⟨none, "connection reset", none, some "ESOCKET", some "socket hang up", none⟩)).status
        = 408 ∧
    hintCarried (respondFailure (wrapTimeout
      ⟨none, "connection reset", none, some "ESOCKET", some "socket hang up", none⟩))
        = false := by
  refine ⟨rfl, rfl, ?_⟩
  decide

/-- C8 amended: failures are partitioned into a 408 `timeout: true`
response and a generic 500 response, exactly following the timeout
classification; every failure `executeQuery` itself classifies as a
timeout reaches the caller with the remediation hint, as does any
timeout-classified failure without original-error details; generic
failures carry the error message and details verbatim with no hint
added.  (A timeout classified only via `originalError.code`, with its own
detail message, carries no hint — the uncorrected claim fails there.) -/
theorem timeout_classification :
    ∀ (e : JsError) (r : FailureResponse),
      r = respondFailure (wrapTimeout e) →
      ((r.status = 408 ∧ r.timeout = true) ∨ (r.status = 500 ∧ r.timeout = false)) ∧
      (r.timeout = true ↔ routeIsTimeout (wrapTimeout e) = true) ∧
      (execTimeoutCond e = true → hintCarried r = true) ∧
      (r.timeout = true → errorDetailsOf (wrapTimeout e) = "" → hintCarried r = true) ∧
      (r.timeout = false → r.error = e.message ∧ r.details = errorDetailsOf e) := by
  intro e r hr
  subst hr
  by_cases ht : routeIsTimeout (wrapTimeout e) = true
  · have hresp : respondFailure (wrapTimeout e) =
        ⟨408, jsOr (wrapTimeout e).message "Query execution timeout",
          jsOr (errorDetailsOf (wrapTimeout e))
            "The query took too long to execute. Try disabling foreign key displays or reducing the page size.",
          true⟩ := by
      unfold respondFailure
      rw [if_pos ht]
    refine ⟨Or.inl (by rw [hresp]; exact ⟨rfl, rfl⟩),
      by rw [hresp]; simp [ht], ?_, ?_, ?_⟩
    · intro hexec
      have hwrap : wrapTimeout e =
          ⟨some "ETIMEOUT", enhancedTimeoutMessage, none, e.code, some e.message,
            e.infoMessage⟩ := by
        unfold wrapTimeout
        rw [if_pos hexec]
      rw [hresp, hwrap]
      have hconc : strIncludes (jsOr enhancedTimeoutMessage "Query execution timeout")
          remediationHint = true := by decide
      simp [hintCarried, hconc]
    · intro _ hdet
      rw [hresp]
      have hdef : strIncludes
          "The query took too long to execute. Try disabling foreign key displays or reducing the page size."
          remediationHint = true := by decide
      simp [hintCarried, hdet, jsOr, hdef]
    · intro habs
      rw [hresp] at habs
      simp at habs
  · have hexecf : execTimeoutCond e = false := by
      cases hcv : execTimeoutCond e
      · rfl
      · exfalso
        apply ht
        have hwrap : wrapTimeout e =
            ⟨some "ETIMEOUT", enhancedTimeoutMessage, none, e.code, some e.message,
              e.infoMessage⟩ := by
          unfold wrapTimeout
          rw [if_pos hcv]
        rw [hwrap]
        unfold routeIsTimeout
        simp
    have hid : wrapTimeout e = e := by
      unfold wrapTimeout
      rw [if_neg (by simp [hexecf])]
    rw [hid] at ht ⊢
    have hresp : respondFailure e = ⟨500, e.message, errorDetailsOf e, false⟩ := by
      unfold respondFailure
      rw [if_neg ht]
    refine ⟨Or.inr (by rw [hresp]; exact ⟨rfl, rfl⟩), ?_, ?_, ?_, ?_⟩
    · rw [hresp]
      exact ⟨fun h => absurd h (by simp), fun h => absurd h ht⟩
    · intro hexec
      rw [hexecf] at hexec
      exact absurd hexec (by simp)
    · intro habs
      rw [hresp] at habs
      simp at habs
    · intro _
      rw [hresp]
      exact ⟨rfl, rfl⟩

/-- C8 witness: a genuine `ETIMEOUT` driver error is enhanced by
`executeQuery` and reaches the caller as a 408 timeout response carrying
the remediation hint. -/
theorem timeout_classification_witness :
    (respondFailure (wrapTimeout ⟨some "ETIMEOUT", "request timed out", none, none, none, none⟩)).timeout
        = true ∧
    hintCarried (respondFailure (wrapTimeout ⟨some "ETIMEOUT", "request timed out", none, none, none, none⟩))
        = true := by
  have h := timeout_classification
    ⟨some "ETIMEOUT", "request timed out", none, none, none, none⟩
    (respondFailure (wrapTimeout ⟨some "ETIMEOUT", "request timed out", none, none, none, none⟩))
    rfl
  exact ⟨by decide, h.2.2.1 (by decide)⟩

/-! ## C6: filter validation and WHERE-clause safety -/

/-- C6: a filter entry whose column is absent from the table's column
metadata contributes no predicate to the generated WHERE clause (of both
the data and the count query, which share it) and never fails the
request; every surviving predicate targets a validated catalog column and
has the form `[column] LIKE @filter<i>`, its pattern passed as the bound
parameter `%pattern%`, never concatenated into the SQL text.  The
candidate columns are validated by the single batched `IN`-list lookup
`validateFilterColumns`. -/
theorem filter_safety :
    ∀ (catalogCols : List ColumnMeta) (filters : List (String × String))
      (lookupFails : Bool) (preds : List LikePred) (params : List SqlParam),
      buildWhere (validateFilterColumns catalogCols filters lookupFails) filters
          = (preds, params) →
      (∀ p ∈ preds, ∃ cc ∈ catalogCols, p.column = cc.name) ∧
      (∀ c pat0, (c, pat0) ∈ filters → (∀ cc ∈ catalogCols, cc.name ≠ c) →
        ∀ p ∈ preds, p.column ≠ c) ∧
      (∀ pq ∈ preds.zip params, pq.1.paramName = pq.2.name ∧
        ∃ pat, assocLookup filters pq.1.column = some pat ∧
          pq.2.value = "%" ++ trimStr pat ++ "%" ∧
          ∃ i : Nat, pq.1.paramName = "filter" ++ toString i) ∧
      (∀ db s t tb page pageSize dir mode, findTable db s t = some tb →
        (fetchPage db s t page pageSize none dir mode filters).isSome = true) := by
  intro cols filters lf preds params hbw
  have hfc : ∀ c ∈ validateFilterColumns cols filters lf, ∃ cc ∈ cols, c = cc.name := by
    intro c hc
    unfold validateFilterColumns at hc
    split at hc
    · simp at hc
    · split at hc
      · simp at hc
      · rw [List.mem_map] at hc
        rcases hc with ⟨cc, hcc, rfl⟩
        exact ⟨cc, (List.mem_filter.mp hcc).1, rfl⟩
  unfold buildWhere at hbw
  cases hbw
  have hmemPred : ∀ p ∈ ((validateFilterColumns cols filters lf).filter (fun col =>
        match assocLookup filters col with
        | some v => trimStr v != ""
        | none => false)).enum.map (fun p =>
          ({ column := p.2, paramName := "filter" ++ toString p.1 } : LikePred)),
      ∃ cc ∈ cols, p.column = cc.name := by
    intro p hp
    rw [List.mem_map] at hp
    rcases hp with ⟨⟨i, col⟩, hmem, rfl⟩
    have hh := List.mem_enum hmem
    have hcolmem : col ∈ (validateFilterColumns cols filters lf).filter (fun col =>
        match assocLookup filters col with
        | some v => trimStr v != ""
        | none => false) := by
      rw [hh.2]
      exact List.getElem_mem hh.1
    exact hfc col (List.mem_filter.mp hcolmem).1
  refine ⟨hmemPred, ?_, ?_, ?_⟩
  · intro c pat0 hcf hnone p hp hpc
    rcases hmemPred p hp with ⟨cc, hcc, hpcc⟩
    exact hnone cc hcc (by rw [← hpcc, hpc])
  · intro pq hpq
    rw [List.zip_map', List.mem_map] at hpq
    rcases hpq with ⟨⟨i, col⟩, hmem, rfl⟩
    have hh := List.mem_enum hmem
    have hcolmem : col ∈ (validateFilterColumns cols filters lf).filter (fun col =>
        match assocLookup filters col with
        | some v => trimStr v != ""
        | none => false) := by
      rw [hh.2]
      exact List.getElem_mem hh.1
    have hpredv := (List.mem_filter.mp hcolmem).2
    refine ⟨rfl, ?_⟩
    cases hassoc : assocLookup filters col with
    | none =>
      rw [hassoc] at hpredv
      simp at hpredv
    | some pat =>
      refine ⟨pat, rfl, ?_, i, rfl⟩
      simp
  · intro db s t tb page pageSize dir mode hf
    unfold fetchPage
    rw [hf]
    simp

/-- C6 witness: with catalog `{name}` and filters on `name` and the absent
column `ghost`, the surviving predicate targets `name` only, and the
request with those filters still succeeds. -/
theorem filter_safety_witness :
    ("name" : String) ≠ "ghost" ∧
    (fetchPage [⟨"dbo", "W", [⟨"name", "nvarchar"⟩], [[("name", Val.str "al")]], []⟩]
      "dbo" "W" 1 10 none "asc" "key-only"
      [("name", "al"), ("ghost", "x")]).isSome = true := by
  have h := filter_safety [⟨"name", "nvarchar"⟩] [("name", "al"), ("ghost", "x")]
    false [⟨"name", "filter0"⟩] [⟨"filter0", "%al%"⟩] (by decide)
  exact ⟨h.2.1 "ghost" "x" (by decide) (by decide) ⟨"name", "filter0"⟩ (by decide),
    h.2.2.2 _ "dbo" "W" ⟨"dbo", "W", [⟨"name", "nvarchar"⟩], [[("name", Val.str "al")]], []⟩
      1 10 "asc" "key-only" (by decide)⟩

/-! ## C4: offset pagination and the ROW_NUMBER fallback agree -/

lemma getField_eq_none_iff (r : Row) (k : String) :
    getField r k = none ↔ ∀ kv ∈ r, kv.1 ≠ k := by
  unfold getField
  rw [Option.map_eq_none', List.find?_eq_none]
  simp

lemma getField_append_left {r : Row} {k : String} {v : Val}
    (h : getField r k = some v) (r2 : Row) : getField (r ++ r2) k = some v := by
  unfold getField at h ⊢
  rcases Option.map_eq_some'.mp h with ⟨kv, hkv, hv⟩
  rw [List.find?_append, hkv]
  simp [hv]

lemma getField_append_right {r : Row} {k : String}
    (h : getField r k = none) (r2 : Row) : getField (r ++ r2) k = getField r2 k := by
  unfold getField at h ⊢
  rw [Option.map_eq_none'] at h
  rw [List.find?_append, h]
  simp

lemma getField_single_ne {k c : String} {x : Val} (h : c ≠ k) :
    getField [(k, x)] c = none := by
  unfold getField
  have hbeq : (k == c) = false := beq_eq_false_iff_ne.mpr (Ne.symm h)
  simp [List.find?, hbeq]

lemma display_name_ne_rn (s : String) : s ++ "_display" ≠ "rn" := by
  intro h
  have hlen := congrArg String.length h
  rw [String.length_append] at hlen
  rw [show ("_display" : String).length = 8 from by decide,
    show ("rn" : String).length = 2 from by decide] at hlen
  omega

lemma displayVal_append_rn (db : Database) (j : FkJoin) (r : Row) (x : Val)
    (hcol : j.fkColumn ≠ "rn") :
    displayVal db j (r ++ [("rn", x)]) = displayVal db j r := by
  unfold displayVal
  cases hg : getField r j.fkColumn with
  | some v => rw [getField_append_left hg]
  | none =>
    rw [getField_append_right hg, getField_single_ne hcol]

lemma rnOf_joinRow_rn (db : Database) (joins : List FkJoin) (r : Row) (n : Int)
    (hr : getField r "rn" = none) :
    rnOf (joinRow db joins (r ++ [("rn", Val.num n)])) = n := by
  unfold rnOf joinRow
  have h1 : getField (r ++ [("rn", Val.num n)]) "rn" = some (Val.num n) := by
    rw [getField_append_right hr]
    unfold getField
    simp [List.find?]
  rw [getField_append_left h1]

lemma deleteField_joinRow_rn (db : Database) (joins : List FkJoin) (r : Row) (x : Val)
    (hr : getField r "rn" = none) (hj : ∀ j ∈ joins, j.fkColumn ≠ "rn") :
    deleteField (joinRow db joins (r ++ [("rn", x)])) "rn" = joinRow db joins r := by
  unfold joinRow deleteField
  rw [List.filter_append, List.filter_append]
  have hfr : r.filter (fun kv => kv.1 != "rn") = r := by
    rw [List.filter_eq_self]
    intro kv hkv
    have := (getField_eq_none_iff r "rn").mp hr kv hkv
    simp [this]
  have hfrn : ([(("rn" : String), x)].filter (fun kv => kv.1 != "rn")) = [] := by
    simp
  have hdisp : (joins.map (fun j =>
      (j.fkColumn ++ "_display", displayVal db j (r ++ [("rn", x)])))).filter
        (fun kv => kv.1 != "rn")
      = joins.map (fun j => (j.fkColumn ++ "_display", displayVal db j r)) := by
    rw [List.map_congr_left (fun j hjm => by
      rw [displayVal_append_rn db j r x (hj j hjm)])]
    rw [List.filter_eq_self]
    intro kv hkv
    rcases List.mem_map.mp hkv with ⟨j, hjm, rfl⟩
    simp [display_name_ne_rn j.fkColumn]
  rw [hfr, hfrn, hdisp]
  simp

lemma rn_window (db : Database) (joins : List FkJoin)
    (hj : ∀ j ∈ joins, j.fkColumn ≠ "rn") :
    ∀ (rows : List Row) (k offset pageSize : Nat),
      (∀ r ∈ rows, getField r "rn" = none) →
      (((addRnFrom rows k).map (joinRow db joins)).filter
          (fun r => decide ((offset : Int) < rnOf r) &&
            decide (rnOf r ≤ (offset : Int) + (pageSize : Int)))).map
        (fun r => deleteField r "rn")
      = ((rows.drop (offset - k)).take ((offset + pageSize) - max k offset)).map
          (joinRow db joins) := by
  intro rows
  induction rows with
  | nil =>
    intro k offset pageSize _
    simp [addRnFrom]
  | cons r rs ih =>
    intro k offset pageSize h
    have hr := h r (List.mem_cons_self r rs)
    have hrs : ∀ x ∈ rs, getField x "rn" = none :=
      fun x hx => h x (List.mem_cons_of_mem _ hx)
    simp only [addRnFrom, List.map_cons, List.filter_cons]
    rw [rnOf_joinRow_rn db joins r (Int.ofNat (k + 1)) hr]
    by_cases hin : offset < k + 1 ∧ k + 1 ≤ offset + pageSize
    · have hcond : (decide ((offset : Int) < Int.ofNat (k + 1)) &&
          decide (Int.ofNat (k + 1) ≤ (offset : Int) + (pageSize : Int))) = true := by
        rw [Bool.and_eq_true, decide_eq_true_eq, decide_eq_true_eq]
        refine ⟨?_, ?_⟩ <;> (simp only [Int.ofNat_eq_coe]; omega)
      rw [hcond]
      simp only [if_true, List.map_cons]
      rw [deleteField_joinRow_rn db joins r _ hr hj, ih (k + 1) offset pageSize hrs]
      rw [show offset - k = 0 from by omega, show offset - (k + 1) = 0 from by omega,
        List.drop_zero, List.drop_zero]
      rw [show (offset + pageSize) - max k offset
          = ((offset + pageSize) - max (k + 1) offset) + 1 from by omega]
      rw [List.take_succ_cons, List.map_cons]
    · have hcond : (decide ((offset : Int) < Int.ofNat (k + 1)) &&
          decide (Int.ofNat (k + 1) ≤ (offset : Int) + (pageSize : Int))) = false := by
        rw [Bool.and_eq_false_iff]
        rcases Nat.lt_or_ge k offset with hk | hk
        · left
          simp only [decide_eq_false_iff_not, Int.ofNat_eq_coe]
          omega
        · right
          simp only [decide_eq_false_iff_not, Int.ofNat_eq_coe]
          intro hle
          refine hin ⟨by omega, by omega⟩
      rw [hcond]
      simp only [if_false, Bool.false_eq_true]
      rw [ih (k + 1) offset pageSize hrs]
      rcases Nat.lt_or_ge k offset with hk | hk
      · rw [show offset - k = (offset - (k + 1)) + 1 from by omega, List.drop_succ_cons]
        rw [show max k offset = max (k + 1) offset from by omega]
      · have hk2 : offset + pageSize ≤ k := by omega
        rw [show (offset + pageSize) - max k offset = 0 from by omega,
          show (offset + pageSize) - max (k + 1) offset = 0 from by omega]
        simp

/-- C4: over the same filtered relation in the same row order, the
offset-based pagination and the ROW_NUMBER fallback (keep
`offset < rn ≤ offset + pageSize`, then strip the `rn` column) return
exactly the same rows for the same page. -/
theorem pagination_equivalence :
    ∀ (db : Database) (joins : List FkJoin) (rows : List Row) (offset pageSize : Nat),
      (∀ r ∈ rows, getField r "rn" = none) →
      (∀ j ∈ joins, j.fkColumn ≠ "rn") →
      rnFallback db joins rows offset pageSize
        = offsetPaginate (rows.map (joinRow db joins)) offset pageSize := by
  intro db joins rows offset pageSize h hj
  unfold rnFallback offsetPaginate
  rw [rn_window db joins hj rows 0 offset pageSize h]
  rw [Nat.sub_zero, Nat.max_eq_right (Nat.zero_le _), Nat.add_sub_cancel_left]
  rw [List.map_take, List.map_drop]

/-- C4 witness: a three-row relation with one FK join paged with
offset 1, page size 2, by both strategies. -/
theorem pagination_equivalence_witness :
    rnFallback [⟨"dbo", "Employee", [⟨"id", "int"⟩, ⟨"name", "nvarchar"⟩],
        [[("id", Val.num 1), ("name", Val.str "Alice")]], []⟩]
      [⟨"fk_mid", "dbo", "Employee", "mid", "id", "name"⟩]
      [[("a", Val.num 10), ("mid", Val.num 1)],
       [("a", Val.num 11), ("mid", Val.num 2)],
       [("a", Val.num 12), ("mid", Val.num 1)]] 1 2
    = offsetPaginate
        ([[("a", Val.num 10), ("mid", Val.num 1)],
          [("a", Val.num 11), ("mid", Val.num 2)],
          [("a", Val.num 12), ("mid", Val.num 1)]].map
          (joinRow [⟨"dbo", "Employee", [⟨"id", "int"⟩, ⟨"name", "nvarchar"⟩],
              [[("id", Val.num 1), ("name", Val.str "Alice")]], []⟩]
            [⟨"fk_mid", "dbo", "Employee", "mid", "id", "name"⟩])) 1 2 :=
  pagination_equivalence _ _ _ 1 2 (by decide) (by decide)

/-! ## C3: page-length arithmetic and the 120-row scenario -/

lemma resolveOrderColumn_empty (cols : List ColumnMeta) (b : Bool) :
    resolveOrderColumn cols "" b = cols.head?.map (fun c => c.name) := by
  unfold resolveOrderColumn
  simp

lemma joinRow_nil (db : Database) (r : Row) : joinRow db [] r = r := by
  unfold joinRow
  simp

lemma fetchPage_keyonly_nofilters (db : Database) (s t : String) (tb : DbTable)
    (c0 : ColumnMeta) (page pageSize : Nat)
    (hf : findTable db s t = some tb) (hc : tb.columns.head? = some c0) :
    fetchPage db s t page pageSize none "asc" "key-only" []
      = some { data := ((sortRows (rowLe c0.name false) tb.rows).drop
                  ((page - 1) * pageSize)).take pageSize
               generatedQuery := genQueryText s t [] [] (some c0.name) "ASC"
                  ((page - 1) * pageSize) pageSize
               total := tb.rows.length
               page := page
               pageSize := pageSize
               totalPages := (tb.rows.length + pageSize - 1) / pageSize } := by
  unfold fetchPage
  rw [hf]
  simp only [Option.getD_none, resolveOrderColumn_empty, hc, Option.map_some,
    show validateFilterColumns tb.columns [] false = [] from rfl,
    show buildWhere [] [] = ([], []) from rfl,
    show ∀ r : Row, whereSat [] [] r = true from fun r => rfl,
    show normalizeDirection "asc" = "ASC" from rfl,
    show (("ASC" : String) == "DESC") = false from rfl,
    show (("key-only" == "key-display") || ("key-only" == "display-only")) = false from rfl,
    show (("key-only" : String) == "display-only") = false from rfl,
    List.filter_true, joinRow_nil, List.map_id',
    show (("key-only" : String) == "key-display") = false from rfl,
    show Option.map (fun c : ColumnMeta => c.name) (some c0) = some c0.name from rfl,
    Bool.or_false, Bool.false_eq_true, if_false]
  have hmap : List.map (joinRow db []) tb.rows = tb.rows := by
    rw [List.map_congr_left (fun r hr => joinRow_nil db r), List.map_id']
  rw [hmap]
  rfl

/-- C3: for a valid key-only request without filters, the returned page is
exactly the `offset`-to-`offset+pageSize` window of the ordered relation,
so `rows.length = min(pageSize, totalCount − offset)`, at most `pageSize`
rows and zero once the offset passes the total; in the 120-row scenario
at page 2 with page size 50, the rows are rows 51–100 of the ordered
relation and `totalPages = 3`. -/
theorem pagination_length :
    ∀ (db : Database) (s t : String) (tb : DbTable) (c0 : ColumnMeta)
      (page pageSize : Nat) (result : FetchResult),
      findTable db s t = some tb →
      tb.columns.head? = some c0 →
      fetchPage db s t page pageSize none "asc" "key-only" [] = some result →
      result.total = tb.rows.length ∧
      result.data = ((sortRows (rowLe c0.name false) tb.rows).drop
        ((page - 1) * pageSize)).take pageSize ∧
      result.data.length ≤ pageSize ∧
      result.data.length = min pageSize (result.total - (page - 1) * pageSize) ∧
      (result.total ≤ (page - 1) * pageSize → result.data.length = 0) ∧
      (tb.rows.length = 120 → page = 2 → pageSize = 50 →
        result.data = ((sortRows (rowLe c0.name false) tb.rows).drop 50).take 50 ∧
        result.data.length = 50 ∧ result.totalPages = 3) := by
  intro db s t tb c0 page pageSize result hf hc hfp
  rw [fetchPage_keyonly_nofilters db s t tb c0 page pageSize hf hc] at hfp
  injection hfp with hfp
  subst hfp
  have hlen : (List.take pageSize (List.drop ((page - 1) * pageSize)
      (sortRows (rowLe c0.name false) tb.rows))).length
      = min pageSize (tb.rows.length - (page - 1) * pageSize) := by
    rw [List.length_take, List.length_drop, length_sortRows]
  refine ⟨rfl, rfl, ?_, ?_, ?_, ?_⟩
  · show (List.take pageSize (List.drop ((page - 1) * pageSize)
      (sortRows (rowLe c0.name false) tb.rows))).length ≤ pageSize
    rw [hlen]
    exact min_le_left _ _
  · exact hlen
  · intro h
    have h2 : tb.rows.length ≤ (page - 1) * pageSize := h
    show (List.take pageSize (List.drop ((page - 1) * pageSize)
      (sortRows (rowLe c0.name false) tb.rows))).length = 0
    rw [hlen]
    omega
  · intro h120 hp hps
    subst hp
    subst hps
    refine ⟨rfl, ?_, ?_⟩
    · show (List.take 50 (List.drop 50 (sortRows (rowLe c0.name false) tb.rows))).length = 50
      rw [List.length_take, List.length_drop, length_sortRows, h120]
      decide
    · show (tb.rows.length + 50 - 1) / 50 = 3
      rw [h120]

/-- C3 witness: the 120-row `Orders` table at page 2, page size 50. -/
theorem pagination_length_witness :
    res120.data.length = 50 ∧ res120.totalPages = 3 ∧ res120.total = 120 := by
  have h := pagination_length db120 "dbo" "Orders" ordersTable ⟨"id", "int"⟩ 2 50 res120
    (by rfl) (by rfl) (by rfl)
  have hscen := h.2.2.2.2.2 (by rfl) rfl rfl
  exact ⟨hscen.2.1, hscen.2.2, h.1.trans (by rfl)⟩

/-! ## C2: FK display-mode result shapes -/

lemma scenario_displayVal (emps ts : List (Val × Val)) (p : Val × Val) :
    displayVal (scenarioDb emps ts)
      ⟨"fk_managerId", "dbo", "Employee", "managerId", "id", "name"⟩ (mkTRow p)
      = empDisplay emps p.2 := by
  have hcomp : ((fun rr : Row => match getField rr "id" with
      | some w => valEqSql w p.2
      | none => false) ∘ mkEmpRow) = fun e : Val × Val => valEqSql e.1 p.2 := by
    funext e
    rfl
  unfold displayVal
  simp only [show getField (mkTRow p) "managerId" = some p.2 from rfl,
    show findTable (scenarioDb emps ts) "dbo" "Employee" = some (mkEmpTable emps) from rfl,
    show (mkEmpTable emps).rows = emps.map mkEmpRow from rfl,
    List.find?_map, hcomp]
  unfold empDisplay
  cases h : emps.find? (fun e => valEqSql e.1 p.2) with
  | none => rfl
  | some e => rfl

lemma scenario_joinRow (emps ts : List (Val × Val)) (p : Val × Val) :
    joinRow (scenarioDb emps ts)
      [⟨"fk_managerId", "dbo", "Employee", "managerId", "id", "name"⟩] (mkTRow p)
      = [("id", p.1), ("managerId", p.2), ("managerId_display", empDisplay emps p.2)] := by
  unfold joinRow
  simp only [List.map_cons, List.map_nil, scenario_displayVal]
  rfl

lemma scenario_shape (a b d : Val) :
    shapeDisplayOnly ["managerId"] [("id", a), ("managerId", b), ("managerId_display", d)]
      = [("id", a), ("managerId", d)] := rfl

/-- C2: for `T(id, managerId)` with `managerId` a foreign key to
`Employee(id, name)`: key-only rows have exactly the fields
`{id, managerId}` with raw values; key-display rows have
`{id, managerId, managerId_display}` with the display field carrying the
referenced employee's `name`; display-only rows have `{id, managerId}`
with `managerId` carrying the manager's `name` (the key column deleted,
the display column renamed to it). -/
theorem display_mode_shape :
    ∀ (emps ts : List (Val × Val)) (mode : String) (result : FetchResult),
      fetchPage (scenarioDb emps ts) "dbo" "T" 1 1000 none "asc" mode []
          = some result →
      (mode = "key-only" → ∀ r ∈ result.data, ∃ p ∈ ts,
        r = [("id", p.1), ("managerId", p.2)]) ∧
      (mode = "key-display" → ∀ r ∈ result.data, ∃ p ∈ ts,
        r = [("id", p.1), ("managerId", p.2),
             ("managerId_display", empDisplay emps p.2)]) ∧
      (mode = "display-only" → ∀ r ∈ result.data, ∃ p ∈ ts,
        r = [("id", p.1), ("managerId", empDisplay emps p.2)]) := by
  intro emps ts mode result hfp
  refine ⟨?_, ?_, ?_⟩
  · rintro rfl
    unfold fetchPage at hfp
    rw [show findTable (scenarioDb emps ts) "dbo" "T" = some (mkTTable ts) from rfl]
      at hfp
    simp only [Option.getD_none,
      show resolveOrderColumn (mkTTable ts).columns "" false = some "id" from rfl,
      show validateFilterColumns (mkTTable ts).columns [] false = [] from rfl,
      show buildWhere [] [] = ([], []) from rfl,
      show ∀ r : Row, whereSat [] [] r = true from fun r => rfl,
      List.filter_true,
      show normalizeDirection "asc" = "ASC" from rfl,
      show (("ASC" : String) == "DESC") = false from rfl,
      show (("key-only" == "key-display") || ("key-only" == "display-only"))
        = false from rfl,
      show (("key-only" : String) == "key-display") = false from rfl,
      show (("key-only" : String) == "display-only") = false from rfl,
      Bool.true_or, Bool.or_false, Bool.false_or,
      show (mkTTable ts).rows = List.map mkTRow ts from rfl,
      joinRow_nil, List.map_id',
      if_true, if_false, Bool.false_eq_true] at hfp
    injection hfp with hfp
    subst hfp
    intro r hr
    have hr2 := (mem_sortRows _ _ _).mp
      (List.mem_of_mem_drop (List.mem_of_mem_take hr))
    rcases List.mem_map.mp hr2 with ⟨r0, hr0, rfl⟩
    rcases List.mem_map.mp hr0 with ⟨p, hp, rfl⟩
    refine ⟨p, hp, ?_⟩
    rw [joinRow_nil]
    rfl
  · rintro rfl
    unfold fetchPage at hfp
    rw [show findTable (scenarioDb emps ts) "dbo" "T" = some (mkTTable ts) from rfl]
      at hfp
    simp only [Option.getD_none,
      show resolveOrderColumn (mkTTable ts).columns "" false = some "id" from rfl,
      show validateFilterColumns (mkTTable ts).columns [] false = [] from rfl,
      show buildWhere [] [] = ([], []) from rfl,
      show ∀ r : Row, whereSat [] [] r = true from fun r => rfl,
      List.filter_true,
      show normalizeDirection "asc" = "ASC" from rfl,
      show (("ASC" : String) == "DESC") = false from rfl,
      show (("key-display" == "key-display") || ("key-display" == "display-only"))
        = true from rfl,
      show (("key-display" : String) == "key-display") = true from rfl,
      show (("key-display" : String) == "display-only") = false from rfl,
      Bool.true_or, Bool.or_false, Bool.false_or,
      show resolveFkJoins (scenarioDb emps ts) (mkTTable ts).foreignKeys
        = [⟨"fk_managerId", "dbo", "Employee", "managerId", "id", "name"⟩] from rfl,
      show (mkTTable ts).rows = List.map mkTRow ts from rfl,
      if_true, if_false, Bool.false_eq_true] at hfp
    injection hfp with hfp
    subst hfp
    intro r hr
    have hr2 := (mem_sortRows _ _ _).mp
      (List.mem_of_mem_drop (List.mem_of_mem_take hr))
    rcases List.mem_map.mp hr2 with ⟨r0, hr0, rfl⟩
    rcases List.mem_map.mp hr0 with ⟨p, hp, rfl⟩
    exact ⟨p, hp, scenario_joinRow emps ts p⟩
  · rintro rfl
    unfold fetchPage at hfp
    rw [show findTable (scenarioDb emps ts) "dbo" "T" = some (mkTTable ts) from rfl]
      at hfp
    simp only [Option.getD_none,
      show resolveOrderColumn (mkTTable ts).columns "" false = some "id" from rfl,
      show validateFilterColumns (mkTTable ts).columns [] false = [] from rfl,
      show buildWhere [] [] = ([], []) from rfl,
      show ∀ r : Row, whereSat [] [] r = true from fun r => rfl,
      List.filter_true,
      show normalizeDirection "asc" = "ASC" from rfl,
      show (("ASC" : String) == "DESC") = false from rfl,
      show (("display-only" == "key-display") || ("display-only" == "display-only"))
        = true from rfl,
      show (("display-only" : String) == "key-display") = false from rfl,
      show (("display-only" : String) == "display-only") = true from rfl,
      Bool.true_or, Bool.or_false, Bool.false_or,
      show resolveFkJoins (scenarioDb emps ts) (mkTTable ts).foreignKeys
        = [⟨"fk_managerId", "dbo", "Employee", "managerId", "id", "name"⟩] from rfl,
      show List.map (fun j : FkJoin => j.fkColumn)
        [⟨"fk_managerId", "dbo", "Employee", "managerId", "id", "name"⟩]
        = ["managerId"] from rfl,
      show (mkTTable ts).rows = List.map mkTRow ts from rfl,
      if_true, if_false, Bool.false_eq_true] at hfp
    injection hfp with hfp
    subst hfp
    intro r hr
    rcases List.mem_map.mp hr with ⟨r1, hr1, rfl⟩
    have hr2 := (mem_sortRows _ _ _).mp
      (List.mem_of_mem_drop (List.mem_of_mem_take hr1))
    rcases List.mem_map.mp hr2 with ⟨r0, hr0, rfl⟩
    rcases List.mem_map.mp hr0 with ⟨p, hp, rfl⟩
    refine ⟨p, hp, ?_⟩
    rw [scenario_joinRow emps ts p, scenario_shape]

/-- C2 witness: one employee `Alice` and one `T` row referencing her; the
display-only response carries `Alice` under the `managerId` field. -/
theorem display_mode_shape_witness :
    ∃ p ∈ [((Val.num 10, Val.num 1) : Val × Val)],
      ([("id", Val.num 10), ("managerId", Val.str "Alice")] : Row)
        = [("id", p.1), ("managerId", empDisplay [(Val.num 1, Val.str "Alice")] p.2)] := by
  have h := display_mode_shape [(Val.num 1, Val.str "Alice")] [(Val.num 10, Val.num 1)]
    "display-only"
    ((fetchPage (scenarioDb [(Val.num 1, Val.str "Alice")] [(Val.num 10, Val.num 1)])
        "dbo" "T" 1 1000 none "asc" "display-only" []).getD
      ⟨[], "", 0, 0, 0, 0⟩) (by rfl)
  exact h.2.2 rfl [("id", Val.num 10), ("managerId", Val.str "Alice")] (by decide)

/-! ## C9: query-text reconstruction (corrected) -/

set_option maxRecDepth 200000 in
/-- C9 counterexample: the select-list segment is rebuilt even when
neither the visible-column set nor the FK display mode differs from what
produced the previous text.  `gridStateSame` is exactly the state that
produced `kdServerText` (key-display, all columns visible, page 1, page
size 100), yet the reconstructed text's select segment is the explicit
column list, not the preserved `[t].*` form. -/
theorem reconstruct_select_cex :
    generateQueryFromGrid gridStateSame ≠ kdServerText ∧
    generateQueryFromGrid gridStateSame
      = "SELECT [t].[id], [t].[managerId], fk_managerId.[name] as [managerId_display]\nFROM [dbo].[T] t\nLEFT JOIN [dbo].[Employee] fk_managerId ON [t].[managerId] = fk_managerId.[id]\nORDER BY t.[id] ASC OFFSET 0 ROWS FETCH NEXT 100 ROWS ONLY" := by
  constructor
  · decide
  · decide

/-! ### Matcher lemmas for the reconstruction proof -/

lemma litConsume_sound : ∀ (p s m r : List Char),
    litConsume p s = some (m, r) → s = m ++ r := by
  intro p
  induction p with
  | nil =>
    intro s m r h
    simp [litConsume] at h
    simp [h.1, h.2]
  | cons a ps ih =>
    intro s m r h
    cases s with
    | nil => simp [litConsume] at h
    | cons c cs =>
      simp only [litConsume] at h
      by_cases hc : ciEq a c = true
      · rw [if_pos hc] at h
        cases hlc : litConsume ps cs with
        | none => rw [hlc] at h; simp at h
        | some pr =>
          rw [hlc] at h
          cases pr with
          | mk m1 r1 =>
            simp at h
            rcases h with ⟨hm, hr⟩
            subst hm; subst hr
            have := ih cs m1 r1 hlc
            simp [this]
      · rw [if_neg hc] at h
        simp at h

lemma litConsumeD_ok : ∀ (p s r : List Char), litConsumeD p s = LCRes.ok r →
    ∃ m, s = m ++ r ∧ ∀ tail, litConsume p (s ++ tail) = some (m, r ++ tail) := by
  intro p
  induction p with
  | nil =>
    intro s r h
    simp [litConsumeD] at h
    subst h
    exact ⟨[], by simp, fun tail => by simp [litConsume]⟩
  | cons a ps ih =>
    intro s r h
    cases s with
    | nil => simp [litConsumeD] at h
    | cons c cs =>
      simp only [litConsumeD] at h
      by_cases hc : ciEq a c = true
      · rw [if_pos hc] at h
        rcases ih cs r h with ⟨m, hm, htail⟩
        refine ⟨c :: m, by simp [hm], fun tail => ?_⟩
        simp only [List.cons_append, litConsume, hc, if_pos, List.append_eq, htail tail]
      · rw [if_neg hc] at h
        simp at h

lemma litConsumeD_dead : ∀ (p s : List Char), litConsumeD p s = LCRes.dead →
    ∀ tail, litConsume p (s ++ tail) = none := by
  intro p
  induction p with
  | nil => intro s h; simp [litConsumeD] at h
  | cons a ps ih =>
    intro s h tail
    cases s with
    | nil => simp [litConsumeD] at h
    | cons c cs =>
      simp only [litConsumeD] at h
      by_cases hc : ciEq a c = true
      · rw [if_pos hc] at h
        simp only [List.cons_append, litConsume, hc, if_pos, List.append_eq, ih cs h tail]
      · simp only [List.cons_append, litConsume, hc]
        simp [hc]

lemma fuel_ge_four (toks : List RTok) (s : List Char) : 4 ≤ fuelFor toks s := by
  have h1 : 2 ≤ toks.length + 2 := by omega
  have h2 : 2 ≤ s.length + 2 := by omega
  calc 4 = 2 * 2 := rfl
  _ ≤ (toks.length + 2) * (s.length + 2) := Nat.mul_le_mul h1 h2

lemma fuel_mono (ts : List RTok) {s' s : List Char} (h : s'.length ≤ s.length) :
    fuelFor ts s' ≤ fuelFor ts s :=
  Nat.mul_le_mul_left _ (by omega)

lemma fuel_cons_tok (t : RTok) (ts : List RTok) (s : List Char) :
    fuelFor (t :: ts) s = fuelFor ts s + (s.length + 2) := by
  simp only [fuelFor, List.length_cons]
  ring

lemma fuel_cons_chr (ts : List RTok) (c : Char) (s : List Char) :
    fuelFor ts (c :: s) = fuelFor ts s + (ts.length + 2) := by
  simp only [fuelFor, List.length_cons]
  ring

lemma litConsume_len {p s m r : List Char} (h : litConsume p s = some (m, r)) :
    r.length ≤ s.length := by
  have := litConsume_sound p s m r h
  subst this
  simp

lemma matchF_irrel : ∀ n : Nat,
    (∀ f g toks s, f + g ≤ n → fuelFor toks s ≤ f → fuelFor toks s ≤ g →
      matchToksF f toks s = matchToksF g toks s) ∧
    (∀ f g p ts s, f + g ≤ n → fuelFor ts s < f → fuelFor ts s < g →
      matchGreedyF f p ts s = matchGreedyF g p ts s) := by
  intro n
  induction n with
  | zero =>
    constructor
    · intro f g toks s hn hf hg
      have := fuel_ge_four toks s
      omega
    · intro f g p ts s hn hf hg
      have := fuel_ge_four ts s
      omega
  | succ n IH =>
    obtain ⟨IHT, IHG⟩ := IH
    constructor
    · intro f g toks s hn hf hg
      have hB4 := fuel_ge_four toks s
      obtain ⟨f', rfl⟩ : ∃ f', f = f' + 1 := ⟨f - 1, by omega⟩
      obtain ⟨g', rfl⟩ : ∃ g', g = g' + 1 := ⟨g - 1, by omega⟩
      cases toks with
      | nil => rfl
      | cons t ts =>
        have hct := fuel_cons_tok t ts s
        cases t with
        | lit p =>
          simp only [matchToksF]
          cases hlc : litConsume p.data s with
          | none => rfl
          | some pr =>
            obtain ⟨m1, s1⟩ := pr
            have hlen : s1.length ≤ s.length := litConsume_len hlc
            have hm := fuel_mono ts hlen
            have hrw := IHT f' g' ts s1 (by omega) (by omega) (by omega)
            simp only [hrw]
        | ws0 =>
          simp only [matchToksF]
          exact IHG f' g' isWsChar ts s (by omega) (by omega) (by omega)
        | ws1 =>
          simp only [matchToksF]
          cases s with
          | nil => rfl
          | cons c cs =>
            have hm : fuelFor ts cs ≤ fuelFor ts (c :: cs) :=
              fuel_mono ts (by simp)
            have hcc : fuelFor ts (c :: cs) = fuelFor ts cs + (ts.length + 2) :=
              fuel_cons_chr ts c cs
            by_cases hp : isWsChar c
            · simp only [if_pos hp]
              rw [IHG f' g' isWsChar ts cs (by omega) (by omega) (by omega)]
            · simp only [if_neg hp]
        | digits1 =>
          simp only [matchToksF]
          cases s with
          | nil => rfl
          | cons c cs =>
            have hm : fuelFor ts cs ≤ fuelFor ts (c :: cs) :=
              fuel_mono ts (by simp)
            have hcc : fuelFor ts (c :: cs) = fuelFor ts cs + (ts.length + 2) :=
              fuel_cons_chr ts c cs
            by_cases hp : isDigitChar c
            · simp only [if_pos hp]
              rw [IHG f' g' isDigitChar ts cs (by omega) (by omega) (by omega)]
            · simp only [if_neg hp]
        | optNl =>
          simp only [matchToksF]
          cases s with
          | nil =>
            have hm : fuelFor ts [] ≤ fuelFor ts [] := le_rfl
            exact IHT f' g' ts [] (by omega) (by omega) (by omega)
          | cons c cs =>
            have hm : fuelFor ts cs ≤ fuelFor ts (c :: cs) :=
              fuel_mono ts (by simp)
            have hcc : fuelFor ts (c :: cs) = fuelFor ts cs + (ts.length + 2) :=
              fuel_cons_chr ts c cs
            by_cases hp : c == '\n'
            · simp only [if_pos hp]
              rw [IHT f' g' ts cs (by omega) (by omega) (by omega),
                IHT f' g' ts (c :: cs) (by omega) (by omega) (by omega)]
            · simp only [if_neg hp]
              exact IHT f' g' ts (c :: cs) (by omega) (by omega) (by omega)
        | notDot0 =>
          simp only [matchToksF]
          exact IHG f' g' (fun c => c != '.') ts s (by omega) (by omega) (by omega)
        | notNl1 =>
          simp only [matchToksF]
          cases s with
          | nil => rfl
          | cons c cs =>
            have hm : fuelFor ts cs ≤ fuelFor ts (c :: cs) :=
              fuel_mono ts (by simp)
            have hcc : fuelFor ts (c :: cs) = fuelFor ts cs + (ts.length + 2) :=
              fuel_cons_chr ts c cs
            by_cases hp : c != '\n'
            · simp only [if_pos hp]
              rw [IHG f' g' (fun c => c != '\n') ts cs (by omega) (by omega) (by omega)]
            · simp only [if_neg hp]
        | notRbr1 =>
          simp only [matchToksF]
          cases s with
          | nil => rfl
          | cons c cs =>
            have hm : fuelFor ts cs ≤ fuelFor ts (c :: cs) :=
              fuel_mono ts (by simp)
            have hcc : fuelFor ts (c :: cs) = fuelFor ts cs + (ts.length + 2) :=
              fuel_cons_chr ts c cs
            by_cases hp : c != ']'
            · simp only [if_pos hp]
              rw [IHG f' g' (fun c => c != ']') ts cs (by omega) (by omega) (by omega)]
            · simp only [if_neg hp]
        | notWsNl1 =>
          simp only [matchToksF]
          cases s with
          | nil => rfl
          | cons c cs =>
            have hm : fuelFor ts cs ≤ fuelFor ts (c :: cs) :=
              fuel_mono ts (by simp)
            have hcc : fuelFor ts (c :: cs) = fuelFor ts cs + (ts.length + 2) :=
              fuel_cons_chr ts c cs
            by_cases hp : !isWsChar c
            · simp only [if_pos hp]
              rw [IHG f' g' (fun c => !isWsChar c) ts cs (by omega) (by omega) (by omega)]
            · simp only [if_neg hp]
        | nl3 =>
          simp only [matchToksF]
          cases s with
          | nil => rfl
          | cons a s1 =>
            cases s1 with
            | nil => rfl
            | cons b s2 =>
              cases s2 with
              | nil => rfl
              | cons c cs =>
                have hm : fuelFor ts cs ≤ fuelFor ts (a :: b :: c :: cs) :=
                  fuel_mono ts (by simp only [List.length_cons]; omega)
                by_cases hp : (a == '\n' && b == '\n' && c == '\n') = true
                · simp only [if_pos hp]
                  rw [IHG f' g' (fun c => c == '\n') ts cs (by omega) (by omega) (by omega)]
                · simp only [if_neg hp]
    · intro f g p ts s hn hf hg
      have hB4 := fuel_ge_four ts s
      obtain ⟨f', rfl⟩ : ∃ f', f = f' + 1 := ⟨f - 1, by omega⟩
      obtain ⟨g', rfl⟩ : ∃ g', g = g' + 1 := ⟨g - 1, by omega⟩
      simp only [matchGreedyF]
      cases s with
      | nil =>
        exact IHT f' g' ts [] (by omega) (by omega) (by omega)
      | cons c cs =>
        have hcc := fuel_cons_chr ts c cs
        have hm : fuelFor ts cs ≤ fuelFor ts (c :: cs) := fuel_mono ts (by simp)
        by_cases hp : p c
        · simp only [if_pos hp]
          rw [IHG f' g' p ts cs (by omega) (by omega) (by omega),
            IHT f' g' ts (c :: cs) (by omega) (by omega) (by omega)]
        · simp only [if_neg hp]
          exact IHT f' g' ts (c :: cs) (by omega) (by omega) (by omega)

lemma matchToksF_eq (f : Nat) (toks : List RTok) (s : List Char)
    (h : fuelFor toks s ≤ f) : matchToksF f toks s = matchToks toks s :=
  (matchF_irrel (f + fuelFor toks s)).1 f (fuelFor toks s) toks s le_rfl h le_rfl

lemma matchGreedyF_eq (f : Nat) (p : Char → Bool) (ts : List RTok) (s : List Char)
    (h : fuelFor ts s < f) : matchGreedyF f p ts s = matchGr p ts s :=
  (matchF_irrel (f + (fuelFor ts s + 1))).2 f (fuelFor ts s + 1) p ts s
    le_rfl h (Nat.lt_succ_self _)

lemma matchToks_nil (s : List Char) : matchToks [] s = some ([], s) := by
  obtain ⟨k, hk⟩ : ∃ k, fuelFor ([] : List RTok) s = k + 1 :=
    ⟨fuelFor [] s - 1, by have := fuel_ge_four [] s; omega⟩
  show matchToksF (fuelFor [] s) [] s = _
  rw [hk]
  rfl

lemma matchToks_lit (p : String) (ts : List RTok) (s : List Char) :
    matchToks (RTok.lit p :: ts) s =
      match litConsume p.data s with
      | some (m1, s1) =>
        match matchToks ts s1 with
        | some (m2, s2) => some (m1 ++ m2, s2)
        | none => none
      | none => none := by
  obtain ⟨k, hk⟩ : ∃ k, fuelFor (RTok.lit p :: ts) s = k + 1 :=
    ⟨fuelFor (RTok.lit p :: ts) s - 1, by
      have := fuel_ge_four (RTok.lit p :: ts) s; omega⟩
  have hct := fuel_cons_tok (RTok.lit p) ts s
  show matchToksF (fuelFor (RTok.lit p :: ts) s) _ s = _
  rw [hk]
  simp only [matchToksF]
  cases hlc : litConsume p.data s with
  | none => rfl
  | some pr =>
    obtain ⟨m1, s1⟩ := pr
    have hlen := litConsume_len hlc
    have hm := fuel_mono ts hlen
    have hrw := matchToksF_eq k ts s1 (by omega)
    simp only [hrw]

lemma matchToks_ws0 (ts : List RTok) (s : List Char) :
    matchToks (RTok.ws0 :: ts) s = matchGr isWsChar ts s := by
  obtain ⟨k, hk⟩ : ∃ k, fuelFor (RTok.ws0 :: ts) s = k + 1 :=
    ⟨fuelFor (RTok.ws0 :: ts) s - 1, by
      have := fuel_ge_four (RTok.ws0 :: ts) s; omega⟩
  have hct := fuel_cons_tok RTok.ws0 ts s
  show matchToksF (fuelFor (RTok.ws0 :: ts) s) _ s = _
  rw [hk]
  simp only [matchToksF]
  exact matchGreedyF_eq k isWsChar ts s (by omega)

lemma matchToks_clsCons (t : RTok) (q : Char → Bool) (ts : List RTok)
    (c : Char) (cs : List Char)
    (ht : ∀ f s, matchToksF (Nat.succ f) (t :: ts) s =
      (match s with
       | [] => none
       | c :: cs =>
         if q c then
           match matchGreedyF f q ts cs with
           | some (m, r) => some (c :: m, r)
           | none => none
         else none)) :
    matchToks (t :: ts) (c :: cs) =
      if q c then
        match matchGr q ts cs with
        | some (m, r) => some (c :: m, r)
        | none => none
      else none := by
  obtain ⟨k, hk⟩ : ∃ k, fuelFor (t :: ts) (c :: cs) = k + 1 :=
    ⟨fuelFor (t :: ts) (c :: cs) - 1, by
      have := fuel_ge_four (t :: ts) (c :: cs); omega⟩
  have hct := fuel_cons_tok t ts (c :: cs)
  have hcc := fuel_cons_chr ts c cs
  show matchToksF (fuelFor (t :: ts) (c :: cs)) _ _ = _
  rw [hk, ht]
  by_cases hq : q c
  · simp only [if_pos hq]
    rw [matchGreedyF_eq k q ts cs (by simp only [List.length_cons] at hct; omega)]
  · simp only [if_neg hq]

lemma matchToks_clsNil (t : RTok) (q : Char → Bool) (ts : List RTok)
    (ht : ∀ f s, matchToksF (Nat.succ f) (t :: ts) s =
      (match s with
       | [] => none
       | c :: cs =>
         if q c then
           match matchGreedyF f q ts cs with
           | some (m, r) => some (c :: m, r)
           | none => none
         else none)) :
    matchToks (t :: ts) [] = none := by
  obtain ⟨k, hk⟩ : ∃ k, fuelFor (t :: ts) [] = k + 1 :=
    ⟨fuelFor (t :: ts) [] - 1, by have := fuel_ge_four (t :: ts) []; omega⟩
  show matchToksF (fuelFor (t :: ts) []) _ _ = _
  rw [hk, ht]

lemma matchToks_ws1_cons (ts : List RTok) (c : Char) (cs : List Char) :
    matchToks (RTok.ws1 :: ts) (c :: cs) =
      if isWsChar c then
        match matchGr isWsChar ts cs with
        | some (m, r) => some (c :: m, r)
        | none => none
      else none :=
  matchToks_clsCons RTok.ws1 isWsChar ts c cs (fun f s => by cases s <;> rfl)

lemma matchToks_ws1_nil (ts : List RTok) : matchToks (RTok.ws1 :: ts) [] = none :=
  matchToks_clsNil RTok.ws1 isWsChar ts (fun f s => by cases s <;> rfl)

lemma matchToks_digits1_cons (ts : List RTok) (c : Char) (cs : List Char) :
    matchToks (RTok.digits1 :: ts) (c :: cs) =
      if isDigitChar c then
        match matchGr isDigitChar ts cs with
        | some (m, r) => some (c :: m, r)
        | none => none
      else none :=
  matchToks_clsCons RTok.digits1 isDigitChar ts c cs (fun f s => by cases s <;> rfl)

lemma matchToks_digits1_nil (ts : List RTok) :
    matchToks (RTok.digits1 :: ts) [] = none :=
  matchToks_clsNil RTok.digits1 isDigitChar ts (fun f s => by cases s <;> rfl)

lemma matchToks_notNl1_cons (ts : List RTok) (c : Char) (cs : List Char) :
    matchToks (RTok.notNl1 :: ts) (c :: cs) =
      if c != '\n' then
        match matchGr (fun c => c != '\n') ts cs with
        | some (m, r) => some (c :: m, r)
        | none => none
      else none :=
  matchToks_clsCons RTok.notNl1 (fun c => c != '\n') ts c cs (fun f s => by cases s <;> rfl)

lemma matchToks_notRbr1_cons (ts : List RTok) (c : Char) (cs : List Char) :
    matchToks (RTok.notRbr1 :: ts) (c :: cs) =
      if c != ']' then
        match matchGr (fun c => c != ']') ts cs with
        | some (m, r) => some (c :: m, r)
        | none => none
      else none :=
  matchToks_clsCons RTok.notRbr1 (fun c => c != ']') ts c cs (fun f s => by cases s <;> rfl)

lemma matchToks_notWsNl1_cons (ts : List RTok) (c : Char) (cs : List Char) :
    matchToks (RTok.notWsNl1 :: ts) (c :: cs) =
      if !isWsChar c then
        match matchGr (fun c => !isWsChar c) ts cs with
        | some (m, r) => some (c :: m, r)
        | none => none
      else none :=
  matchToks_clsCons RTok.notWsNl1 (fun c => !isWsChar c) ts c cs (fun f s => by cases s <;> rfl)

lemma matchToks_notDot0 (ts : List RTok) (s : List Char) :
    matchToks (RTok.notDot0 :: ts) s = matchGr (fun c => c != '.') ts s := by
  obtain ⟨k, hk⟩ : ∃ k, fuelFor (RTok.notDot0 :: ts) s = k + 1 :=
    ⟨fuelFor (RTok.notDot0 :: ts) s - 1, by
      have := fuel_ge_four (RTok.notDot0 :: ts) s; omega⟩
  have hct := fuel_cons_tok RTok.notDot0 ts s
  show matchToksF (fuelFor (RTok.notDot0 :: ts) s) _ s = _
  rw [hk]
  simp only [matchToksF]
  exact matchGreedyF_eq k (fun c => c != '.') ts s (by omega)

lemma matchToks_optNl_nil (ts : List RTok) :
    matchToks (RTok.optNl :: ts) [] = matchToks ts [] := by
  obtain ⟨k, hk⟩ : ∃ k, fuelFor (RTok.optNl :: ts) [] = k + 1 :=
    ⟨fuelFor (RTok.optNl :: ts) [] - 1, by
      have := fuel_ge_four (RTok.optNl :: ts) []; omega⟩
  have hct := fuel_cons_tok RTok.optNl ts []
  show matchToksF (fuelFor (RTok.optNl :: ts) []) _ _ = _
  rw [hk]
  simp only [matchToksF]
  exact matchToksF_eq k ts [] (by omega)

lemma matchToks_optNl_cons (ts : List RTok) (c : Char) (cs : List Char) :
    matchToks (RTok.optNl :: ts) (c :: cs) =
      if c == '\n' then
        match matchToks ts cs with
        | some (m, r) => some (c :: m, r)
        | none => matchToks ts (c :: cs)
      else matchToks ts (c :: cs) := by
  obtain ⟨k, hk⟩ : ∃ k, fuelFor (RTok.optNl :: ts) (c :: cs) = k + 1 :=
    ⟨fuelFor (RTok.optNl :: ts) (c :: cs) - 1, by
      have := fuel_ge_four (RTok.optNl :: ts) (c :: cs); omega⟩
  have hct := fuel_cons_tok RTok.optNl ts (c :: cs)
  have hcc := fuel_cons_chr ts c cs
  show matchToksF (fuelFor (RTok.optNl :: ts) (c :: cs)) _ _ = _
  rw [hk]
  simp only [matchToksF]
  simp only [List.length_cons] at hct
  by_cases hq : c == '\n'
  · simp only [if_pos hq]
    rw [matchToksF_eq k ts cs (by omega), matchToksF_eq k ts (c :: cs) (by omega)]
  · simp only [if_neg hq]
    exact matchToksF_eq k ts (c :: cs) (by omega)

lemma matchToks_nl3_cons3 (ts : List RTok) (a b c : Char) (cs : List Char) :
    matchToks (RTok.nl3 :: ts) (a :: b :: c :: cs) =
      if a == '\n' && b == '\n' && c == '\n' then
        match matchGr (fun c => c == '\n') ts cs with
        | some (m, r) => some (a :: b :: c :: m, r)
        | none => none
      else none := by
  obtain ⟨k, hk⟩ : ∃ k, fuelFor (RTok.nl3 :: ts) (a :: b :: c :: cs) = k + 1 :=
    ⟨fuelFor (RTok.nl3 :: ts) (a :: b :: c :: cs) - 1, by
      have := fuel_ge_four (RTok.nl3 :: ts) (a :: b :: c :: cs); omega⟩
  have hct := fuel_cons_tok RTok.nl3 ts (a :: b :: c :: cs)
  have hm : fuelFor ts cs ≤ fuelFor ts (a :: b :: c :: cs) :=
    fuel_mono ts (by simp only [List.length_cons]; omega)
  show matchToksF (fuelFor (RTok.nl3 :: ts) (a :: b :: c :: cs)) _ _ = _
  rw [hk]
  simp only [matchToksF]
  by_cases hq : (a == '\n' && b == '\n' && c == '\n') = true
  · simp only [if_pos hq]
    rw [matchGreedyF_eq k (fun c => c == '\n') ts cs (by omega)]
  · simp only [if_neg hq]

lemma matchToks_nl3_short (ts : List RTok) (s : List Char) (h : s.length < 3) :
    matchToks (RTok.nl3 :: ts) s = none := by
  obtain ⟨k, hk⟩ : ∃ k, fuelFor (RTok.nl3 :: ts) s = k + 1 :=
    ⟨fuelFor (RTok.nl3 :: ts) s - 1, by
      have := fuel_ge_four (RTok.nl3 :: ts) s; omega⟩
  show matchToksF (fuelFor (RTok.nl3 :: ts) s) _ _ = _
  rw [hk]
  match s, h with
  | [], _ => rfl
  | [a], _ => rfl
  | [a, b], _ => rfl

lemma matchGr_nil (p : Char → Bool) (ts : List RTok) :
    matchGr p ts [] = matchToks ts [] := by
  show matchGreedyF ((ts.length + 2) * (0 + 2) + 1) p ts [] = _
  conv_lhs => rw [matchGreedyF]
  exact matchToksF_eq _ ts [] (by simp [fuelFor])

lemma matchGr_cons (p : Char → Bool) (ts : List RTok) (c : Char) (cs : List Char) :
    matchGr p ts (c :: cs) =
      if p c then
        match matchGr p ts cs with
        | some (m, r) => some (c :: m, r)
        | none => matchToks ts (c :: cs)
      else matchToks ts (c :: cs) := by
  have hcc := fuel_cons_chr ts c cs
  show matchGreedyF (fuelFor ts (c :: cs) + 1) p ts (c :: cs) = _
  conv_lhs => rw [matchGreedyF]
  by_cases hq : p c
  · simp only [if_pos hq]
    rw [matchGreedyF_eq (fuelFor ts (c :: cs)) p ts cs (by omega),
      matchToksF_eq (fuelFor ts (c :: cs)) ts (c :: cs) le_rfl]
  · simp only [if_neg hq]
    exact matchToksF_eq (fuelFor ts (c :: cs)) ts (c :: cs) le_rfl

lemma isDigit_toNat {c : Char} (h : isDigitChar c = true) :
    48 ≤ c.toNat ∧ c.toNat ≤ 57 := by
  simp only [isDigitChar, Bool.and_eq_true, decide_eq_true_eq] at h
  obtain ⟨h1, h2⟩ := h
  rw [Char.le_def] at h1 h2
  exact ⟨h1, h2⟩

lemma digit_toLower {c : Char} (h : isDigitChar c = true) : c.toLower = c := by
  have hn := isDigit_toNat h
  simp only [Char.toLower]
  rw [if_neg (by omega)]

lemma digit_toUpper {c : Char} (h : isDigitChar c = true) : c.toUpper = c := by
  have hn := isDigit_toNat h
  simp only [Char.toUpper]
  rw [if_neg (by omega)]

lemma digit_not_ws {c : Char} (h : isDigitChar c = true) : isWsChar c = false := by
  cases hws : isWsChar c with
  | false => rfl
  | true =>
    exfalso
    simp only [isWsChar, Bool.or_eq_true, beq_iff_eq] at hws
    rcases hws with ((he | he) | he) | he <;>
      · rw [he] at h
        exact absurd h (by decide)

lemma digit_ne_nl {c : Char} (h : isDigitChar c = true) : (c == '\n') = false := by
  cases hnl : c == '\n' with
  | false => rfl
  | true =>
    exfalso
    rw [beq_iff_eq] at hnl
    rw [hnl] at h
    exact absurd h (by decide)

lemma defF_sound : ∀ fc : Nat,
    (∀ toks s, defFailsF fc toks s = true →
      ∀ g tail, matchToksF g toks (s ++ tail) = none) ∧
    (∀ p ts s, defGreedyF fc p ts s = true →
      ∀ g tail, matchGreedyF g p ts (s ++ tail) = none) := by
  intro fc
  induction fc with
  | zero =>
    constructor
    · intro toks s h
      simp [defFailsF] at h
    · intro p ts s h
      simp [defGreedyF] at h
  | succ fc IH =>
    obtain ⟨IHT, IHG⟩ := IH
    constructor
    · intro toks s h g tail
      cases g with
      | zero => rfl
      | succ g' =>
        cases toks with
        | nil => simp [defFailsF] at h
        | cons t ts =>
          cases t with
          | lit p =>
            simp only [defFailsF] at h
            simp only [matchToksF]
            cases hd : litConsumeD p.data s with
            | ok s1 =>
              rw [hd] at h
              obtain ⟨m, hm, htail⟩ := litConsumeD_ok p.data s s1 hd
              simp only [htail tail, IHT ts s1 h g' tail]
            | dead =>
              simp only [litConsumeD_dead p.data s hd tail]
            | unknown => rw [hd] at h; exact absurd h (by simp)
          | ws0 =>
            simp only [defFailsF] at h
            simp only [matchToksF]
            exact IHG isWsChar ts s h g' tail
          | ws1 =>
            cases s with
            | nil => simp [defFailsF] at h
            | cons c cs =>
              simp only [defFailsF] at h
              simp only [List.cons_append, matchToksF]
              by_cases hc : isWsChar c
              · rw [if_pos hc] at h
                simp only [if_pos hc, IHG isWsChar ts cs h g' tail]
              · simp only [if_neg hc]
          | digits1 =>
            cases s with
            | nil => simp [defFailsF] at h
            | cons c cs =>
              simp only [defFailsF] at h
              simp only [List.cons_append, matchToksF]
              by_cases hc : isDigitChar c
              · rw [if_pos hc] at h
                simp only [if_pos hc, IHG isDigitChar ts cs h g' tail]
              · simp only [if_neg hc]
          | optNl =>
            cases s with
            | nil => simp [defFailsF] at h
            | cons c cs =>
              simp only [defFailsF] at h
              simp only [List.cons_append, matchToksF]
              by_cases hc : c == '\n'
              · rw [if_pos hc, Bool.and_eq_true] at h
                obtain ⟨h1, h2⟩ := h
                have e2 := IHT ts (c :: cs) h2 g' tail
                rw [List.cons_append] at e2
                simp only [if_pos hc, IHT ts cs h1 g' tail, e2]
              · rw [if_neg hc] at h
                have e2 := IHT ts (c :: cs) h g' tail
                rw [List.cons_append] at e2
                simp only [if_neg hc, e2]
          | notDot0 =>
            simp only [defFailsF] at h
            simp only [matchToksF]
            exact IHG (fun c => c != '.') ts s h g' tail
          | notNl1 =>
            cases s with
            | nil => simp [defFailsF] at h
            | cons c cs =>
              simp only [defFailsF] at h
              simp only [List.cons_append, matchToksF]
              by_cases hc : c != '\n'
              · rw [if_pos hc] at h
                simp only [if_pos hc, IHG (fun c => c != '\n') ts cs h g' tail]
              · simp only [if_neg hc]
          | notRbr1 =>
            cases s with
            | nil => simp [defFailsF] at h
            | cons c cs =>
              simp only [defFailsF] at h
              simp only [List.cons_append, matchToksF]
              by_cases hc : c != ']'
              · rw [if_pos hc] at h
                simp only [if_pos hc, IHG (fun c => c != ']') ts cs h g' tail]
              · simp only [if_neg hc]
          | notWsNl1 =>
            cases s with
            | nil => simp [defFailsF] at h
            | cons c cs =>
              simp only [defFailsF] at h
              simp only [List.cons_append, matchToksF]
              by_cases hc : !isWsChar c
              · rw [if_pos hc] at h
                simp only [if_pos hc, IHG (fun c => !isWsChar c) ts cs h g' tail]
              · simp only [if_neg hc]
          | nl3 =>
            cases s with
            | nil => simp [defFailsF] at h
            | cons a s1 =>
              cases s1 with
              | nil =>
                simp only [defFailsF] at h
                by_cases ha : (a == '\n') = true
                · rw [if_pos ha] at h
                  exact absurd h (by simp)
                · have ha' : (a == '\n') = false := by simpa using ha
                  rw [if_neg ha] at h
                  cases tail with
                  | nil => rfl
                  | cons b t2 =>
                    cases t2 with
                    | nil => rfl
                    | cons c t3 =>
                      show matchToksF (Nat.succ g') (RTok.nl3 :: ts)
                        (a :: b :: c :: t3) = none
                      simp only [matchToksF, ha', Bool.false_and,
                        Bool.false_eq_true, if_false]
              | cons b s2 =>
                cases s2 with
                | nil =>
                  simp only [defFailsF] at h
                  by_cases ha : (a == '\n') = true
                  · rw [if_pos ha] at h
                    exact absurd h (by simp)
                  · have ha' : (a == '\n') = false := by simpa using ha
                    rw [if_neg ha] at h
                    cases tail with
                    | nil => rfl
                    | cons c t3 =>
                      show matchToksF (Nat.succ g') (RTok.nl3 :: ts)
                        (a :: b :: c :: t3) = none
                      simp only [matchToksF, ha', Bool.false_and,
                        Bool.false_eq_true, if_false]
                | cons c cs =>
                  simp only [defFailsF] at h
                  simp only [List.cons_append, matchToksF]
                  by_cases hc : (a == '\n' && b == '\n' && c == '\n') = true
                  · rw [if_pos hc] at h
                    simp only [if_pos hc,
                      IHG (fun c => c == '\n') ts cs h g' tail]
                  · simp only [if_neg hc]
    · intro p ts s h g tail
      cases g with
      | zero => rfl
      | succ g' =>
        cases s with
        | nil => simp [defGreedyF] at h
        | cons c cs =>
          simp only [defGreedyF] at h
          simp only [List.cons_append, matchGreedyF]
          by_cases hc : p c
          · rw [if_pos hc, Bool.and_eq_true] at h
            obtain ⟨h1, h2⟩ := h
            have e2 := IHT ts (c :: cs) h2 g' tail
            rw [List.cons_append] at e2
            simp only [if_pos hc, IHG p ts cs h1 g' tail, e2]
          · rw [if_neg hc] at h
            have e2 := IHT ts (c :: cs) h g' tail
            rw [List.cons_append] at e2
            simp only [if_neg hc, e2]

/-- A `true` definite-failure check is sound for every extension and any
matcher fuel. -/
lemma defFails_sound {toks : List RTok} {s : List Char}
    (h : defFails toks s = true) (tail : List Char) :
    matchToks toks (s ++ tail) = none :=
  (defF_sound _).1 toks s h _ tail

lemma rejectsDigits_sound : ∀ toks, rejectsDigits toks = true →
    ∀ (c : Char), isDigitChar c = true → ∀ s g,
      matchToksF g toks (c :: s) = none := by
  intro toks
  induction toks with
  | nil => intro h; simp [rejectsDigits] at h
  | cons t ts IH =>
    intro h c hd s g
    cases g with
    | zero => rfl
    | succ g' =>
      cases t with
      | lit p =>
        simp only [rejectsDigits] at h
        simp only [matchToksF]
        cases hp : p.data with
        | nil =>
          rw [hp] at h
          simp only [List.isEmpty_nil, Bool.true_and, Bool.or_eq_true] at h
          rcases h with h | h
          · exact absurd h (by simp)
          · simp only [litConsume, IH h c hd s g']
        | cons h1 ps =>
          rw [hp] at h
          simp only [List.isEmpty_cons, Bool.false_and, Bool.or_false] at h
          have hne : ciEq h1 c = false := by
            simp only [ciEq]
            rw [beq_eq_false_iff_ne]
            intro he
            rw [digit_toLower hd] at he
            rw [Bool.not_eq_true'] at h
            have : isDigitChar h1.toLower = true := by rw [he]; exact hd
            rw [h] at this
            exact absurd this (by simp)
          simp only [litConsume, hne, Bool.false_eq_true, if_false]
      | ws0 =>
        simp only [rejectsDigits] at h
        simp only [matchToksF]
        cases g' with
        | zero => rfl
        | succ g'' =>
          simp only [matchGreedyF, digit_not_ws hd, Bool.false_eq_true, if_false]
          exact IH h c hd s g''
      | ws1 =>
        simp only [matchToksF, digit_not_ws hd, Bool.false_eq_true, if_false]
      | digits1 => simp [rejectsDigits] at h
      | optNl =>
        simp only [rejectsDigits] at h
        simp only [matchToksF, digit_ne_nl hd, Bool.false_eq_true, if_false]
        exact IH h c hd s g'
      | notDot0 => simp [rejectsDigits] at h
      | notNl1 => simp [rejectsDigits] at h
      | notRbr1 => simp [rejectsDigits] at h
      | notWsNl1 => simp [rejectsDigits] at h
      | nl3 =>
        simp only [matchToksF]
        cases s with
        | nil => rfl
        | cons b s2 =>
          cases s2 with
          | nil => rfl
          | cons d s3 =>
            simp only [digit_ne_nl hd, Bool.false_and, Bool.false_eq_true, if_false]

lemma scanFrom_cons (toks : List RTok) (c : Char) (cs : List Char) :
    scanFrom toks (c :: cs) =
      match matchToks toks (c :: cs) with
      | some (m, rest) => some ([], m, rest)
      | none =>
        match scanFrom toks cs with
        | some (pre, m, rest) => some (c :: pre, m, rest)
        | none => none := rfl

lemma scan_skip_conc {toks : List RTok} :
    ∀ (A : List Char), allPosFail toks A = true → ∀ rest,
      scanFrom toks (A ++ rest) =
        (scanFrom toks rest).map (fun x => (A ++ x.1, x.2.1, x.2.2)) := by
  intro A
  induction A with
  | nil =>
    intro _ rest
    cases hs : scanFrom toks rest with
    | none => simp [hs]
    | some x => obtain ⟨pre, m, r⟩ := x; simp [hs]
  | cons c A' IH =>
    intro h rest
    simp only [allPosFail, Bool.and_eq_true] at h
    obtain ⟨h1, h2⟩ := h
    have hnone : matchToks toks ((c :: A') ++ rest) = none := defFails_sound h1 rest
    rw [List.cons_append] at hnone
    rw [List.cons_append, scanFrom_cons, hnone, IH h2 rest]
    cases hs : scanFrom toks rest with
    | none => simp
    | some x => obtain ⟨pre, m, r⟩ := x; simp

lemma scan_skip_digits {toks : List RTok} (ht : rejectsDigits toks = true) :
    ∀ (d : List Char), d.all isDigitChar = true → ∀ rest,
      scanFrom toks (d ++ rest) =
        (scanFrom toks rest).map (fun x => (d ++ x.1, x.2.1, x.2.2)) := by
  intro d
  induction d with
  | nil =>
    intro _ rest
    cases hs : scanFrom toks rest with
    | none => simp [hs]
    | some x => obtain ⟨pre, m, r⟩ := x; simp [hs]
  | cons c d' IH =>
    intro h rest
    simp only [List.all_cons, Bool.and_eq_true] at h
    obtain ⟨h1, h2⟩ := h
    have hnone : matchToks toks (c :: (d' ++ rest)) = none :=
      rejectsDigits_sound toks ht c h1 _ _
    rw [List.cons_append, scanFrom_cons, hnone, IH h2 rest]
    cases hs : scanFrom toks rest with
    | none => simp
    | some x => obtain ⟨pre, m, r⟩ := x; simp

lemma scan_isSome_suffix {toks : List RTok} :
    ∀ (pre : List Char) {c : Char} {cs : List Char},
      (matchToks toks (c :: cs)).isSome = true →
      (scanFrom toks (pre ++ c :: cs)).isSome = true := by
  intro pre
  induction pre with
  | nil =>
    intro c cs h
    rw [List.nil_append, scanFrom_cons]
    cases hm : matchToks toks (c :: cs) with
    | none => rw [hm] at h; exact absurd h (by simp)
    | some x => simp
  | cons a pre' IH =>
    intro c cs h
    rw [List.cons_append, scanFrom_cons]
    cases hm : matchToks toks (a :: (pre' ++ c :: cs)) with
    | some x => simp
    | none =>
      have := IH h
      cases hs : scanFrom toks (pre' ++ c :: cs) with
      | none => rw [hs] at this; exact absurd this (by simp)
      | some x => obtain ⟨p, m, r⟩ := x; simp

lemma replaceAllAux_none {toks : List RTok} {repl : List Char} {s : List Char}
    (h : scanFrom toks s = none) (f : Nat) : replaceAllAux toks repl f s = s := by
  cases f with
  | zero => rfl
  | succ f' =>
    show (match scanFrom toks s with
      | none => s
      | some (pre, _, rest) => pre ++ repl ++ replaceAllAux toks repl f' rest) = s
    rw [h]

lemma data_mk (l : List Char) : (String.mk l).data = l := rfl

lemma mk_data (s : String) : String.mk s.data = s := rfl

lemma replaceAll_none {toks : List RTok} {repl s : String}
    (h : scanFrom toks s.data = none) : replaceAll toks repl s = s := by
  show String.mk (replaceAllAux toks repl.data (s.length + 1) s.data) = s
  rw [replaceAllAux_none h, mk_data]

lemma replaceAll_one {toks : List RTok} {repl s : String}
    {pre m rest : List Char}
    (h : scanFrom toks s.data = some (pre, m, rest))
    (h2 : scanFrom toks rest = none) :
    replaceAll toks repl s = String.mk (pre ++ repl.data ++ rest) := by
  show String.mk (replaceAllAux toks repl.data (s.length + 1) s.data) = _
  have : replaceAllAux toks repl.data (s.length + 1) s.data
      = pre ++ repl.data ++ replaceAllAux toks repl.data s.length rest := by
    show (match scanFrom toks s.data with
      | none => s.data
      | some (pre, _, rest) =>
        pre ++ repl.data ++ replaceAllAux toks repl.data s.length rest) = _
    rw [h]
  rw [this, replaceAllAux_none h2]

lemma replaceFirst_none {toks : List RTok} {repl s : String}
    (h : scanFrom toks s.data = none) : replaceFirst toks repl s = s := by
  show (match scanFrom toks s.data with
    | none => s
    | some (pre, _, rest) => String.mk (pre ++ repl.data ++ rest)) = s
  rw [h]

lemma replaceFirstKeep_some {toks : List RTok} {suffix s : String}
    {pre m rest : List Char}
    (h : scanFrom toks s.data = some (pre, m, rest)) :
    replaceFirstKeep toks suffix s = String.mk (pre ++ m ++ suffix.data ++ rest) := by
  show (match scanFrom toks s.data with
    | none => s
    | some (pre, m, rest) => String.mk (pre ++ m ++ suffix.data ++ rest)) = _
  rw [h]

lemma testToks_false {toks : List RTok} {s : String}
    (h : scanFrom toks s.data = none) : testToks toks s = false := by
  show (scanFrom toks s.data).isSome = false
  rw [h]
  rfl

lemma litConsume_self {p : List Char} (hp : litConsumeD p p = LCRes.ok [])
    (tail : List Char) : litConsume p (p ++ tail) = some (p, tail) := by
  obtain ⟨m, hm, htail⟩ := litConsumeD_ok p p [] hp
  have hmp : m = p := by
    have := hm.symm
    simpa using this
  subst hmp
  simpa using htail tail

lemma matchToks_lit_self (P : String) (ts : List RTok) (rest : List Char)
    (hp : litConsumeD P.data P.data = LCRes.ok []) :
    matchToks (RTok.lit P :: ts) (P.data ++ rest) =
      match matchToks ts rest with
      | some (m2, s2) => some (P.data ++ m2, s2)
      | none => none := by
  rw [matchToks_lit, litConsume_self hp rest]

lemma matchGr_stop {p : Char → Bool} {c : Char} (ts : List RTok) (cs : List Char)
    (hp : p c = false) : matchGr p ts (c :: cs) = matchToks ts (c :: cs) := by
  rw [matchGr_cons, if_neg (by simp [hp])]

lemma matchGr_run {p : Char → Bool} {ts : List RTok} :
    ∀ {R : List Char}, R.all p = true → ∀ {s m r : List Char},
      (∀ c cs', s = c :: cs' → p c = false) →
      matchToks ts s = some (m, r) →
      matchGr p ts (R ++ s) = some (R ++ m, r) := by
  intro R
  induction R with
  | nil =>
    intro _ s m r hs hm
    cases s with
    | nil => rw [List.nil_append, matchGr_nil, hm]; simp
    | cons c cs =>
      rw [List.nil_append, matchGr_stop ts cs (hs c cs rfl), hm]
      simp
  | cons a R' IH =>
    intro hall s m r hs hm
    simp only [List.all_cons, Bool.and_eq_true] at hall
    obtain ⟨ha, hall'⟩ := hall
    rw [List.cons_append, matchGr_cons, if_pos ha, IH hall' hs hm]
    simp

lemma matchGr_digits {ts : List RTok} (hts : ts = [] ∨ rejectsDigits ts = true)
    {c : Char} (hc : isDigitChar c = false) :
    ∀ {d : List Char}, d.all isDigitChar = true → ∀ {cs : List Char},
      matchGr isDigitChar ts (d ++ c :: cs) =
        match matchToks ts (c :: cs) with
        | some (m, r) => some (d ++ m, r)
        | none => none := by
  intro d
  induction d with
  | nil =>
    intro _ cs
    rw [List.nil_append, matchGr_stop ts cs hc]
    cases hm : matchToks ts (c :: cs) with
    | none => rfl
    | some x => obtain ⟨m, r⟩ := x; simp
  | cons a d' IH =>
    intro hall cs
    simp only [List.all_cons, Bool.and_eq_true] at hall
    obtain ⟨ha, hall'⟩ := hall
    rw [List.cons_append, matchGr_cons, if_pos ha, IH hall']
    cases hm : matchToks ts (c :: cs) with
    | some x => obtain ⟨m, r⟩ := x; simp
    | none =>
      rcases hts with rfl | hts
      · rw [matchToks_nil] at hm
        exact absurd hm (by simp)
      · exact rejectsDigits_sound ts hts a ha _ _

lemma litS (P : String) {ts : List RTok} {rest m r : List Char}
    (hp : litConsumeD P.data P.data = LCRes.ok [])
    (h : matchToks ts rest = some (m, r)) :
    matchToks (RTok.lit P :: ts) (P.data ++ rest) = some (P.data ++ m, r) := by
  rw [matchToks_lit_self P ts rest hp, h]

lemma ws1S {ts : List RTok} (w : Char) {c : Char} {cs m r : List Char}
    (hw : isWsChar w = true) (hc : isWsChar c = false)
    (h : matchToks ts (c :: cs) = some (m, r)) :
    matchToks (RTok.ws1 :: ts) (w :: c :: cs) = some (w :: m, r) := by
  rw [matchToks_ws1_cons, if_pos hw, matchGr_stop ts cs hc, h]

lemma ws0skipS {ts : List RTok} {c : Char} {cs m r : List Char}
    (hc : isWsChar c = false)
    (h : matchToks ts (c :: cs) = some (m, r)) :
    matchToks (RTok.ws0 :: ts) (c :: cs) = some (m, r) := by
  rw [matchToks_ws0, matchGr_stop ts cs hc, h]

lemma ws0oneS {ts : List RTok} (w : Char) {c : Char} {cs m r : List Char}
    (hw : isWsChar w = true) (hc : isWsChar c = false)
    (h : matchToks ts (c :: cs) = some (m, r)) :
    matchToks (RTok.ws0 :: ts) (w :: c :: cs) = some (w :: m, r) := by
  rw [matchToks_ws0, matchGr_cons, if_pos hw, matchGr_stop ts cs hc, h]

lemma optNlSkipS {ts : List RTok} {c : Char} {cs m r : List Char}
    (hc : (c == '\n') = false)
    (h : matchToks ts (c :: cs) = some (m, r)) :
    matchToks (RTok.optNl :: ts) (c :: cs) = some (m, r) := by
  rw [matchToks_optNl_cons, if_neg (by simp [hc]), h]

lemma digS {ts : List RTok} (d : List Char)
    (hts : ts = [] ∨ rejectsDigits ts = true)
    {c : Char} (hc : isDigitChar c = false)
    (hd : d.all isDigitChar = true) (hne : d ≠ []) {cs m r : List Char}
    (h : matchToks ts (c :: cs) = some (m, r)) :
    matchToks (RTok.digits1 :: ts) (d ++ c :: cs) = some (d ++ m, r) := by
  cases d with
  | nil => exact absurd rfl hne
  | cons a d' =>
    simp only [List.all_cons, Bool.and_eq_true] at hd
    obtain ⟨ha, hd'⟩ := hd
    rw [List.cons_append, matchToks_digits1_cons, if_pos ha,
      matchGr_digits hts hc hd', h]
    simp

lemma notDot0S {ts : List RTok} (R : List Char)
    (hR : R.all (fun c => c != '.') = true) {cs m r : List Char}
    (h : matchToks ts ('.' :: cs) = some (m, r)) :
    matchToks (RTok.notDot0 :: ts) (R ++ '.' :: cs) = some (R ++ m, r) := by
  rw [matchToks_notDot0]
  refine matchGr_run hR ?_ h
  intro c cs' he
  injection he with h1 _
  rw [← h1]
  decide

lemma notRbr1S {ts : List RTok} (a : Char) (R : List Char)
    (ha : (a != ']') = true) (hR : R.all (fun c => c != ']') = true)
    {cs m r : List Char}
    (h : matchToks ts (']' :: cs) = some (m, r)) :
    matchToks (RTok.notRbr1 :: ts) (a :: R ++ ']' :: cs) = some (a :: R ++ m, r) := by
  rw [List.cons_append, matchToks_notRbr1_cons, if_pos ha]
  have hrun : matchGr (fun c => c != ']') ts (R ++ ']' :: cs) = some (R ++ m, r) := by
    refine matchGr_run hR ?_ h
    intro c cs' he
    injection he with h1 _
    rw [← h1]
    decide
  rw [hrun]
  simp

lemma notWsNl1S {ts : List RTok} (a : Char) (R : List Char) {w : Char}
    (ha : (!isWsChar a) = true) (hR : R.all (fun c => !isWsChar c) = true)
    (hw : isWsChar w = true) {cs m r : List Char}
    (h : matchToks ts (w :: cs) = some (m, r)) :
    matchToks (RTok.notWsNl1 :: ts) (a :: R ++ w :: cs) = some (a :: R ++ m, r) := by
  rw [List.cons_append, matchToks_notWsNl1_cons, if_pos ha]
  have hrun : matchGr (fun c => !isWsChar c) ts (R ++ w :: cs) = some (R ++ m, r) := by
    refine matchGr_run hR ?_ h
    intro c cs' he
    injection he with h1 _
    rw [← h1, hw]
    rfl
  rw [hrun]
  simp

lemma notNl1S {ts : List RTok} (a : Char) (R : List Char)
    (ha : (a != '\n') = true) (hR : R.all (fun c => c != '\n') = true)
    {cs m r : List Char}
    (h : matchToks ts ('\n' :: cs) = some (m, r)) :
    matchToks (RTok.notNl1 :: ts) (a :: R ++ '\n' :: cs) = some (a :: R ++ m, r) := by
  rw [List.cons_append, matchToks_notNl1_cons, if_pos ha]
  have hrun : matchGr (fun c => c != '\n') ts (R ++ '\n' :: cs) = some (R ++ m, r) := by
    refine matchGr_run hR ?_ h
    intro c cs' he
    injection he with h1 _
    rw [← h1]
    decide
  rw [hrun]
  simp

lemma scan_hit {toks : List RTok} (A : List Char) {c : Char} {cs m rest : List Char}
    (hA : allPosFail toks A = true)
    (h : matchToks toks (c :: cs) = some (m, rest)) :
    scanFrom toks (A ++ c :: cs) = some (A, m, rest) := by
  rw [scan_skip_conc A hA, scanFrom_cons, h]
  simp

lemma digitChar_isDigit {n : Nat} (h : n < 10) :
    isDigitChar (Nat.digitChar n) = true := by
  interval_cases n <;> decide

lemma toDigitsCore_all : ∀ (f n : Nat) (acc : List Char),
    acc.all isDigitChar = true →
    (Nat.toDigitsCore 10 f n acc).all isDigitChar = true := by
  intro f
  induction f with
  | zero => intro n acc h; exact h
  | succ f IH =>
    intro n acc h
    show (if n / 10 = 0 then Nat.digitChar (n % 10) :: acc
      else Nat.toDigitsCore 10 f (n / 10) (Nat.digitChar (n % 10) :: acc)).all
        isDigitChar = true
    have hd : isDigitChar (Nat.digitChar (n % 10)) = true :=
      digitChar_isDigit (Nat.mod_lt n (by omega))
    by_cases h0 : n / 10 = 0
    · rw [if_pos h0]
      simp [hd, h]
    · rw [if_neg h0]
      exact IH (n / 10) _ (by simp [hd, h])

lemma toDigitsCore_len : ∀ (f n : Nat) (acc : List Char),
    acc.length ≤ (Nat.toDigitsCore 10 f n acc).length := by
  intro f
  induction f with
  | zero => intro n acc; exact le_rfl
  | succ f IH =>
    intro n acc
    show acc.length ≤ (if n / 10 = 0 then Nat.digitChar (n % 10) :: acc
      else Nat.toDigitsCore 10 f (n / 10) (Nat.digitChar (n % 10) :: acc)).length
    by_cases h0 : n / 10 = 0
    · rw [if_pos h0]
      simp
    · rw [if_neg h0]
      have := IH (n / 10) (Nat.digitChar (n % 10) :: acc)
      simp only [List.length_cons] at this
      omega

lemma natToString_data (n : Nat) : (toString n).data = Nat.toDigits 10 n := rfl

lemma natToString_all (n : Nat) : (toString n).data.all isDigitChar = true := by
  rw [natToString_data]
  exact toDigitsCore_all (n + 1) n [] rfl

lemma natToString_ne (n : Nat) : (toString n).data ≠ [] := by
  rw [natToString_data]
  show Nat.toDigitsCore 10 (n + 1) n [] ≠ []
  show (if n / 10 = 0 then Nat.digitChar (n % 10) :: []
    else Nat.toDigitsCore 10 n (n / 10) (Nat.digitChar (n % 10) :: [])) ≠ []
  by_cases h0 : n / 10 = 0
  · rw [if_pos h0]
    simp
  · rw [if_neg h0]
    have := toDigitsCore_len n (n / 10) (Nat.digitChar (n % 10) :: [])
    intro he
    rw [he] at this
    simp at this

lemma trace_OM (d1 d2 tail : List Char)
    (hd1 : d1.all isDigitChar = true) (hne1 : d1 ≠ [])
    (hd2 : d2.all isDigitChar = true) (hne2 : d2 ≠ [])
    : matchToks toksOffsetMulti
      ("\n".data ++ ("OFFSET".data ++ ([' '] ++ (d1 ++ ([' '] ++ ("ROWS".data ++ (['\n'] ++ ("FETCH".data ++ ([' '] ++ ("NEXT".data ++ ([' '] ++ (d2 ++ ([' '] ++ ("ROWS".data ++ ([' '] ++ ("ONLY".data ++ (tail)))))))))))))))))
      = some ("\n".data ++ ("OFFSET".data ++ ([' '] ++ (d1 ++ ([' '] ++ ("ROWS".data ++ (['\n'] ++ ("FETCH".data ++ ([' '] ++ ("NEXT".data ++ ([' '] ++ (d2 ++ ([' '] ++ ("ROWS".data ++ ([' '] ++ ("ONLY".data))))))))))))))), tail) := by
  cases d1 with
  | nil => exact absurd rfl hne1
  | cons a1 d1' =>
    cases d2 with
    | nil => exact absurd rfl hne2
    | cons a2 d2' =>
      simp only [List.all_cons, Bool.and_eq_true] at hd1
      obtain ⟨ha1, hd1'⟩ := hd1
      simp only [List.all_cons, Bool.and_eq_true] at hd2
      obtain ⟨ha2, hd2'⟩ := hd2
      have e0 : matchToks [] (tail) = some ([], tail) := matchToks_nil (tail)
      have e1 := litS "ONLY" (by decide) e0
      have e2 := ws1S ' ' (by decide) (by decide) e1
      have e3 := litS "ROWS" (by decide) e2
      have e4 := ws1S ' ' (by decide) (by decide) e3
      have e5 := digS (a2 :: d2') (Or.inr (by decide)) (by decide) (by simp [ha2, hd2']) (by simp) e4
      have e6 := ws1S ' ' (by decide) (digit_not_ws ha2) e5
      have e7 := litS "NEXT" (by decide) e6
      have e8 := ws1S ' ' (by decide) (by decide) e7
      have e9 := litS "FETCH" (by decide) e8
      have e10 := ws0skipS (by decide) e9
      have e11 := optNlSkipS (by decide) e10
      have e12 := ws0oneS '\n' (by decide) (by decide) e11
      have e13 := litS "ROWS" (by decide) e12
      have e14 := ws1S ' ' (by decide) (by decide) e13
      have e15 := digS (a1 :: d1') (Or.inr (by decide)) (by decide) (by simp [ha1, hd1']) (by simp) e14
      have e16 := ws1S ' ' (by decide) (digit_not_ws ha1) e15
      have e17 := litS "OFFSET" (by decide) e16
      have e18 := ws0skipS (by decide) e17
      have e19 := litS "\n" (by decide) e18
      simpa using e19

lemma trace_OS (d1 d2 tail : List Char)
    (hd1 : d1.all isDigitChar = true) (hne1 : d1 ≠ [])
    (hd2 : d2.all isDigitChar = true) (hne2 : d2 ≠ [])
    : matchToks toksOffsetSingle
      (['\n'] ++ ("OFFSET".data ++ ([' '] ++ (d1 ++ ([' '] ++ ("ROWS".data ++ (['\n'] ++ ("FETCH".data ++ ([' '] ++ ("NEXT".data ++ ([' '] ++ (d2 ++ ([' '] ++ ("ROWS".data ++ ([' '] ++ ("ONLY".data ++ (tail)))))))))))))))))
      = some (['\n'] ++ ("OFFSET".data ++ ([' '] ++ (d1 ++ ([' '] ++ ("ROWS".data ++ (['\n'] ++ ("FETCH".data ++ ([' '] ++ ("NEXT".data ++ ([' '] ++ (d2 ++ ([' '] ++ ("ROWS".data ++ ([' '] ++ ("ONLY".data))))))))))))))), tail) := by
  cases d1 with
  | nil => exact absurd rfl hne1
  | cons a1 d1' =>
    cases d2 with
    | nil => exact absurd rfl hne2
    | cons a2 d2' =>
      simp only [List.all_cons, Bool.and_eq_true] at hd1
      obtain ⟨ha1, hd1'⟩ := hd1
      simp only [List.all_cons, Bool.and_eq_true] at hd2
      obtain ⟨ha2, hd2'⟩ := hd2
      have e0 : matchToks [] (tail) = some ([], tail) := matchToks_nil (tail)
      have e1 := litS "ONLY" (by decide) e0
      have e2 := ws1S ' ' (by decide) (by decide) e1
      have e3 := litS "ROWS" (by decide) e2
      have e4 := ws1S ' ' (by decide) (by decide) e3
      have e5 := digS (a2 :: d2') (Or.inr (by decide)) (by decide) (by simp [ha2, hd2']) (by simp) e4
      have e6 := ws1S ' ' (by decide) (digit_not_ws ha2) e5
      have e7 := litS "NEXT" (by decide) e6
      have e8 := ws1S ' ' (by decide) (by decide) e7
      have e9 := litS "FETCH" (by decide) e8
      have e10 := ws1S '\n' (by decide) (by decide) e9
      have e11 := litS "ROWS" (by decide) e10
      have e12 := ws1S ' ' (by decide) (by decide) e11
      have e13 := digS (a1 :: d1') (Or.inr (by decide)) (by decide) (by simp [ha1, hd1']) (by simp) e12
      have e14 := ws1S ' ' (by decide) (digit_not_ws ha1) e13
      have e15 := litS "OFFSET" (by decide) e14
      have e16 := ws1S '\n' (by decide) (by decide) e15
      simpa using e16

lemma trace_RR (d1 d2 rest : List Char)
    (hd1 : d1.all isDigitChar = true) (hne1 : d1 ≠ [])
    (hd2 : d2.all isDigitChar = true) (hne2 : d2 ≠ [])
    : matchToks toksRnRange
      ("WHERE".data ++ ([' '] ++ ("t".data ++ (".rn".data ++ ([' '] ++ (">".data ++ ([' '] ++ (d1 ++ ([' '] ++ ("AND".data ++ ([' '] ++ ("t".data ++ (".rn".data ++ ([' '] ++ ("<=".data ++ ([' '] ++ (d2 ++ ('\n' :: rest))))))))))))))))))
      = some ("WHERE".data ++ ([' '] ++ ("t".data ++ (".rn".data ++ ([' '] ++ (">".data ++ ([' '] ++ (d1 ++ ([' '] ++ ("AND".data ++ ([' '] ++ ("t".data ++ (".rn".data ++ ([' '] ++ ("<=".data ++ ([' '] ++ (d2)))))))))))))))), '\n' :: rest) := by
  cases d1 with
  | nil => exact absurd rfl hne1
  | cons a1 d1' =>
    cases d2 with
    | nil => exact absurd rfl hne2
    | cons a2 d2' =>
      simp only [List.all_cons, Bool.and_eq_true] at hd1
      obtain ⟨ha1, hd1'⟩ := hd1
      simp only [List.all_cons, Bool.and_eq_true] at hd2
      obtain ⟨ha2, hd2'⟩ := hd2
      have e0 : matchToks [] ('\n' :: rest) = some ([], '\n' :: rest) := matchToks_nil ('\n' :: rest)
      have e1 := digS (a2 :: d2') (Or.inl rfl) (by decide) (by simp [ha2, hd2']) (by simp) e0
      have e2 := ws0oneS ' ' (by decide) (digit_not_ws ha2) e1
      have e3 := litS "<=" (by decide) e2
      have e4 := ws0oneS ' ' (by decide) (by decide) e3
      have e5 := litS ".rn" (by decide) e4
      have e6 := notDot0S "t".data (by decide) e5
      have e7 := ws1S ' ' (by decide) (by decide) e6
      have e8 := litS "AND" (by decide) e7
      have e9 := ws1S ' ' (by decide) (by decide) e8
      have e10 := digS (a1 :: d1') (Or.inr (by decide)) (by decide) (by simp [ha1, hd1']) (by simp) e9
      have e11 := ws0oneS ' ' (by decide) (digit_not_ws ha1) e10
      have e12 := litS ">" (by decide) e11
      have e13 := ws0oneS ' ' (by decide) (by decide) e12
      have e14 := litS ".rn" (by decide) e13
      have e15 := notDot0S "t".data (by decide) e14
      have e16 := ws1S ' ' (by decide) (by decide) e15
      have e17 := litS "WHERE" (by decide) e16
      simpa using e17

lemma trace_FB (rest : List Char)
    : matchToks toksFromBracket
      ("FROM".data ++ ([' '] ++ ("[".data ++ (('d' :: "bo".data) ++ ("]".data ++ (".".data ++ ("[".data ++ (('T' :: "".data) ++ ("]".data ++ ([' '] ++ (('t' :: "".data) ++ ('\n' :: rest))))))))))))
      = some ("FROM".data ++ ([' '] ++ ("[".data ++ (('d' :: "bo".data) ++ ("]".data ++ (".".data ++ ("[".data ++ (('T' :: "".data) ++ ("]".data ++ ([' '] ++ (('t' :: "".data))))))))))), '\n' :: rest) := by
  have e0 : matchToks [] ('\n' :: rest) = some ([], '\n' :: rest) := matchToks_nil ('\n' :: rest)
  have e1 := notWsNl1S 't' "".data (by decide) (by decide) (by decide) e0
  have e2 := ws1S ' ' (by decide) (by decide) e1
  have e3 := litS "]" (by decide) e2
  have e4 := notRbr1S 'T' "".data (by decide) (by decide) e3
  have e5 := litS "[" (by decide) e4
  have e6 := litS "." (by decide) e5
  have e7 := litS "]" (by decide) e6
  have e8 := notRbr1S 'd' "bo".data (by decide) (by decide) e7
  have e9 := litS "[" (by decide) e8
  have e10 := ws1S ' ' (by decide) (by decide) e9
  have e11 := litS "FROM" (by decide) e10
  simpa using e11

lemma trace_LJ (tail : List Char)
    : matchToks toksLeftJoin
      ("LEFT".data ++ ([' '] ++ ("JOIN".data ++ (tail))))
      = some ("LEFT".data ++ ([' '] ++ ("JOIN".data)), tail) := by
  have e0 : matchToks [] (tail) = some ([], tail) := matchToks_nil (tail)
  have e1 := litS "JOIN" (by decide) e0
  have e2 := ws1S ' ' (by decide) (by decide) e1
  have e3 := litS "LEFT" (by decide) e2
  simpa using e3

lemma trace_OR (d1 tail : List Char)
    (hd1 : d1.all isDigitChar = true) (hne1 : d1 ≠ [])
    : matchToks toksOffsetRows
      ("OFFSET".data ++ ([' '] ++ (d1 ++ ([' '] ++ ("ROWS".data ++ (tail))))))
      = some ("OFFSET".data ++ ([' '] ++ (d1 ++ ([' '] ++ ("ROWS".data)))), tail) := by
  cases d1 with
  | nil => exact absurd rfl hne1
  | cons a1 d1' =>
    simp only [List.all_cons, Bool.and_eq_true] at hd1
    obtain ⟨ha1, hd1'⟩ := hd1
    have e0 : matchToks [] (tail) = some ([], tail) := matchToks_nil (tail)
    have e1 := litS "ROWS" (by decide) e0
    have e2 := ws1S ' ' (by decide) (by decide) e1
    have e3 := digS (a1 :: d1') (Or.inr (by decide)) (by decide) (by simp [ha1, hd1']) (by simp) e2
    have e4 := ws1S ' ' (by decide) (digit_not_ws ha1) e3
    have e5 := litS "OFFSET" (by decide) e4
    simpa using e5

lemma trace_RG (tail : List Char)
    : matchToks toksRnGt
      (".rn".data ++ ([' '] ++ (">".data ++ (tail))))
      = some (".rn".data ++ ([' '] ++ (">".data)), tail) := by
  have e0 : matchToks [] (tail) = some ([], tail) := matchToks_nil (tail)
  have e1 := litS ">" (by decide) e0
  have e2 := ws0oneS ' ' (by decide) (by decide) e1
  have e3 := litS ".rn" (by decide) e2
  simpa using e3

lemma data_append (s t : String) : (s ++ t).data = s.data ++ t.data := rfl

lemma data_eq_mk {s t : String} (h : s.data = t.data) : s = t := by
  have h1 : String.mk s.data = String.mk t.data := by rw [h]
  exact h1

lemma strAppend_assoc (a b c : String) : (a ++ b) ++ c = a ++ (b ++ c) :=
  data_eq_mk (by simp only [data_append, List.append_assoc])

lemma scan_none5 (toks : List RTok) (A d1 B d2 C : List Char)
    (hA : allPosFail toks A = true) (hB : allPosFail toks B = true)
    (hC : allPosFail toks C = true) (ht : rejectsDigits toks = true)
    (h1 : d1.all isDigitChar = true) (h2 : d2.all isDigitChar = true)
    (hnil : scanFrom toks [] = none) :
    scanFrom toks (A ++ (d1 ++ (B ++ (d2 ++ C)))) = none := by
  have t1 : scanFrom toks C = none := by
    have h := scan_skip_conc C hC []
    rw [hnil] at h
    simpa using h
  have t2 : scanFrom toks (d2 ++ C) = none := by
    have h := scan_skip_digits ht d2 h2 C
    rw [t1] at h
    simpa using h
  have t3 : scanFrom toks (B ++ (d2 ++ C)) = none := by
    have h := scan_skip_conc B hB (d2 ++ C)
    rw [t2] at h
    simpa using h
  have t4 : scanFrom toks (d1 ++ (B ++ (d2 ++ C))) = none := by
    have h := scan_skip_digits ht d1 h1 (B ++ (d2 ++ C))
    rw [t3] at h
    simpa using h
  have h := scan_skip_conc A hA (d1 ++ (B ++ (d2 ++ C)))
  rw [t4] at h
  simpa using h

lemma dropWhile_append_no (p : Char → Bool) (l r : List Char)
    (h : l.dropWhile p = l) (hne : l ≠ []) :
    (l ++ r).dropWhile p = l ++ r := by
  cases l with
  | nil => exact absurd rfl hne
  | cons a l' =>
    by_cases hp : p a
    · exfalso
      rw [List.dropWhile_cons, if_pos hp] at h
      have := congrArg List.length h
      have hlen : (l'.dropWhile p).length ≤ l'.length := by
        clear this h hne
        induction l' with
        | nil => simp
        | cons b bs IH =>
          rw [List.dropWhile_cons]
          by_cases hb : p b
          · rw [if_pos hb]
            have h2 := IH
            simp only [List.length_cons]
            omega
          · rw [if_neg hb]
      simp only [List.length_cons] at this
      omega
    · rw [List.cons_append, List.dropWhile_cons, if_neg hp]

lemma trim_chunks {s : String} (A M B : List Char)
    (hl : s.data = A ++ (M ++ B))
    (hA : A.dropWhile Char.isWhitespace = A) (hAne : A ≠ [])
    (hB : B.reverse.dropWhile Char.isWhitespace = B.reverse) (hBne : B ≠ []) :
    trimStr s = s := by
  have hs : s = String.mk (A ++ (M ++ B)) := data_eq_mk hl
  subst hs
  show String.mk ((((A ++ (M ++ B)).dropWhile Char.isWhitespace).reverse.dropWhile
    Char.isWhitespace).reverse) = _
  have h1 : (A ++ (M ++ B)).dropWhile Char.isWhitespace = A ++ (M ++ B) :=
    dropWhile_append_no _ _ _ hA hAne
  rw [h1]
  have hrev : (A ++ (M ++ B)).reverse = B.reverse ++ (M.reverse ++ A.reverse) := by
    simp [List.reverse_append]
  rw [hrev]
  have h2 : (B.reverse ++ (M.reverse ++ A.reverse)).dropWhile Char.isWhitespace
      = B.reverse ++ (M.reverse ++ A.reverse) :=
    dropWhile_append_no _ _ _ hB (by simpa using hBne)
  rw [h2, ← hrev, List.reverse_reverse]

lemma isPrefixL_append {pat s : List Char} (h : isPrefixL pat s = true)
    (tail : List Char) : isPrefixL pat (s ++ tail) = true := by
  induction pat generalizing s with
  | nil => rfl
  | cons p ps IH =>
    cases s with
    | nil => simp [isPrefixL] at h
    | cons c cs =>
      simp only [isPrefixL, Bool.and_eq_true] at h
      obtain ⟨h1, h2⟩ := h
      simp only [List.cons_append, isPrefixL, Bool.and_eq_true]
      exact ⟨h1, IH h2⟩

lemma isPrefixL_false_long {pat s : List Char} (hlen : pat.length ≤ s.length)
    (h : isPrefixL pat s = false) (tail : List Char) :
    isPrefixL pat (s ++ tail) = false := by
  induction pat generalizing s with
  | nil => simp [isPrefixL] at h
  | cons p ps IH =>
    cases s with
    | nil => simp at hlen
    | cons c cs =>
      simp only [isPrefixL] at h
      simp only [List.cons_append, isPrefixL]
      by_cases h1 : (p == c) = true
      · rw [h1, Bool.true_and] at h
        rw [h1, Bool.true_and]
        exact IH (by simp only [List.length_cons] at hlen; omega) h
      · have h1' : (p == c) = false := by simpa using h1
        rw [h1']
        simp

lemma idxOfAux_ge {pat : List Char} : ∀ {s : List Char} {i k : Nat},
    idxOfAux pat s i = some k → i ≤ k := by
  intro s
  induction s with
  | nil =>
    intro i k h
    simp only [idxOfAux] at h
    by_cases hp : isPrefixL pat [] = true
    · rw [if_pos hp] at h
      injection h with h
      omega
    · rw [if_neg hp] at h
      exact absurd h (by simp)
  | cons c cs IH =>
    intro i k h
    simp only [idxOfAux] at h
    by_cases hp : isPrefixL pat (c :: cs) = true
    · rw [if_pos hp] at h
      injection h with h
      omega
    · rw [if_neg hp] at h
      have := IH h
      omega

lemma idxOfAux_concat {pat : List Char} : ∀ (P : List Char) (tail : List Char)
    {i k : Nat}, idxOfAux pat P i = some k → k + pat.length ≤ i + P.length →
    idxOfAux pat (P ++ tail) i = some k := by
  intro P
  induction P with
  | nil =>
    intro tail i k h hb
    simp only [idxOfAux] at h
    by_cases hp : isPrefixL pat [] = true
    · rw [if_pos hp] at h
      injection h with h
      subst h
      cases pat with
      | nil =>
        cases tail with
        | nil => rfl
        | cons t ts => simp [idxOfAux, isPrefixL]
      | cons a as => simp [isPrefixL] at hp
    · rw [if_neg hp] at h
      exact absurd h (by simp)
  | cons c P' IH =>
    intro tail i k h hb
    simp only [idxOfAux] at h
    simp only [List.cons_append, idxOfAux, List.append_eq]
    by_cases hp : isPrefixL pat (c :: P') = true
    · rw [if_pos hp] at h
      have hpp : isPrefixL pat (c :: (P' ++ tail)) = true := by
        have := isPrefixL_append hp tail
        simpa using this
      rw [if_pos hpp]
      exact h
    · rw [if_neg hp] at h
      have hge := idxOfAux_ge h
      have hlen : pat.length ≤ (c :: P').length := by
        simp only [List.length_cons] at hb ⊢
        omega
      have hff : isPrefixL pat (c :: (P' ++ tail)) = false := by
        have := isPrefixL_false_long hlen (by simpa using hp) tail
        simpa using this
      rw [hff]
      simp only [Bool.false_eq_true, if_false]
      apply IH tail h
      simp only [List.length_cons] at hb
      omega

lemma idxOf_concat {s : String} {P tail : List Char} (hs : s.data = P ++ tail)
    {pat : String} {k : Nat} (h : idxOfAux pat.data P 0 = some k)
    (hk : k + pat.data.length ≤ P.length) : idxOf s pat = some k := by
  show idxOfAux pat.data s.data 0 = some k
  rw [hs]
  exact idxOfAux_concat P tail h (by omega)

lemma drop_append_le {l1 l2 : List Char} {n : Nat} (h : n ≤ l1.length) :
    (l1 ++ l2).drop n = l1.drop n ++ l2 :=
  List.drop_append_of_le_length h

lemma take_append_le {l1 l2 : List Char} {n : Nat} (h : n ≤ l1.length) :
    (l1 ++ l2).take n = l1.take n :=
  List.take_append_of_le_length h

lemma upper_data (s : String) : (upperStr s).data = s.data.map Char.toUpper := rfl

lemma map_toUpper_digits {d : List Char} (h : d.all isDigitChar = true) :
    d.map Char.toUpper = d := by
  induction d with
  | nil => rfl
  | cons a d' IH =>
    simp only [List.all_cons, Bool.and_eq_true] at h
    obtain ⟨h1, h2⟩ := h
    simp only [List.map_cons, digit_toUpper h1, IH h2]

lemma koBase_eq (o0 p0 : Nat) :
    koBase o0 p0 = "SELECT [t].*\nFROM [dbo].[T] t\nORDER BY t.[id] ASC" ++
      ("\nOFFSET " ++ (toString o0 ++ (" ROWS\nFETCH NEXT " ++
        (toString p0 ++ " ROWS ONLY")))) := by
  apply data_eq_mk
  simp only [koBase, genQueryText, allSelectsText, joinClausesText,
    whereClauseText, data_append, List.append_assoc]
  rfl

lemma ko_pass1 (o0 p0 off ps : Nat) :
    replaceAll toksOffsetMulti
      ("\nOFFSET " ++ (toString off ++ (" ROWS\nFETCH NEXT " ++
        (toString ps ++ " ROWS ONLY"))))
      (koBase o0 p0)
    = "SELECT [t].*\nFROM [dbo].[T] t\nORDER BY t.[id] ASC" ++
      ("\nOFFSET " ++ (toString off ++ (" ROWS\nFETCH NEXT " ++
        (toString ps ++ " ROWS ONLY")))) := by
  rw [koBase_eq]
  have htr := trace_OM (toString o0).data (toString p0).data []
    (natToString_all o0) (natToString_ne o0)
    (natToString_all p0) (natToString_ne p0)
  have hscan : scanFrom toksOffsetMulti
      (("SELECT [t].*\nFROM [dbo].[T] t\nORDER BY t.[id] ASC" ++
        ("\nOFFSET " ++ (toString o0 ++ (" ROWS\nFETCH NEXT " ++
          (toString p0 ++ " ROWS ONLY"))))).data)
      = some ("SELECT [t].*\nFROM [dbo].[T] t\nORDER BY t.[id] ASC".data,
          "\n".data ++ ("OFFSET".data ++ ([' '] ++ ((toString o0).data ++
            ([' '] ++ ("ROWS".data ++ (['\n'] ++ ("FETCH".data ++ ([' '] ++
            ("NEXT".data ++ ([' '] ++ ((toString p0).data ++ ([' '] ++
            ("ROWS".data ++ ([' '] ++ "ONLY".data)))))))))))))), []) :=
    scan_hit "SELECT [t].*\nFROM [dbo].[T] t\nORDER BY t.[id] ASC".data
      (by decide) htr
  refine (replaceAll_one hscan (by decide)).trans (data_eq_mk ?_)
  simp [data_append]

lemma ko_pass2 (off ps : Nat) :
    replaceAll toksOffsetSingle
      (" OFFSET " ++ (toString off ++ (" ROWS FETCH NEXT " ++
        (toString ps ++ " ROWS ONLY"))))
      ("SELECT [t].*\nFROM [dbo].[T] t\nORDER BY t.[id] ASC" ++
        ("\nOFFSET " ++ (toString off ++ (" ROWS\nFETCH NEXT " ++
          (toString ps ++ " ROWS ONLY")))))
    = "SELECT [t].*\nFROM [dbo].[T] t\nORDER BY t.[id] ASC" ++
      (" OFFSET " ++ (toString off ++ (" ROWS FETCH NEXT " ++
        (toString ps ++ " ROWS ONLY")))) := by
  have htr := trace_OS (toString off).data (toString ps).data []
    (natToString_all off) (natToString_ne off)
    (natToString_all ps) (natToString_ne ps)
  have hscan : scanFrom toksOffsetSingle
      (("SELECT [t].*\nFROM [dbo].[T] t\nORDER BY t.[id] ASC" ++
        ("\nOFFSET " ++ (toString off ++ (" ROWS\nFETCH NEXT " ++
          (toString ps ++ " ROWS ONLY"))))).data)
      = some ("SELECT [t].*\nFROM [dbo].[T] t\nORDER BY t.[id] ASC".data,
          ['\n'] ++ ("OFFSET".data ++ ([' '] ++ ((toString off).data ++
            ([' '] ++ ("ROWS".data ++ (['\n'] ++ ("FETCH".data ++ ([' '] ++
            ("NEXT".data ++ ([' '] ++ ((toString ps).data ++ ([' '] ++
            ("ROWS".data ++ ([' '] ++ "ONLY".data)))))))))))))), []) :=
    scan_hit "SELECT [t].*\nFROM [dbo].[T] t\nORDER BY t.[id] ASC".data
      (by decide) htr
  refine (replaceAll_one hscan (by decide)).trans (data_eq_mk ?_)
  simp [data_append]

lemma ko_pass3 (off ps : Nat) (repl : String) :
    replaceAll toksRnRange repl
      ("SELECT [t].*\nFROM [dbo].[T] t\nORDER BY t.[id] ASC" ++
        (" OFFSET " ++ (toString off ++ (" ROWS FETCH NEXT " ++
          (toString ps ++ " ROWS ONLY")))))
    = "SELECT [t].*\nFROM [dbo].[T] t\nORDER BY t.[id] ASC" ++
      (" OFFSET " ++ (toString off ++ (" ROWS FETCH NEXT " ++
        (toString ps ++ " ROWS ONLY")))) := by
  refine replaceAll_none ?_
  exact scan_none5 toksRnRange
    "SELECT [t].*\nFROM [dbo].[T] t\nORDER BY t.[id] ASC OFFSET ".data
    (toString off).data " ROWS FETCH NEXT ".data (toString ps).data
    " ROWS ONLY".data (by decide) (by decide) (by decide) (by decide)
    (natToString_all off) (natToString_all ps) (by decide)

lemma ko_pass4 (off ps : Nat) (repl : String) :
    replaceAll toksSelectTop repl
      ("SELECT [t].*\nFROM [dbo].[T] t\nORDER BY t.[id] ASC" ++
        (" OFFSET " ++ (toString off ++ (" ROWS FETCH NEXT " ++
          (toString ps ++ " ROWS ONLY")))))
    = "SELECT [t].*\nFROM [dbo].[T] t\nORDER BY t.[id] ASC" ++
      (" OFFSET " ++ (toString off ++ (" ROWS FETCH NEXT " ++
        (toString ps ++ " ROWS ONLY")))) := by
  refine replaceAll_none ?_
  exact scan_none5 toksSelectTop
    "SELECT [t].*\nFROM [dbo].[T] t\nORDER BY t.[id] ASC OFFSET ".data
    (toString off).data " ROWS FETCH NEXT ".data (toString ps).data
    " ROWS ONLY".data (by decide) (by decide) (by decide) (by decide)
    (natToString_all off) (natToString_all ps) (by decide)


lemma gridSelectReplace_some {gs : GridState} {visibleCols : List String}
    {q : String} {k : Nat} (hidx : idxOf (upperStr q) "\nFROM" = some k)
    (hk : 0 < k) :
    gridSelectReplace gs visibleCols q
      = "SELECT " ++ gridColumnList gs visibleCols ++ "\n" ++
          String.mk (q.data.drop (k + 1)) := by
  unfold gridSelectReplace
  rw [hidx]
  show (if 0 < k then
      "SELECT " ++ gridColumnList gs visibleCols ++ "\n" ++
        String.mk (q.data.drop (k + 1))
    else replaceFirst toksSelectFrom
      ("SELECT " ++ gridColumnList gs visibleCols ++ "\nFROM") q) = _
  rw [if_pos hk]

lemma ko_selectReplace (gs : GridState) (visibleCols : List String) (off ps : Nat) :
    gridSelectReplace gs visibleCols
      ("SELECT [t].*\nFROM [dbo].[T] t\nORDER BY t.[id] ASC" ++
        (" OFFSET " ++ (toString off ++ (" ROWS FETCH NEXT " ++
          (toString ps ++ " ROWS ONLY")))))
    = "SELECT " ++ (gridColumnList gs visibleCols ++
        ("\nFROM [dbo].[T] t\nORDER BY t.[id] ASC OFFSET " ++
          (toString off ++ (" ROWS FETCH NEXT " ++
            (toString ps ++ " ROWS ONLY"))))) := by
  have h1 : ("SELECT [t].*\nFROM [dbo].[T] t\nORDER BY t.[id] ASC".data).map
      Char.toUpper = "SELECT [T].*\nFROM [DBO].[T] T\nORDER BY T.[ID] ASC".data := by
    decide
  have h2 : (" OFFSET ".data).map Char.toUpper = " OFFSET ".data := by decide
  have h3 : (" ROWS FETCH NEXT ".data).map Char.toUpper
      = " ROWS FETCH NEXT ".data := by decide
  have h4 : (" ROWS ONLY".data).map Char.toUpper = " ROWS ONLY".data := by decide
  have hup : (upperStr ("SELECT [t].*\nFROM [dbo].[T] t\nORDER BY t.[id] ASC" ++
      (" OFFSET " ++ (toString off ++ (" ROWS FETCH NEXT " ++
        (toString ps ++ " ROWS ONLY")))))).data
      = "SELECT [T].*\nFROM [DBO].[T] T\nORDER BY T.[ID] ASC".data ++
        (" OFFSET ".data ++ ((toString off).data ++ (" ROWS FETCH NEXT ".data ++
          ((toString ps).data ++ " ROWS ONLY".data)))) := by
    show ("SELECT [t].*\nFROM [dbo].[T] t\nORDER BY t.[id] ASC".data ++
      (" OFFSET ".data ++ ((toString off).data ++ (" ROWS FETCH NEXT ".data ++
        ((toString ps).data ++ " ROWS ONLY".data))))).map Char.toUpper = _
    simp only [List.map_append, h1, h2, h3, h4,
      map_toUpper_digits (natToString_all off),
      map_toUpper_digits (natToString_all ps)]
  have hidx : idxOf (upperStr ("SELECT [t].*\nFROM [dbo].[T] t\nORDER BY t.[id] ASC" ++
      (" OFFSET " ++ (toString off ++ (" ROWS FETCH NEXT " ++
        (toString ps ++ " ROWS ONLY")))))) "\nFROM" = some 12 := by
    exact idxOf_concat hup (by decide) (by decide)
  have hdrop : (("SELECT [t].*\nFROM [dbo].[T] t\nORDER BY t.[id] ASC" ++
      (" OFFSET " ++ (toString off ++ (" ROWS FETCH NEXT " ++
        (toString ps ++ " ROWS ONLY"))))).data).drop 13
      = "FROM [dbo].[T] t\nORDER BY t.[id] ASC".data ++
        (" OFFSET ".data ++ ((toString off).data ++ (" ROWS FETCH NEXT ".data ++
          ((toString ps).data ++ " ROWS ONLY".data)))) := by
    show ("SELECT [t].*\nFROM [dbo].[T] t\nORDER BY t.[id] ASC".data ++
      (" OFFSET ".data ++ ((toString off).data ++ (" ROWS FETCH NEXT ".data ++
        ((toString ps).data ++ " ROWS ONLY".data))))).drop 13 = _
    rw [drop_append_le (by decide)]
    rw [show ("SELECT [t].*\nFROM [dbo].[T] t\nORDER BY t.[id] ASC".data).drop 13
      = "FROM [dbo].[T] t\nORDER BY t.[id] ASC".data from by decide]
  rw [gridSelectReplace_some hidx (by omega)]
  rw [show (12 + 1 : Nat) = 13 from rfl, hdrop]
  apply data_eq_mk
  simp [data_append]

lemma testToks_of_suffix {toks : List RTok} {s : String} (pre : List Char)
    {c : Char} {cs : List Char} {x : List Char × List Char}
    (hs : s.data = pre ++ (c :: cs)) (h : matchToks toks (c :: cs) = some x) :
    testToks toks s = true := by
  show (scanFrom toks s.data).isSome = true
  rw [hs]
  exact scan_isSome_suffix pre (by rw [h]; rfl)

lemma ensure_skip_offset (co ps2 : Nat) {q : String}
    (h : testToks toksOffsetRows q = true) :
    gridEnsurePagination co ps2 q = q := by
  unfold gridEnsurePagination
  rw [h]
  simp

lemma ensure_skip_rn (co ps2 : Nat) {q : String}
    (h : testToks toksRnGt q = true) :
    gridEnsurePagination co ps2 q = q := by
  unfold gridEnsurePagination
  rw [h]
  simp

lemma appendJoins_skip_mode {gs : GridState} {q : String}
    (h : (gs.fkDisplayMode == "key-display" ||
      gs.fkDisplayMode == "display-only") = false) :
    gridAppendJoins gs q = q := by
  unfold gridAppendJoins
  rw [h]
  simp

lemma appendJoins_skip_lj {gs : GridState} {q : String}
    (h : testToks toksLeftJoin q = true) :
    gridAppendJoins gs q = q := by
  unfold gridAppendJoins
  rw [h]
  simp

lemma pagetail_pass6 (A : String) (off ps : Nat)
    (hA : allPosFail toksTripleNl A.data = true)
    (hA1 : A.data.dropWhile Char.isWhitespace = A.data) (hAne : A.data ≠ []) :
    trimStr (replaceAll toksTripleNl "\n\n"
      (A ++ (toString off ++ (" ROWS FETCH NEXT " ++
        (toString ps ++ " ROWS ONLY")))))
    = A ++ (toString off ++ (" ROWS FETCH NEXT " ++
        (toString ps ++ " ROWS ONLY"))) := by
  have hnone : scanFrom toksTripleNl
      ((A ++ (toString off ++ (" ROWS FETCH NEXT " ++
        (toString ps ++ " ROWS ONLY")))).data) = none :=
    scan_none5 toksTripleNl A.data (toString off).data
      " ROWS FETCH NEXT ".data (toString ps).data " ROWS ONLY".data
      hA (by decide) (by decide) (by decide)
      (natToString_all off) (natToString_all ps) (by decide)
  rw [replaceAll_none hnone]
  refine trim_chunks A.data
    ((toString off).data ++ (" ROWS FETCH NEXT ".data ++ (toString ps).data))
    " ROWS ONLY".data ?_ hA1 hAne (by decide) (by decide)
  simp [data_append]

lemma famHidden_eval (o0 p0 page ps : Nat) :
    generateQueryFromGrid (gsFamHidden o0 p0 page ps)
    = "SELECT [t].[id]\nFROM [dbo].[T] t\nORDER BY t.[id] ASC OFFSET " ++
      (toString ((page - 1) * ps) ++ (" ROWS FETCH NEXT " ++
        (toString ps ++ " ROWS ONLY"))) := by
  have hfil1 : List.filter (fun id => !strEndsWith id "_display") ["id"]
      = ["id"] := rfl
  have hfil2 : List.filter (fun id => !strEndsWith id "_display")
      ["id", "managerId"] = ["id", "managerId"] := rfl
  have hcol : gridColumnList (gsFamHidden o0 p0 page ps) ["id"]
      = "[t].[id]" := rfl
  simp only [generateQueryFromGrid]
  simp only [show (gsFamHidden o0 p0 page ps).baseQuery = some (koBase o0 p0) from rfl,
    show (gsFamHidden o0 p0 page ps).page = page from rfl,
    show (gsFamHidden o0 p0 page ps).pageSize = ps from rfl,
    show (gsFamHidden o0 p0 page ps).visibleColumnIds = ["id"] from rfl,
    show (gsFamHidden o0 p0 page ps).allColumnIds = ["id", "managerId"] from rfl,
    show (gsFamHidden o0 p0 page ps).fkDisplayMode = "key-only" from rfl,
    hfil1, hfil2]
  simp only [strAppend_assoc]
  rw [ko_pass1, ko_pass2, ko_pass3, ko_pass4]
  have hcond : (decide (["id"].length < ["id", "managerId"].length) ||
      "key-only" == "key-display" || "key-only" == "display-only") = true := by
    decide
  rw [if_pos hcond]
  rw [ko_selectReplace, hcol]
  have hmerge : ∀ X : String,
      "SELECT " ++ ("[t].[id]" ++
        ("\nFROM [dbo].[T] t\nORDER BY t.[id] ASC OFFSET " ++ X))
      = "SELECT [t].[id]\nFROM [dbo].[T] t\nORDER BY t.[id] ASC OFFSET " ++ X :=
    fun X => rfl
  rw [hmerge]
  rw [pagetail_pass6 "SELECT [t].[id]\nFROM [dbo].[T] t\nORDER BY t.[id] ASC OFFSET "
    ((page - 1) * ps) ps (by decide) (by decide) (by decide)]
  rw [appendJoins_skip_mode (show ((gsFamHidden o0 p0 page ps).fkDisplayMode ==
    "key-display" || (gsFamHidden o0 p0 page ps).fkDisplayMode ==
    "display-only") = false from rfl)]
  have hOR : testToks toksOffsetRows
      ("SELECT [t].[id]\nFROM [dbo].[T] t\nORDER BY t.[id] ASC OFFSET " ++
        (toString ((page - 1) * ps) ++ (" ROWS FETCH NEXT " ++
          (toString ps ++ " ROWS ONLY")))) = true :=
    testToks_of_suffix "SELECT [t].[id]\nFROM [dbo].[T] t\nORDER BY t.[id] ASC ".data
      rfl
      (trace_OR (toString ((page - 1) * ps)).data
        (" FETCH NEXT ".data ++ ((toString ps).data ++ " ROWS ONLY".data))
        (natToString_all _) (natToString_ne _))
  rw [ensure_skip_offset _ _ hOR]

lemma appendJoins_insert {gs : GridState} {q : String} {pre m rest : List Char}
    (hmode : (gs.fkDisplayMode == "key-display" ||
      gs.fkDisplayMode == "display-only") = true)
    (hstruct : gs.tableStructure = some structT)
    (hlj : testToks toksLeftJoin q = false) (hj : testToks toksJoin q = false)
    (hscan : scanFrom toksFromBracket q.data = some (pre, m, rest))
    {k : Nat} (hidx : idxOf q (String.mk m) = some k) :
    gridAppendJoins gs q = String.mk (q.data.take (k + m.length)) ++ "\n" ++
      "LEFT JOIN [dbo].[Employee] fk_managerId ON [t].[managerId] = fk_managerId.[id]" ++
      String.mk (q.data.drop (k + m.length)) := by
  unfold gridAppendJoins
  rw [hmode, hstruct, hlj, hj]
  rw [if_pos (show (true && (some structT).isSome && !false && !false) = true
    from by decide)]
  show (match scanFrom toksFromBracket q.data with
    | none => q
    | some (_, m, _) =>
      match idxOf q (String.mk m) with
      | none => q
      | some idx =>
        String.mk (List.take (idx + m.length) q.data) ++ "\n" ++
          "\n".intercalate
            ["LEFT JOIN [dbo].[Employee] fk_managerId ON [t].[managerId] = fk_managerId.[id]"] ++
          String.mk (List.drop (idx + m.length) q.data)) = _
  rw [hscan]
  show (match idxOf q (String.mk m) with
    | none => q
    | some idx =>
      String.mk (List.take (idx + m.length) q.data) ++ "\n" ++
        "\n".intercalate
          ["LEFT JOIN [dbo].[Employee] fk_managerId ON [t].[managerId] = fk_managerId.[id]"] ++
        String.mk (List.drop (idx + m.length) q.data)) = _
  rw [hidx]
  rfl

set_option maxRecDepth 100000 in
lemma famJoins_eval (o0 p0 page ps : Nat) :
    generateQueryFromGrid (gsFamJoins o0 p0 page ps)
    = "SELECT [t].[id], [t].[managerId], fk_managerId.[name] as [managerId_display]\nFROM [dbo].[T] t\nLEFT JOIN [dbo].[Employee] fk_managerId ON [t].[managerId] = fk_managerId.[id]\nORDER BY t.[id] ASC OFFSET " ++
      (toString ((page - 1) * ps) ++ (" ROWS FETCH NEXT " ++
        (toString ps ++ " ROWS ONLY"))) := by
  have hfil3 : List.filter (fun id => !strEndsWith id "_display")
      ["id", "managerId", "managerId_display"] = ["id", "managerId"] := rfl
  have hcol : gridColumnList (gsFamJoins o0 p0 page ps) ["id", "managerId"]
      = "[t].[id], [t].[managerId], fk_managerId.[name] as [managerId_display]" := rfl
  simp only [generateQueryFromGrid]
  simp only [show (gsFamJoins o0 p0 page ps).baseQuery = some (koBase o0 p0) from rfl,
    show (gsFamJoins o0 p0 page ps).page = page from rfl,
    show (gsFamJoins o0 p0 page ps).pageSize = ps from rfl,
    show (gsFamJoins o0 p0 page ps).visibleColumnIds
      = ["id", "managerId", "managerId_display"] from rfl,
    show (gsFamJoins o0 p0 page ps).allColumnIds
      = ["id", "managerId", "managerId_display"] from rfl,
    show (gsFamJoins o0 p0 page ps).fkDisplayMode = "key-display" from rfl,
    hfil3]
  simp only [strAppend_assoc]
  rw [ko_pass1, ko_pass2, ko_pass3, ko_pass4]
  have hcond : (decide (["id", "managerId"].length < ["id", "managerId"].length) ||
      "key-display" == "key-display" || "key-display" == "display-only") = true := by
    decide
  rw [if_pos hcond]
  rw [ko_selectReplace, hcol]
  have hmerge : ∀ X : String,
      "SELECT " ++ ("[t].[id], [t].[managerId], fk_managerId.[name] as [managerId_display]" ++
        ("\nFROM [dbo].[T] t\nORDER BY t.[id] ASC OFFSET " ++ X))
      = "SELECT [t].[id], [t].[managerId], fk_managerId.[name] as [managerId_display]\nFROM [dbo].[T] t\nORDER BY t.[id] ASC OFFSET " ++ X :=
    fun X => rfl
  rw [hmerge]
  rw [pagetail_pass6 "SELECT [t].[id], [t].[managerId], fk_managerId.[name] as [managerId_display]\nFROM [dbo].[T] t\nORDER BY t.[id] ASC OFFSET "
    ((page - 1) * ps) ps (by decide) (by decide) (by decide)]
  have hlj : testToks toksLeftJoin
      ("SELECT [t].[id], [t].[managerId], fk_managerId.[name] as [managerId_display]\nFROM [dbo].[T] t\nORDER BY t.[id] ASC OFFSET " ++
        (toString ((page - 1) * ps) ++ (" ROWS FETCH NEXT " ++
          (toString ps ++ " ROWS ONLY")))) = false :=
    testToks_false (scan_none5 toksLeftJoin
      "SELECT [t].[id], [t].[managerId], fk_managerId.[name] as [managerId_display]\nFROM [dbo].[T] t\nORDER BY t.[id] ASC OFFSET ".data
      (toString ((page - 1) * ps)).data " ROWS FETCH NEXT ".data
      (toString ps).data " ROWS ONLY".data
      (by decide) (by decide) (by decide) (by decide)
      (natToString_all _) (natToString_all _) (by decide))
  have hj : testToks toksJoin
      ("SELECT [t].[id], [t].[managerId], fk_managerId.[name] as [managerId_display]\nFROM [dbo].[T] t\nORDER BY t.[id] ASC OFFSET " ++
        (toString ((page - 1) * ps) ++ (" ROWS FETCH NEXT " ++
          (toString ps ++ " ROWS ONLY")))) = false :=
    testToks_false (scan_none5 toksJoin
      "SELECT [t].[id], [t].[managerId], fk_managerId.[name] as [managerId_display]\nFROM [dbo].[T] t\nORDER BY t.[id] ASC OFFSET ".data
      (toString ((page - 1) * ps)).data " ROWS FETCH NEXT ".data
      (toString ps).data " ROWS ONLY".data
      (by decide) (by decide) (by decide) (by decide)
      (natToString_all _) (natToString_all _) (by decide))
  have hscanFB : scanFrom toksFromBracket
      (("SELECT [t].[id], [t].[managerId], fk_managerId.[name] as [managerId_display]\nFROM [dbo].[T] t\nORDER BY t.[id] ASC OFFSET " ++
        (toString ((page - 1) * ps) ++ (" ROWS FETCH NEXT " ++
          (toString ps ++ " ROWS ONLY")))).data)
      = some ("SELECT [t].[id], [t].[managerId], fk_managerId.[name] as [managerId_display]\n".data,
          "FROM [dbo].[T] t".data,
          '\n' :: ("ORDER BY t.[id] ASC OFFSET ".data ++
            ((toString ((page - 1) * ps)).data ++ (" ROWS FETCH NEXT ".data ++
              ((toString ps).data ++ " ROWS ONLY".data))))) :=
    scan_hit "SELECT [t].[id], [t].[managerId], fk_managerId.[name] as [managerId_display]\n".data
      (by decide)
      (trace_FB ("ORDER BY t.[id] ASC OFFSET ".data ++
        ((toString ((page - 1) * ps)).data ++ (" ROWS FETCH NEXT ".data ++
          ((toString ps).data ++ " ROWS ONLY".data)))))
  have hsplit : (("SELECT [t].[id], [t].[managerId], fk_managerId.[name] as [managerId_display]\nFROM [dbo].[T] t\nORDER BY t.[id] ASC OFFSET " ++
        (toString ((page - 1) * ps) ++ (" ROWS FETCH NEXT " ++
          (toString ps ++ " ROWS ONLY")))) : String).data
      = "SELECT [t].[id], [t].[managerId], fk_managerId.[name] as [managerId_display]\nFROM [dbo].[T] t".data ++
        ("\nORDER BY t.[id] ASC OFFSET ".data ++
          ((toString ((page - 1) * ps)).data ++ (" ROWS FETCH NEXT ".data ++
            ((toString ps).data ++ " ROWS ONLY".data)))) := rfl
  have hidx : idxOf
      ("SELECT [t].[id], [t].[managerId], fk_managerId.[name] as [managerId_display]\nFROM [dbo].[T] t\nORDER BY t.[id] ASC OFFSET " ++
        (toString ((page - 1) * ps) ++ (" ROWS FETCH NEXT " ++
          (toString ps ++ " ROWS ONLY"))))
      (String.mk "FROM [dbo].[T] t".data) = some 77 :=
    idxOf_concat hsplit (by decide) (by decide)
  rw [appendJoins_insert (by rfl) (by rfl) hlj hj hscanFB hidx]
  have htake : List.take (77 + "FROM [dbo].[T] t".data.length)
      (("SELECT [t].[id], [t].[managerId], fk_managerId.[name] as [managerId_display]\nFROM [dbo].[T] t\nORDER BY t.[id] ASC OFFSET " ++
        (toString ((page - 1) * ps) ++ (" ROWS FETCH NEXT " ++
          (toString ps ++ " ROWS ONLY")))).data)
      = "SELECT [t].[id], [t].[managerId], fk_managerId.[name] as [managerId_display]\nFROM [dbo].[T] t".data := by
    rw [hsplit, show (77 + "FROM [dbo].[T] t".data.length) = 93 from by decide,
      take_append_le (by decide)]
    decide
  have hdrop : List.drop (77 + "FROM [dbo].[T] t".data.length)
      (("SELECT [t].[id], [t].[managerId], fk_managerId.[name] as [managerId_display]\nFROM [dbo].[T] t\nORDER BY t.[id] ASC OFFSET " ++
        (toString ((page - 1) * ps) ++ (" ROWS FETCH NEXT " ++
          (toString ps ++ " ROWS ONLY")))).data)
      = "\nORDER BY t.[id] ASC OFFSET ".data ++
          ((toString ((page - 1) * ps)).data ++ (" ROWS FETCH NEXT ".data ++
            ((toString ps).data ++ " ROWS ONLY".data))) := by
    rw [hsplit, show (77 + "FROM [dbo].[T] t".data.length) = 93 from by decide,
      drop_append_le (by decide),
      show ("SELECT [t].[id], [t].[managerId], fk_managerId.[name] as [managerId_display]\nFROM [dbo].[T] t".data).drop 93 = [] from by decide]
    exact List.nil_append _
  rw [htake, hdrop]
  have hq7 : (String.mk "SELECT [t].[id], [t].[managerId], fk_managerId.[name] as [managerId_display]\nFROM [dbo].[T] t".data ++ "\n" ++
      "LEFT JOIN [dbo].[Employee] fk_managerId ON [t].[managerId] = fk_managerId.[id]" ++
      String.mk ("\nORDER BY t.[id] ASC OFFSET ".data ++
        ((toString ((page - 1) * ps)).data ++ (" ROWS FETCH NEXT ".data ++
          ((toString ps).data ++ " ROWS ONLY".data)))))
      = "SELECT [t].[id], [t].[managerId], fk_managerId.[name] as [managerId_display]\nFROM [dbo].[T] t\nLEFT JOIN [dbo].[Employee] fk_managerId ON [t].[managerId] = fk_managerId.[id]\nORDER BY t.[id] ASC OFFSET " ++
        (toString ((page - 1) * ps) ++ (" ROWS FETCH NEXT " ++
          (toString ps ++ " ROWS ONLY"))) :=
    data_eq_mk (by simp [data_append])
  rw [hq7]
  have hOR : testToks toksOffsetRows
      ("SELECT [t].[id], [t].[managerId], fk_managerId.[name] as [managerId_display]\nFROM [dbo].[T] t\nLEFT JOIN [dbo].[Employee] fk_managerId ON [t].[managerId] = fk_managerId.[id]\nORDER BY t.[id] ASC OFFSET " ++
        (toString ((page - 1) * ps) ++ (" ROWS FETCH NEXT " ++
          (toString ps ++ " ROWS ONLY")))) = true :=
    testToks_of_suffix "SELECT [t].[id], [t].[managerId], fk_managerId.[name] as [managerId_display]\nFROM [dbo].[T] t\nLEFT JOIN [dbo].[Employee] fk_managerId ON [t].[managerId] = fk_managerId.[id]\nORDER BY t.[id] ASC ".data
      rfl
      (trace_OR (toString ((page - 1) * ps)).data
        (" FETCH NEXT ".data ++ ((toString ps).data ++ " ROWS ONLY".data))
        (natToString_all _) (natToString_ne _))
  rw [ensure_skip_offset _ _ hOR]

lemma kdBase_eq (o0 p0 : Nat) :
    kdBase o0 p0 = "SELECT [t].*, fk_managerId.[name] as [managerId_display]\nFROM [dbo].[T] t\nLEFT JOIN [dbo].[Employee] fk_managerId ON [t].[managerId] = fk_managerId.[id]\nORDER BY t.[id] ASC" ++
      ("\nOFFSET " ++ (toString o0 ++ (" ROWS\nFETCH NEXT " ++
        (toString p0 ++ " ROWS ONLY")))) := by
  apply data_eq_mk
  simp only [kdBase, genQueryText, allSelectsText, joinClausesText,
    whereClauseText, data_append, List.append_assoc]
  rfl

set_option maxRecDepth 100000 in
lemma kd_pass1 (o0 p0 off ps : Nat) :
    replaceAll toksOffsetMulti
      ("\nOFFSET " ++ (toString off ++ (" ROWS\nFETCH NEXT " ++
        (toString ps ++ " ROWS ONLY"))))
      (kdBase o0 p0)
    = "SELECT [t].*, fk_managerId.[name] as [managerId_display]\nFROM [dbo].[T] t\nLEFT JOIN [dbo].[Employee] fk_managerId ON [t].[managerId] = fk_managerId.[id]\nORDER BY t.[id] ASC" ++
      ("\nOFFSET " ++ (toString off ++ (" ROWS\nFETCH NEXT " ++
        (toString ps ++ " ROWS ONLY")))) := by
  rw [kdBase_eq]
  have htr := trace_OM (toString o0).data (toString p0).data []
    (natToString_all o0) (natToString_ne o0)
    (natToString_all p0) (natToString_ne p0)
  have hscan : scanFrom toksOffsetMulti
      (("SELECT [t].*, fk_managerId.[name] as [managerId_display]\nFROM [dbo].[T] t\nLEFT JOIN [dbo].[Employee] fk_managerId ON [t].[managerId] = fk_managerId.[id]\nORDER BY t.[id] ASC" ++
        ("\nOFFSET " ++ (toString o0 ++ (" ROWS\nFETCH NEXT " ++
          (toString p0 ++ " ROWS ONLY"))))).data)
      = some ("SELECT [t].*, fk_managerId.[name] as [managerId_display]\nFROM [dbo].[T] t\nLEFT JOIN [dbo].[Employee] fk_managerId ON [t].[managerId] = fk_managerId.[id]\nORDER BY t.[id] ASC".data,
          "\n".data ++ ("OFFSET".data ++ ([' '] ++ ((toString o0).data ++
            ([' '] ++ ("ROWS".data ++ (['\n'] ++ ("FETCH".data ++ ([' '] ++
            ("NEXT".data ++ ([' '] ++ ((toString p0).data ++ ([' '] ++
            ("ROWS".data ++ ([' '] ++ "ONLY".data)))))))))))))), []) :=
    scan_hit "SELECT [t].*, fk_managerId.[name] as [managerId_display]\nFROM [dbo].[T] t\nLEFT JOIN [dbo].[Employee] fk_managerId ON [t].[managerId] = fk_managerId.[id]\nORDER BY t.[id] ASC".data
      (by decide) htr
  refine (replaceAll_one hscan (by decide)).trans (data_eq_mk ?_)
  simp [data_append]

set_option maxRecDepth 100000 in
lemma kd_pass2 (off ps : Nat) :
    replaceAll toksOffsetSingle
      (" OFFSET " ++ (toString off ++ (" ROWS FETCH NEXT " ++
        (toString ps ++ " ROWS ONLY"))))
      ("SELECT [t].*, fk_managerId.[name] as [managerId_display]\nFROM [dbo].[T] t\nLEFT JOIN [dbo].[Employee] fk_managerId ON [t].[managerId] = fk_managerId.[id]\nORDER BY t.[id] ASC" ++
        ("\nOFFSET " ++ (toString off ++ (" ROWS\nFETCH NEXT " ++
          (toString ps ++ " ROWS ONLY")))))
    = "SELECT [t].*, fk_managerId.[name] as [managerId_display]\nFROM [dbo].[T] t\nLEFT JOIN [dbo].[Employee] fk_managerId ON [t].[managerId] = fk_managerId.[id]\nORDER BY t.[id] ASC" ++
      (" OFFSET " ++ (toString off ++ (" ROWS FETCH NEXT " ++
        (toString ps ++ " ROWS ONLY")))) := by
  have htr := trace_OS (toString off).data (toString ps).data []
    (natToString_all off) (natToString_ne off)
    (natToString_all ps) (natToString_ne ps)
  have hscan : scanFrom toksOffsetSingle
      (("SELECT [t].*, fk_managerId.[name] as [managerId_display]\nFROM [dbo].[T] t\nLEFT JOIN [dbo].[Employee] fk_managerId ON [t].[managerId] = fk_managerId.[id]\nORDER BY t.[id] ASC" ++
        ("\nOFFSET " ++ (toString off ++ (" ROWS\nFETCH NEXT " ++
          (toString ps ++ " ROWS ONLY"))))).data)
      = some ("SELECT [t].*, fk_managerId.[name] as [managerId_display]\nFROM [dbo].[T] t\nLEFT JOIN [dbo].[Employee] fk_managerId ON [t].[managerId] = fk_managerId.[id]\nORDER BY t.[id] ASC".data,
          ['\n'] ++ ("OFFSET".data ++ ([' '] ++ ((toString off).data ++
            ([' '] ++ ("ROWS".data ++ (['\n'] ++ ("FETCH".data ++ ([' '] ++
            ("NEXT".data ++ ([' '] ++ ((toString ps).data ++ ([' '] ++
            ("ROWS".data ++ ([' '] ++ "ONLY".data)))))))))))))), []) :=
    scan_hit "SELECT [t].*, fk_managerId.[name] as [managerId_display]\nFROM [dbo].[T] t\nLEFT JOIN [dbo].[Employee] fk_managerId ON [t].[managerId] = fk_managerId.[id]\nORDER BY t.[id] ASC".data
      (by decide) htr
  refine (replaceAll_one hscan (by decide)).trans (data_eq_mk ?_)
  simp [data_append]

set_option maxRecDepth 100000 in
lemma kd_pass3 (off ps : Nat) (repl : String) :
    replaceAll toksRnRange repl
      ("SELECT [t].*, fk_managerId.[name] as [managerId_display]\nFROM [dbo].[T] t\nLEFT JOIN [dbo].[Employee] fk_managerId ON [t].[managerId] = fk_managerId.[id]\nORDER BY t.[id] ASC" ++
        (" OFFSET " ++ (toString off ++ (" ROWS FETCH NEXT " ++
          (toString ps ++ " ROWS ONLY")))))
    = "SELECT [t].*, fk_managerId.[name] as [managerId_display]\nFROM [dbo].[T] t\nLEFT JOIN [dbo].[Employee] fk_managerId ON [t].[managerId] = fk_managerId.[id]\nORDER BY t.[id] ASC" ++
      (" OFFSET " ++ (toString off ++ (" ROWS FETCH NEXT " ++
        (toString ps ++ " ROWS ONLY")))) := by
  refine replaceAll_none ?_
  exact scan_none5 toksRnRange
    "SELECT [t].*, fk_managerId.[name] as [managerId_display]\nFROM [dbo].[T] t\nLEFT JOIN [dbo].[Employee] fk_managerId ON [t].[managerId] = fk_managerId.[id]\nORDER BY t.[id] ASC OFFSET ".data
    (toString off).data " ROWS FETCH NEXT ".data (toString ps).data
    " ROWS ONLY".data (by decide) (by decide) (by decide) (by decide)
    (natToString_all off) (natToString_all ps) (by decide)

set_option maxRecDepth 100000 in
lemma kd_pass4 (off ps : Nat) (repl : String) :
    replaceAll toksSelectTop repl
      ("SELECT [t].*, fk_managerId.[name] as [managerId_display]\nFROM [dbo].[T] t\nLEFT JOIN [dbo].[Employee] fk_managerId ON [t].[managerId] = fk_managerId.[id]\nORDER BY t.[id] ASC" ++
        (" OFFSET " ++ (toString off ++ (" ROWS FETCH NEXT " ++
          (toString ps ++ " ROWS ONLY")))))
    = "SELECT [t].*, fk_managerId.[name] as [managerId_display]\nFROM [dbo].[T] t\nLEFT JOIN [dbo].[Employee] fk_managerId ON [t].[managerId] = fk_managerId.[id]\nORDER BY t.[id] ASC" ++
      (" OFFSET " ++ (toString off ++ (" ROWS FETCH NEXT " ++
        (toString ps ++ " ROWS ONLY")))) := by
  refine replaceAll_none ?_
  exact scan_none5 toksSelectTop
    "SELECT [t].*, fk_managerId.[name] as [managerId_display]\nFROM [dbo].[T] t\nLEFT JOIN [dbo].[Employee] fk_managerId ON [t].[managerId] = fk_managerId.[id]\nORDER BY t.[id] ASC OFFSET ".data
    (toString off).data " ROWS FETCH NEXT ".data (toString ps).data
    " ROWS ONLY".data (by decide) (by decide) (by decide) (by decide)
    (natToString_all off) (natToString_all ps) (by decide)

set_option maxRecDepth 100000 in
lemma kd_selectReplace (gs : GridState) (visibleCols : List String) (off ps : Nat) :
    gridSelectReplace gs visibleCols
      ("SELECT [t].*, fk_managerId.[name] as [managerId_display]\nFROM [dbo].[T] t\nLEFT JOIN [dbo].[Employee] fk_managerId ON [t].[managerId] = fk_managerId.[id]\nORDER BY t.[id] ASC" ++
        (" OFFSET " ++ (toString off ++ (" ROWS FETCH NEXT " ++
          (toString ps ++ " ROWS ONLY")))))
    = "SELECT " ++ (gridColumnList gs visibleCols ++
        ("\nFROM [dbo].[T] t\nLEFT JOIN [dbo].[Employee] fk_managerId ON [t].[managerId] = fk_managerId.[id]\nORDER BY t.[id] ASC OFFSET " ++
          (toString off ++ (" ROWS FETCH NEXT " ++
            (toString ps ++ " ROWS ONLY"))))) := by
  have h1 : ("SELECT [t].*, fk_managerId.[name] as [managerId_display]\nFROM [dbo].[T] t\nLEFT JOIN [dbo].[Employee] fk_managerId ON [t].[managerId] = fk_managerId.[id]\nORDER BY t.[id] ASC".data).map
      Char.toUpper = "SELECT [T].*, FK_MANAGERID.[NAME] AS [MANAGERID_DISPLAY]\nFROM [DBO].[T] T\nLEFT JOIN [DBO].[EMPLOYEE] FK_MANAGERID ON [T].[MANAGERID] = FK_MANAGERID.[ID]\nORDER BY T.[ID] ASC".data := by
    decide
  have h2 : (" OFFSET ".data).map Char.toUpper = " OFFSET ".data := by decide
  have h3 : (" ROWS FETCH NEXT ".data).map Char.toUpper
      = " ROWS FETCH NEXT ".data := by decide
  have h4 : (" ROWS ONLY".data).map Char.toUpper = " ROWS ONLY".data := by decide
  have hup : (upperStr ("SELECT [t].*, fk_managerId.[name] as [managerId_display]\nFROM [dbo].[T] t\nLEFT JOIN [dbo].[Employee] fk_managerId ON [t].[managerId] = fk_managerId.[id]\nORDER BY t.[id] ASC" ++
      (" OFFSET " ++ (toString off ++ (" ROWS FETCH NEXT " ++
        (toString ps ++ " ROWS ONLY")))))).data
      = "SELECT [T].*, FK_MANAGERID.[NAME] AS [MANAGERID_DISPLAY]\nFROM [DBO].[T] T\nLEFT JOIN [DBO].[EMPLOYEE] FK_MANAGERID ON [T].[MANAGERID] = FK_MANAGERID.[ID]\nORDER BY T.[ID] ASC".data ++
        (" OFFSET ".data ++ ((toString off).data ++ (" ROWS FETCH NEXT ".data ++
          ((toString ps).data ++ " ROWS ONLY".data)))) := by
    show ("SELECT [t].*, fk_managerId.[name] as [managerId_display]\nFROM [dbo].[T] t\nLEFT JOIN [dbo].[Employee] fk_managerId ON [t].[managerId] = fk_managerId.[id]\nORDER BY t.[id] ASC".data ++
      (" OFFSET ".data ++ ((toString off).data ++ (" ROWS FETCH NEXT ".data ++
        ((toString ps).data ++ " ROWS ONLY".data))))).map Char.toUpper = _
    simp only [List.map_append, h1, h2, h3, h4,
      map_toUpper_digits (natToString_all off),
      map_toUpper_digits (natToString_all ps)]
  have hidx : idxOf (upperStr ("SELECT [t].*, fk_managerId.[name] as [managerId_display]\nFROM [dbo].[T] t\nLEFT JOIN [dbo].[Employee] fk_managerId ON [t].[managerId] = fk_managerId.[id]\nORDER BY t.[id] ASC" ++
      (" OFFSET " ++ (toString off ++ (" ROWS FETCH NEXT " ++
        (toString ps ++ " ROWS ONLY")))))) "\nFROM" = some 56 :=
    idxOf_concat hup (by decide) (by decide)
  have hdrop : (("SELECT [t].*, fk_managerId.[name] as [managerId_display]\nFROM [dbo].[T] t\nLEFT JOIN [dbo].[Employee] fk_managerId ON [t].[managerId] = fk_managerId.[id]\nORDER BY t.[id] ASC" ++
      (" OFFSET " ++ (toString off ++ (" ROWS FETCH NEXT " ++
        (toString ps ++ " ROWS ONLY"))))).data).drop 57
      = "FROM [dbo].[T] t\nLEFT JOIN [dbo].[Employee] fk_managerId ON [t].[managerId] = fk_managerId.[id]\nORDER BY t.[id] ASC".data ++
        (" OFFSET ".data ++ ((toString off).data ++ (" ROWS FETCH NEXT ".data ++
          ((toString ps).data ++ " ROWS ONLY".data)))) := by
    show ("SELECT [t].*, fk_managerId.[name] as [managerId_display]\nFROM [dbo].[T] t\nLEFT JOIN [dbo].[Employee] fk_managerId ON [t].[managerId] = fk_managerId.[id]\nORDER BY t.[id] ASC".data ++
      (" OFFSET ".data ++ ((toString off).data ++ (" ROWS FETCH NEXT ".data ++
        ((toString ps).data ++ " ROWS ONLY".data))))).drop 57 = _
    rw [drop_append_le (by decide)]
    rw [show ("SELECT [t].*, fk_managerId.[name] as [managerId_display]\nFROM [dbo].[T] t\nLEFT JOIN [dbo].[Employee] fk_managerId ON [t].[managerId] = fk_managerId.[id]\nORDER BY t.[id] ASC".data).drop 57
      = "FROM [dbo].[T] t\nLEFT JOIN [dbo].[Employee] fk_managerId ON [t].[managerId] = fk_managerId.[id]\nORDER BY t.[id] ASC".data from by decide]
  rw [gridSelectReplace_some hidx (by omega)]
  rw [show (56 + 1 : Nat) = 57 from rfl, hdrop]
  apply data_eq_mk
  simp [data_append]

set_option maxRecDepth 100000 in
lemma famSame_eval (o0 p0 page ps : Nat) :
    generateQueryFromGrid (gsFamSame o0 p0 page ps)
    = "SELECT [t].[id], [t].[managerId], fk_managerId.[name] as [managerId_display]\nFROM [dbo].[T] t\nLEFT JOIN [dbo].[Employee] fk_managerId ON [t].[managerId] = fk_managerId.[id]\nORDER BY t.[id] ASC OFFSET " ++
      (toString ((page - 1) * ps) ++ (" ROWS FETCH NEXT " ++
        (toString ps ++ " ROWS ONLY"))) := by
  have hfil3 : List.filter (fun id => !strEndsWith id "_display")
      ["id", "managerId", "managerId_display"] = ["id", "managerId"] := rfl
  have hcol : gridColumnList (gsFamSame o0 p0 page ps) ["id", "managerId"]
      = "[t].[id], [t].[managerId], fk_managerId.[name] as [managerId_display]" := rfl
  simp only [generateQueryFromGrid]
  simp only [show (gsFamSame o0 p0 page ps).baseQuery = some (kdBase o0 p0) from rfl,
    show (gsFamSame o0 p0 page ps).page = page from rfl,
    show (gsFamSame o0 p0 page ps).pageSize = ps from rfl,
    show (gsFamSame o0 p0 page ps).visibleColumnIds
      = ["id", "managerId", "managerId_display"] from rfl,
    show (gsFamSame o0 p0 page ps).allColumnIds
      = ["id", "managerId", "managerId_display"] from rfl,
    show (gsFamSame o0 p0 page ps).fkDisplayMode = "key-display" from rfl,
    hfil3]
  simp only [strAppend_assoc]
  rw [kd_pass1, kd_pass2, kd_pass3, kd_pass4]
  have hcond : (decide (["id", "managerId"].length < ["id", "managerId"].length) ||
      "key-display" == "key-display" || "key-display" == "display-only") = true := by
    decide
  rw [if_pos hcond]
  rw [kd_selectReplace, hcol]
  have hmerge : ∀ X : String,
      "SELECT " ++ ("[t].[id], [t].[managerId], fk_managerId.[name] as [managerId_display]" ++
        ("\nFROM [dbo].[T] t\nLEFT JOIN [dbo].[Employee] fk_managerId ON [t].[managerId] = fk_managerId.[id]\nORDER BY t.[id] ASC OFFSET " ++ X))
      = "SELECT [t].[id], [t].[managerId], fk_managerId.[name] as [managerId_display]\nFROM [dbo].[T] t\nLEFT JOIN [dbo].[Employee] fk_managerId ON [t].[managerId] = fk_managerId.[id]\nORDER BY t.[id] ASC OFFSET " ++ X :=
    fun X => rfl
  rw [hmerge]
  rw [pagetail_pass6 "SELECT [t].[id], [t].[managerId], fk_managerId.[name] as [managerId_display]\nFROM [dbo].[T] t\nLEFT JOIN [dbo].[Employee] fk_managerId ON [t].[managerId] = fk_managerId.[id]\nORDER BY t.[id] ASC OFFSET "
    ((page - 1) * ps) ps (by decide) (by decide) (by decide)]
  have hlj : testToks toksLeftJoin
      ("SELECT [t].[id], [t].[managerId], fk_managerId.[name] as [managerId_display]\nFROM [dbo].[T] t\nLEFT JOIN [dbo].[Employee] fk_managerId ON [t].[managerId] = fk_managerId.[id]\nORDER BY t.[id] ASC OFFSET " ++
        (toString ((page - 1) * ps) ++ (" ROWS FETCH NEXT " ++
          (toString ps ++ " ROWS ONLY")))) = true :=
    testToks_of_suffix "SELECT [t].[id], [t].[managerId], fk_managerId.[name] as [managerId_display]\nFROM [dbo].[T] t\n".data
      rfl
      (trace_LJ (" [dbo].[Employee] fk_managerId ON [t].[managerId] = fk_managerId.[id]\nORDER BY t.[id] ASC OFFSET ".data ++
        ((toString ((page - 1) * ps)).data ++ (" ROWS FETCH NEXT ".data ++
          ((toString ps).data ++ " ROWS ONLY".data)))))
  rw [appendJoins_skip_lj hlj]
  have hOR : testToks toksOffsetRows
      ("SELECT [t].[id], [t].[managerId], fk_managerId.[name] as [managerId_display]\nFROM [dbo].[T] t\nLEFT JOIN [dbo].[Employee] fk_managerId ON [t].[managerId] = fk_managerId.[id]\nORDER BY t.[id] ASC OFFSET " ++
        (toString ((page - 1) * ps) ++ (" ROWS FETCH NEXT " ++
          (toString ps ++ " ROWS ONLY")))) = true :=
    testToks_of_suffix "SELECT [t].[id], [t].[managerId], fk_managerId.[name] as [managerId_display]\nFROM [dbo].[T] t\nLEFT JOIN [dbo].[Employee] fk_managerId ON [t].[managerId] = fk_managerId.[id]\nORDER BY t.[id] ASC ".data
      rfl
      (trace_OR (toString ((page - 1) * ps)).data
        (" FETCH NEXT ".data ++ ((toString ps).data ++ " ROWS ONLY".data))
        (natToString_all _) (natToString_ne _))
  rw [ensure_skip_offset _ _ hOR]

lemma rnBase_eq (o0 p0 : Nat) :
    rnBase o0 p0 = "SELECT [t].*\nFROM (\n  SELECT *, ROW_NUMBER() OVER (ORDER BY (SELECT NULL)) as rn\n  FROM [dbo].[T]\n) t\nWHERE t.rn > " ++
      (toString o0 ++ (" AND t.rn <= " ++
        (toString (o0 + p0) ++ "\nORDER BY t.rn"))) := by
  apply data_eq_mk
  simp only [rnBase, genQueryText, allSelectsText, joinClausesText,
    whereClauseText, data_append, List.append_assoc]
  rfl

set_option maxRecDepth 100000 in
lemma rn_pass1 (o0 p0 : Nat) (repl : String) :
    replaceAll toksOffsetMulti repl (rnBase o0 p0)
    = "SELECT [t].*\nFROM (\n  SELECT *, ROW_NUMBER() OVER (ORDER BY (SELECT NULL)) as rn\n  FROM [dbo].[T]\n) t\nWHERE t.rn > " ++
      (toString o0 ++ (" AND t.rn <= " ++
        (toString (o0 + p0) ++ "\nORDER BY t.rn"))) := by
  rw [rnBase_eq]
  refine replaceAll_none ?_
  exact scan_none5 toksOffsetMulti
    "SELECT [t].*\nFROM (\n  SELECT *, ROW_NUMBER() OVER (ORDER BY (SELECT NULL)) as rn\n  FROM [dbo].[T]\n) t\nWHERE t.rn > ".data
    (toString o0).data " AND t.rn <= ".data (toString (o0 + p0)).data
    "\nORDER BY t.rn".data (by decide) (by decide) (by decide) (by decide)
    (natToString_all _) (natToString_all _) (by decide)

lemma ciEq_O_digit {a : Char} (ha : isDigitChar a = true) :
    ciEq 'O' a = false := by
  simp only [ciEq]
  rw [beq_eq_false_iff_ne, digit_toLower ha]
  intro he
  rw [← he] at ha
  exact absurd ha (by decide)

lemma OS_ws_digit_none {d rest : List Char} (hd : d.all isDigitChar = true)
    (hne : d ≠ []) {w : Char} (hw : isWsChar w = true) :
    matchToks toksOffsetSingle (w :: (d ++ rest)) = none := by
  cases d with
  | nil => exact absurd rfl hne
  | cons a d' =>
    simp only [List.all_cons, Bool.and_eq_true] at hd
    obtain ⟨ha, _⟩ := hd
    show matchToks (RTok.ws1 :: _) (w :: (a :: d' ++ rest)) = none
    rw [matchToks_ws1_cons, if_pos hw]
    have hstop : matchGr isWsChar
        [RTok.lit "OFFSET", RTok.ws1, RTok.digits1, RTok.ws1, RTok.lit "ROWS",
         RTok.ws1, RTok.lit "FETCH", RTok.ws1, RTok.lit "NEXT", RTok.ws1,
         RTok.digits1, RTok.ws1, RTok.lit "ROWS", RTok.ws1, RTok.lit "ONLY"]
        ((a :: d') ++ rest) = matchToks
        [RTok.lit "OFFSET", RTok.ws1, RTok.digits1, RTok.ws1, RTok.lit "ROWS",
         RTok.ws1, RTok.lit "FETCH", RTok.ws1, RTok.lit "NEXT", RTok.ws1,
         RTok.digits1, RTok.ws1, RTok.lit "ROWS", RTok.ws1, RTok.lit "ONLY"]
        ((a :: d') ++ rest) :=
      matchGr_stop _ _ (by rw [digit_not_ws ha])
    rw [hstop, matchToks_lit]
    rw [show litConsume "OFFSET".data ((a :: d') ++ rest) = none from by
      show (if ciEq 'O' a = true then _ else none) = none
      rw [ciEq_O_digit ha]
      simp]

lemma scan_cons_none {toks : List RTok} {c : Char} {cs : List Char}
    (h : matchToks toks (c :: cs) = none) :
    scanFrom toks (c :: cs)
      = (scanFrom toks cs).map (fun x => (c :: x.1, x.2.1, x.2.2)) := by
  rw [scanFrom_cons, h]
  cases hs : scanFrom toks cs with
  | none => simp
  | some x => obtain ⟨pre, m, r⟩ := x; simp

set_option maxRecDepth 100000 in
lemma rn_pass2 (o0 p0 : Nat) (repl : String) :
    replaceAll toksOffsetSingle repl
      ("SELECT [t].*\nFROM (\n  SELECT *, ROW_NUMBER() OVER (ORDER BY (SELECT NULL)) as rn\n  FROM [dbo].[T]\n) t\nWHERE t.rn > " ++
        (toString o0 ++ (" AND t.rn <= " ++
          (toString (o0 + p0) ++ "\nORDER BY t.rn"))))
    = "SELECT [t].*\nFROM (\n  SELECT *, ROW_NUMBER() OVER (ORDER BY (SELECT NULL)) as rn\n  FROM [dbo].[T]\n) t\nWHERE t.rn > " ++
      (toString o0 ++ (" AND t.rn <= " ++
        (toString (o0 + p0) ++ "\nORDER BY t.rn"))) := by
  refine replaceAll_none ?_
  have t0 : scanFrom toksOffsetSingle "\nORDER BY t.rn".data = none := by decide
  have t1 : scanFrom toksOffsetSingle
      ((toString (o0 + p0)).data ++ "\nORDER BY t.rn".data) = none := by
    have h := @scan_skip_digits toksOffsetSingle (by decide) (toString (o0 + p0)).data
      (natToString_all _) "\nORDER BY t.rn".data
    rw [t0] at h
    simpa using h
  have t2 : scanFrom toksOffsetSingle
      (' ' :: ((toString (o0 + p0)).data ++ "\nORDER BY t.rn".data)) = none := by
    rw [scan_cons_none (OS_ws_digit_none (natToString_all _)
      (natToString_ne _) (by decide)), t1]
    rfl
  have t3 : scanFrom toksOffsetSingle
      (" AND t.rn <=".data ++ (' ' :: ((toString (o0 + p0)).data ++
        "\nORDER BY t.rn".data))) = none := by
    have h := @scan_skip_conc toksOffsetSingle " AND t.rn <=".data (by decide)
      (' ' :: ((toString (o0 + p0)).data ++ "\nORDER BY t.rn".data))
    rw [t2] at h
    simpa using h
  have t4 : scanFrom toksOffsetSingle
      ((toString o0).data ++ (" AND t.rn <=".data ++ (' ' ::
        ((toString (o0 + p0)).data ++ "\nORDER BY t.rn".data)))) = none := by
    have h := @scan_skip_digits toksOffsetSingle (by decide) (toString o0).data
      (natToString_all _) (" AND t.rn <=".data ++ (' ' ::
        ((toString (o0 + p0)).data ++ "\nORDER BY t.rn".data)))
    rw [t3] at h
    simpa using h
  have t5 : scanFrom toksOffsetSingle
      (' ' :: ((toString o0).data ++ (" AND t.rn <=".data ++ (' ' ::
        ((toString (o0 + p0)).data ++ "\nORDER BY t.rn".data))))) = none := by
    rw [scan_cons_none (OS_ws_digit_none (natToString_all _)
      (natToString_ne _) (by decide)), t4]
    rfl
  have t6 : scanFrom toksOffsetSingle
      ("SELECT [t].*\nFROM (\n  SELECT *, ROW_NUMBER() OVER (ORDER BY (SELECT NULL)) as rn\n  FROM [dbo].[T]\n) t\nWHERE t.rn >".data ++
        (' ' :: ((toString o0).data ++ (" AND t.rn <=".data ++ (' ' ::
          ((toString (o0 + p0)).data ++ "\nORDER BY t.rn".data)))))) = none := by
    have h := @scan_skip_conc toksOffsetSingle
      "SELECT [t].*\nFROM (\n  SELECT *, ROW_NUMBER() OVER (ORDER BY (SELECT NULL)) as rn\n  FROM [dbo].[T]\n) t\nWHERE t.rn >".data
      (by decide)
      (' ' :: ((toString o0).data ++ (" AND t.rn <=".data ++ (' ' ::
        ((toString (o0 + p0)).data ++ "\nORDER BY t.rn".data)))))
    rw [t5] at h
    simpa using h
  exact t6

set_option maxRecDepth 100000 in
lemma rn_pass3 (o0 p0 off2 ps2 : Nat) :
    replaceAll toksRnRange
      ("WHERE t.rn > " ++ (toString off2 ++ (" AND t.rn <= " ++
        toString (off2 + ps2))))
      ("SELECT [t].*\nFROM (\n  SELECT *, ROW_NUMBER() OVER (ORDER BY (SELECT NULL)) as rn\n  FROM [dbo].[T]\n) t\nWHERE t.rn > " ++
        (toString o0 ++ (" AND t.rn <= " ++
          (toString (o0 + p0) ++ "\nORDER BY t.rn"))))
    = "SELECT [t].*\nFROM (\n  SELECT *, ROW_NUMBER() OVER (ORDER BY (SELECT NULL)) as rn\n  FROM [dbo].[T]\n) t\nWHERE t.rn > " ++
      (toString off2 ++ (" AND t.rn <= " ++
        (toString (off2 + ps2) ++ "\nORDER BY t.rn"))) := by
  have htr := trace_RR (toString o0).data (toString (o0 + p0)).data
    "ORDER BY t.rn".data
    (natToString_all _) (natToString_ne _) (natToString_all _) (natToString_ne _)
  have hscan : scanFrom toksRnRange
      (("SELECT [t].*\nFROM (\n  SELECT *, ROW_NUMBER() OVER (ORDER BY (SELECT NULL)) as rn\n  FROM [dbo].[T]\n) t\nWHERE t.rn > " ++
        (toString o0 ++ (" AND t.rn <= " ++
          (toString (o0 + p0) ++ "\nORDER BY t.rn")))).data)
      = some ("SELECT [t].*\nFROM (\n  SELECT *, ROW_NUMBER() OVER (ORDER BY (SELECT NULL)) as rn\n  FROM [dbo].[T]\n) t\n".data,
          "WHERE".data ++ ([' '] ++ ("t".data ++ (".rn".data ++ ([' '] ++
            (">".data ++ ([' '] ++ ((toString o0).data ++ ([' '] ++
            ("AND".data ++ ([' '] ++ ("t".data ++ (".rn".data ++ ([' '] ++
            ("<=".data ++ ([' '] ++ (toString (o0 + p0)).data))))))))))))))),
          '\n' :: "ORDER BY t.rn".data) :=
    scan_hit "SELECT [t].*\nFROM (\n  SELECT *, ROW_NUMBER() OVER (ORDER BY (SELECT NULL)) as rn\n  FROM [dbo].[T]\n) t\n".data
      (by decide) htr
  refine (replaceAll_one hscan (by decide)).trans (data_eq_mk ?_)
  simp [data_append]

set_option maxRecDepth 100000 in
lemma rn_pass4 (off2 ps2 : Nat) (repl : String) :
    replaceAll toksSelectTop repl
      ("SELECT [t].*\nFROM (\n  SELECT *, ROW_NUMBER() OVER (ORDER BY (SELECT NULL)) as rn\n  FROM [dbo].[T]\n) t\nWHERE t.rn > " ++
        (toString off2 ++ (" AND t.rn <= " ++
          (toString (off2 + ps2) ++ "\nORDER BY t.rn"))))
    = "SELECT [t].*\nFROM (\n  SELECT *, ROW_NUMBER() OVER (ORDER BY (SELECT NULL)) as rn\n  FROM [dbo].[T]\n) t\nWHERE t.rn > " ++
      (toString off2 ++ (" AND t.rn <= " ++
        (toString (off2 + ps2) ++ "\nORDER BY t.rn"))) := by
  refine replaceAll_none ?_
  exact scan_none5 toksSelectTop
    "SELECT [t].*\nFROM (\n  SELECT *, ROW_NUMBER() OVER (ORDER BY (SELECT NULL)) as rn\n  FROM [dbo].[T]\n) t\nWHERE t.rn > ".data
    (toString off2).data " AND t.rn <= ".data (toString (off2 + ps2)).data
    "\nORDER BY t.rn".data (by decide) (by decide) (by decide) (by decide)
    (natToString_all _) (natToString_all _) (by decide)

set_option maxRecDepth 100000 in
lemma rn_pass6 (off2 ps2 : Nat) :
    trimStr (replaceAll toksTripleNl "\n\n"
      ("SELECT [t].*\nFROM (\n  SELECT *, ROW_NUMBER() OVER (ORDER BY (SELECT NULL)) as rn\n  FROM [dbo].[T]\n) t\nWHERE t.rn > " ++
        (toString off2 ++ (" AND t.rn <= " ++
          (toString (off2 + ps2) ++ "\nORDER BY t.rn")))))
    = "SELECT [t].*\nFROM (\n  SELECT *, ROW_NUMBER() OVER (ORDER BY (SELECT NULL)) as rn\n  FROM [dbo].[T]\n) t\nWHERE t.rn > " ++
      (toString off2 ++ (" AND t.rn <= " ++
        (toString (off2 + ps2) ++ "\nORDER BY t.rn"))) := by
  have hnone : scanFrom toksTripleNl
      (("SELECT [t].*\nFROM (\n  SELECT *, ROW_NUMBER() OVER (ORDER BY (SELECT NULL)) as rn\n  FROM [dbo].[T]\n) t\nWHERE t.rn > " ++
        (toString off2 ++ (" AND t.rn <= " ++
          (toString (off2 + ps2) ++ "\nORDER BY t.rn")))).data) = none :=
    scan_none5 toksTripleNl
      "SELECT [t].*\nFROM (\n  SELECT *, ROW_NUMBER() OVER (ORDER BY (SELECT NULL)) as rn\n  FROM [dbo].[T]\n) t\nWHERE t.rn > ".data
      (toString off2).data " AND t.rn <= ".data (toString (off2 + ps2)).data
      "\nORDER BY t.rn".data (by decide) (by decide) (by decide) (by decide)
      (natToString_all _) (natToString_all _) (by decide)
  rw [replaceAll_none hnone]
  refine trim_chunks
    "SELECT [t].*\nFROM (\n  SELECT *, ROW_NUMBER() OVER (ORDER BY (SELECT NULL)) as rn\n  FROM [dbo].[T]\n) t\nWHERE t.rn > ".data
    ((toString off2).data ++ (" AND t.rn <= ".data ++ (toString (off2 + ps2)).data))
    "\nORDER BY t.rn".data ?_ (by decide) (by decide) (by decide) (by decide)
  simp [data_append]

set_option maxRecDepth 100000 in
lemma famRn_eval (o0 p0 page ps : Nat) :
    generateQueryFromGrid (gsFamRn o0 p0 page ps)
    = "SELECT [t].*\nFROM (\n  SELECT *, ROW_NUMBER() OVER (ORDER BY (SELECT NULL)) as rn\n  FROM [dbo].[T]\n) t\nWHERE t.rn > " ++
      (toString ((page - 1) * ps) ++ (" AND t.rn <= " ++
        (toString ((page - 1) * ps + ps) ++ "\nORDER BY t.rn"))) := by
  have hfil2 : List.filter (fun id => !strEndsWith id "_display")
      ["id", "managerId"] = ["id", "managerId"] := rfl
  simp only [generateQueryFromGrid]
  simp only [show (gsFamRn o0 p0 page ps).baseQuery = some (rnBase o0 p0) from rfl,
    show (gsFamRn o0 p0 page ps).page = page from rfl,
    show (gsFamRn o0 p0 page ps).pageSize = ps from rfl,
    show (gsFamRn o0 p0 page ps).visibleColumnIds = ["id", "managerId"] from rfl,
    show (gsFamRn o0 p0 page ps).allColumnIds = ["id", "managerId"] from rfl,
    show (gsFamRn o0 p0 page ps).fkDisplayMode = "key-only" from rfl,
    hfil2]
  simp only [strAppend_assoc]
  rw [rn_pass1, rn_pass2, rn_pass3, rn_pass4]
  have hcond : ¬((decide (["id", "managerId"].length < ["id", "managerId"].length) ||
      "key-only" == "key-display" || "key-only" == "display-only") = true) := by
    decide
  rw [if_neg hcond]
  rw [rn_pass6]
  rw [appendJoins_skip_mode (show ((gsFamRn o0 p0 page ps).fkDisplayMode ==
    "key-display" || (gsFamRn o0 p0 page ps).fkDisplayMode ==
    "display-only") = false from rfl)]
  have hRG : testToks toksRnGt
      ("SELECT [t].*\nFROM (\n  SELECT *, ROW_NUMBER() OVER (ORDER BY (SELECT NULL)) as rn\n  FROM [dbo].[T]\n) t\nWHERE t.rn > " ++
        (toString ((page - 1) * ps) ++ (" AND t.rn <= " ++
          (toString ((page - 1) * ps + ps) ++ "\nORDER BY t.rn")))) = true :=
    testToks_of_suffix "SELECT [t].*\nFROM (\n  SELECT *, ROW_NUMBER() OVER (ORDER BY (SELECT NULL)) as rn\n  FROM [dbo].[T]\n) t\nWHERE t".data
      rfl
      (trace_RG (' ' :: ((toString ((page - 1) * ps)).data ++
        (" AND t.rn <= ".data ++ ((toString ((page - 1) * ps + ps)).data ++
          "\nORDER BY t.rn".data)))))
  rw [ensure_skip_rn _ _ hRG]

set_option maxRecDepth 100000 in
/-- C9 amended: `generateQueryFromGrid` patches the previously generated
text in place, uniformly over the server-generated text family of the
`dbo.T` table — arbitrary previous pagination numbers `o0`, `p0` embedded
in the text and arbitrary current `page` and `pageSize`.  The pagination
clause (OFFSET/FETCH — re-emitted on a single line by the second
replacement pass — or the rn-range predicate) is replaced with one
computed from the current page and page size; the select-list segment
between the leading SELECT and the first FROM is rebuilt whenever some
visible column is hidden (`gsFamHidden`) or the FK display mode is
key-display or display-only (`gsFamSame`, `gsFamJoins` — hence also when
nothing differs from the state that produced the text); the LEFT JOIN
clauses derived from the table structure are appended when the display
mode requires joins and the text contains none (`gsFamJoins`); everything
after the first FROM other than these segments is preserved (`gsFamRn`,
`gsFamHidden`). -/
theorem reconstruct_patch :
    ∀ o0 p0 page pageSize : Nat,
      generateQueryFromGrid (gsFamSame o0 p0 page pageSize)
        = "SELECT [t].[id], [t].[managerId], fk_managerId.[name] as [managerId_display]\nFROM [dbo].[T] t\nLEFT JOIN [dbo].[Employee] fk_managerId ON [t].[managerId] = fk_managerId.[id]\nORDER BY t.[id] ASC OFFSET "
          ++ toString ((page - 1) * pageSize) ++ " ROWS FETCH NEXT "
          ++ toString pageSize ++ " ROWS ONLY" ∧
      generateQueryFromGrid (gsFamJoins o0 p0 page pageSize)
        = "SELECT [t].[id], [t].[managerId], fk_managerId.[name] as [managerId_display]\nFROM [dbo].[T] t\nLEFT JOIN [dbo].[Employee] fk_managerId ON [t].[managerId] = fk_managerId.[id]\nORDER BY t.[id] ASC OFFSET "
          ++ toString ((page - 1) * pageSize) ++ " ROWS FETCH NEXT "
          ++ toString pageSize ++ " ROWS ONLY" ∧
      generateQueryFromGrid (gsFamRn o0 p0 page pageSize)
        = "SELECT [t].*\nFROM (\n  SELECT *, ROW_NUMBER() OVER (ORDER BY (SELECT NULL)) as rn\n  FROM [dbo].[T]\n) t\nWHERE t.rn > "
          ++ toString ((page - 1) * pageSize) ++ " AND t.rn <= "
          ++ toString ((page - 1) * pageSize + pageSize) ++ "\nORDER BY t.rn" ∧
      generateQueryFromGrid (gsFamHidden o0 p0 page pageSize)
        = "SELECT [t].[id]\nFROM [dbo].[T] t\nORDER BY t.[id] ASC OFFSET "
          ++ toString ((page - 1) * pageSize) ++ " ROWS FETCH NEXT "
          ++ toString pageSize ++ " ROWS ONLY" :=
  fun o0 p0 page pageSize =>
    ⟨(famSame_eval o0 p0 page pageSize).trans (data_eq_mk (by simp [data_append])),
     (famJoins_eval o0 p0 page pageSize).trans (data_eq_mk (by simp [data_append])),
     (famRn_eval o0 p0 page pageSize).trans (data_eq_mk (by simp [data_append])),
     (famHidden_eval o0 p0 page pageSize).trans (data_eq_mk (by simp [data_append]))⟩
end Datapeek
